import Mathlib

/-!
# mate-notification-daemon: the notification lifecycle engine

A shallow embedding of `src/daemon/daemon.c`.  The daemon is single threaded and
every entry point runs to completion on the GLib main loop, so each C function
becomes a pure function on an explicit daemon state.

Conventions of the embedding:

* `guint` ids, X window ids and `GtkWindow*` handles are natural numbers
  (`NULL` / `None` is `0`); `int` and `glong` values are integers.  `glong` is the
  64 bit `long` of the LP64 platforms the daemon is built for; the one product
  the source guards against overflow (`timeout * 1000L`) is wrapped explicitly,
  and `timeout_usec_bits` is the same computation for a `long` of another width.
* A `GHashTable` is an association list; insertion replaces the value of an
  existing key, which is what keeps the keys of a table distinct.
* Every read of the wall clock (`g_get_current_time`) is an argument `now` of
  the function that performs it.  The expiration sweep reads the clock once per
  entry, so it takes a `clock` that gives the reading for each entry.
* Calls into the collaborators that are outside the daemon (theme engine, D-Bus,
  X11, the stack module) are appended to `trace` in call order.
-/

namespace MateNotificationDaemon

/-! ## Machine constants -/

/-- The largest `guint` (32 bits). -/
def UINT_MAX : Nat := 4294967295

/-- The largest `int` (32 bits). -/
def INT_MAX : Int := 2147483647

/-- The largest `glong` (64 bits, LP64). -/
def G_MAXLONG : Int := 9223372036854775807

/-- Microseconds per second, GLib's `G_USEC_PER_SEC`. -/
def G_USEC_PER_SEC : Int := 1000000

/-- Source line 54: `#define MAX_NOTIFICATIONS 20`. -/
def MAX_NOTIFICATIONS : Nat := 20

/-- Source line 56: `#define IDLE_SECONDS 30`. -/
def IDLE_SECONDS : Nat := 30

/-- Two's complement wrap of an integer into the range of a 64 bit `glong`. -/
def wrapLong (x : Int) : Int :=
  (x + 9223372036854775808) % 18446744073709551616 - 9223372036854775808

/-- The largest `glong` where `long` has `bits` bits; `G_MAXLONG` is the case
of 64 bits. -/
def G_MAXLONG_bits (bits : Nat) : Int := 2 ^ (bits - 1) - 1

/-- Two's complement wrap of an integer into the range of a `glong` of `bits`
bits; `wrapLong` is the case of 64 bits. -/
def wrapLongBits (bits : Nat) (x : Int) : Int :=
  (x + 2 ^ (bits - 1)) % 2 ^ bits - 2 ^ (bits - 1)

/-! ## Time values -/

/-- GLib's `GTimeVal`: seconds and microseconds, both `glong`. -/
structure GTimeVal where
  tv_sec : Int
  tv_usec : Int
deriving DecidableEq, Repr

/-- GLib's `g_time_val_add (time_, microseconds)`, following the library's
implementation: nothing is done unless `tv_usec` is in `0 .. 999999`
(`g_return_if_fail`); the offset is split into whole seconds and a microsecond
rest, and one carry (or borrow) renormalises `tv_usec`. -/
def g_time_val_add (time_ : GTimeVal) (microseconds : Int) : GTimeVal :=
  if ¬ (0 ≤ time_.tv_usec ∧ time_.tv_usec < G_USEC_PER_SEC) then time_
  else if 0 ≤ microseconds then
    let usec := time_.tv_usec + microseconds % G_USEC_PER_SEC
    let sec := time_.tv_sec + microseconds / G_USEC_PER_SEC
    if G_USEC_PER_SEC ≤ usec then
      { tv_sec := sec + 1, tv_usec := usec - G_USEC_PER_SEC }
    else
      { tv_sec := sec, tv_usec := usec }
  else
    let m := -microseconds
    let usec := time_.tv_usec - m % G_USEC_PER_SEC
    let sec := time_.tv_sec - m / G_USEC_PER_SEC
    if usec < 0 then
      { tv_sec := sec - 1, tv_usec := usec + G_USEC_PER_SEC }
    else
      { tv_sec := sec, tv_usec := usec }

/-- The number of microseconds a time value stands for. -/
def GTimeVal.toUsec (t : GTimeVal) : Int :=
  t.tv_sec * 1000000 + t.tv_usec

/-- A time value whose microsecond field is in `0 .. 999999`, as every value
returned by `g_get_current_time` is. -/
def GTimeVal.Normal (t : GTimeVal) : Prop :=
  0 ≤ t.tv_usec ∧ t.tv_usec < 1000000

instance (t : GTimeVal) : Decidable t.Normal := by
  unfold GTimeVal.Normal; infer_instance

/-- The millisecond value `_is_expired` computes from a time value (lines 729
and 730): `tv_sec * 1000 + tv_usec / 1000`, with C's truncating division. -/
def GTimeVal.toMsec (t : GTimeVal) : Int :=
  t.tv_sec * 1000 + Int.tdiv t.tv_usec 1000

/-! ## Hash tables -/

/-- A `GHashTable` keyed by integers that fit a pointer. -/
abbrev GHashTable (ν : Type) := List (Nat × ν)

/-- The keys of a table, in iteration order. -/
def GHashTable.keys {ν : Type} (h : GHashTable ν) : List Nat :=
  h.map Prod.fst

/-- `g_hash_table_lookup`: the value stored under `key`, `none` for `NULL`. -/
def g_hash_table_lookup {ν : Type} : GHashTable ν → Nat → Option ν
  | [], _ => none
  | (k, v) :: rest, key => if k = key then some v else g_hash_table_lookup rest key

/-- `g_hash_table_insert`: a present key gets the new value, a new key is
added. -/
def g_hash_table_insert {ν : Type} : GHashTable ν → Nat → ν → GHashTable ν
  | [], key, value => [(key, value)]
  | (k, v) :: rest, key, value =>
    if k = key then (k, value) :: rest else (k, v) :: g_hash_table_insert rest key value

/-- `g_hash_table_remove`: drops the entry of `key`, if there is one. -/
def g_hash_table_remove {ν : Type} (h : GHashTable ν) (key : Nat) : GHashTable ν :=
  h.filter (fun e => decide (e.1 ≠ key))

/-- A store through a pointer that `g_hash_table_lookup` returned for `key`:
the value of that entry is overwritten in place; keys and order stay. -/
def write_entry {ν : Type} : GHashTable ν → Nat → ν → GHashTable ν
  | [], _, _ => []
  | (k, v) :: rest, key, value =>
    (k, if k = key then value else v) :: write_entry rest key value

/-- `g_hash_table_size`. -/
def g_hash_table_size {ν : Type} (h : GHashTable ν) : Nat :=
  h.length

/-- `g_hash_table_foreach_remove (table, func, user_data)`: `func` is called
on every entry with the threaded state `σ` (the user data and whatever else the
callback touches); it may update the value it is handed in place; an entry for
which it returns `TRUE` is removed and handed to the table's value destructor. -/
def g_hash_table_foreach_remove {ν σ : Type} (func : Nat → ν → σ → Bool × ν × σ)
    (destroy : ν → σ → σ) : GHashTable ν → σ → GHashTable ν × σ
  | [], s => ([], s)
  | (k, v) :: rest, s =>
    match func k v s with
    | (true, v', s') =>
      g_hash_table_foreach_remove func destroy rest (destroy v' s')
    | (false, v', s') =>
      let r := g_hash_table_foreach_remove func destroy rest s'
      ((k, v') :: r.1, r.2)

/-! ## Daemon state -/

/-- The closed reasons of `daemon.h`, in the order of the D-Bus protocol
(expired = 1, dismissed by the user = 2, closed by a call = 3, undefined = 4). -/
inductive NotifydClosedReason where
  | NOTIFYD_CLOSED_EXPIRED
  | NOTIFYD_CLOSED_USER
  | NOTIFYD_CLOSED_API
  | NOTIFYD_CLOSED_RESERVED
deriving DecidableEq, Repr

open NotifydClosedReason

/-- Source lines 82 to 91: the registry's record of one live notification.  The
back pointer to the daemon is the state argument of every function. -/
structure NotifyTimeout where
  expiration : GTimeVal
  paused_diff : GTimeVal
  id : Nat
  nw : Nat
  src_window_xid : Nat
  has_timeout : Bool
  paused : Bool
deriving DecidableEq, Repr

/-- What `g_new0 (NotifyTimeout, 1)` returns: every field zero. -/
def NotifyTimeout.zero : NotifyTimeout :=
  { expiration := ⟨0, 0⟩, paused_diff := ⟨0, 0⟩, id := 0, nw := 0,
    src_window_xid := 0, has_timeout := false, paused := false }

/-- The callbacks the daemon registers with the GLib main loop. -/
inductive SourceFunc where
  | do_exit
  | _check_expiration
  | idle_reposition_notification (id : Nat)
  | _close_notification_not_shown (id : Nat)
deriving DecidableEq, Repr

/-- A timeout or idle source attached to the main context. -/
structure GSource where
  id : Nat
  interval_ms : Nat
  func : SourceFunc
deriving DecidableEq, Repr

/-- Calls that leave the daemon: D-Bus signals, theme engine, GTK, X11, sound
and the stack module. -/
inductive Call where
  | NotificationClosed (id : Nat) (reason : NotifydClosedReason)
  | ActionInvoked (id : Nat) (key : String)
  | theme_create_notification (nw : Nat)
  | theme_clear_notification_actions (nw : Nat)
  | theme_hide_notification (nw : Nat)
  | theme_show_notification (nw : Nat)
  | theme_move_notification (nw : Nat) (x y : Int)
  | theme_set_notification_arrow (nw : Nat) (visible : Bool) (x y : Int)
  | theme_notification_tick (nw : Nat) (remaining : Int)
  | theme_set_notification_timeout (nw : Nat) (timeout : Int)
  | gtk_widget_destroy (nw : Nat)
  | gtk_widget_queue_draw (nw : Nat)
  | notify_stack_add_window (stack : Int) (nw : Nat) (new_notification : Bool)
  | XSelectInput (window : Nat)
  | sound_play_file (nw : Nat)
deriving DecidableEq, Repr

/-- Source lines 93 to 97: one window list per monitor (`stacks_` is the array
`stacks`). -/
structure NotifyScreen where
  stacks_ : List (List Nat)
  n_stacks : Int

/-- Source lines 99 to 110, `struct _NotifyDaemonPrivate`, together with the
parts of the process the daemon's functions act on: the sources of the main
context, the `_notify_id` datum of each popup window, the number of times
`_notify_x11_filter` is installed, and the trace of outbound calls. -/
structure NotifyDaemonPrivate where
  next_id : Nat
  timeout_source : Nat
  exit_timeout_source : Nat
  idle_reposition_notify_ids : GHashTable Nat
  monitored_window_hash : GHashTable Nat
  notification_hash : GHashTable NotifyTimeout
  url_clicked_lock : Bool
  screen : NotifyScreen
  sources : List GSource
  next_source_id : Nat
  notify_id_data : Nat → Nat
  x11_filters : Nat
  trace : List Call

/-- Appends an outbound call to the trace. -/
def NotifyDaemonPrivate.call (daemon : NotifyDaemonPrivate) (c : Call) : NotifyDaemonPrivate :=
  { daemon with trace := daemon.trace ++ [c] }

/-- `NW_GET_NOTIFY_ID (nw)`, lines 60 and 61. -/
def NW_GET_NOTIFY_ID (daemon : NotifyDaemonPrivate) (nw : Nat) : Nat :=
  daemon.notify_id_data nw

/-- `g_timeout_add` and friends: attaches a source and returns its id; the main
context numbers its sources consecutively. -/
def g_timeout_add (daemon : NotifyDaemonPrivate) (interval_ms : Nat) (func : SourceFunc) :
    Nat × NotifyDaemonPrivate :=
  (daemon.next_source_id,
    { daemon with
      sources := daemon.sources ++ [{ id := daemon.next_source_id, interval_ms := interval_ms, func := func }],
      next_source_id := daemon.next_source_id + 1 })

/-- `g_source_remove`: detaches the source with the given id. -/
def g_source_remove (daemon : NotifyDaemonPrivate) (tag : Nat) : NotifyDaemonPrivate :=
  { daemon with sources := daemon.sources.filter (fun s => decide (s.id ≠ tag)) }

/-! ## Idle exit timer (lines 158 to 177) -/

/-- Source lines 158 to 166. -/
def add_exit_timeout (daemon : NotifyDaemonPrivate) : NotifyDaemonPrivate :=
  if daemon.exit_timeout_source > 0 then daemon
  else
    let r := g_timeout_add daemon (IDLE_SECONDS * 1000) SourceFunc.do_exit
    { r.2 with exit_timeout_source := r.1 }

/-- Source lines 168 to 177. -/
def remove_exit_timeout (daemon : NotifyDaemonPrivate) : NotifyDaemonPrivate :=
  if daemon.exit_timeout_source = 0 then daemon
  else
    { g_source_remove daemon daemon.exit_timeout_source with exit_timeout_source := 0 }

/-! ## Closing (lines 140 to 150 and 521 to 552) -/

/-- Source lines 521 to 527; the id of the signal is read from the window
(`create_signal`, line 490). -/
def _emit_closed_signal (daemon : NotifyDaemonPrivate) (nw : Nat) (reason : NotifydClosedReason) :
    NotifyDaemonPrivate :=
  daemon.call (Call.NotificationClosed (NW_GET_NOTIFY_ID daemon nw) reason)

/-- Source lines 140 to 150, the value destructor of `notification_hash`.  What
the stack module does when it sees the widget destroyed is outside the
daemon. -/
def _notify_timeout_destroy (nt : NotifyTimeout) (daemon : NotifyDaemonPrivate) : NotifyDaemonPrivate :=
  daemon.call (Call.gtk_widget_destroy nt.nw)

/-- Source lines 529 to 552. -/
def _close_notification (daemon : NotifyDaemonPrivate) (id : Nat) (hide_notification : Bool)
    (reason : NotifydClosedReason) : NotifyDaemonPrivate :=
  match g_hash_table_lookup daemon.notification_hash id with
  | some nt =>
    let daemon := _emit_closed_signal daemon nt.nw reason
    let daemon := if hide_notification then daemon.call (Call.theme_hide_notification nt.nw) else daemon
    let daemon := _notify_timeout_destroy nt daemon
    let daemon := { daemon with notification_hash := g_hash_table_remove daemon.notification_hash id }
    if g_hash_table_size daemon.notification_hash = 0 then add_exit_timeout daemon else daemon
  | none => daemon

/-! ## Expiration (lines 676 to 815) -/

/-- Source lines 676 to 701.  `inferior` is `event->detail == GDK_NOTIFY_INFERIOR`;
the entry is looked up by the id stored on the window and dereferenced without a
check, so the result is `none` when the window has no live entry. -/
def _mouse_entered_cb (daemon : NotifyDaemonPrivate) (nw : Nat) (inferior : Bool) (now : GTimeVal) :
    Option NotifyDaemonPrivate :=
  if inferior then some daemon
  else
    let id := NW_GET_NOTIFY_ID daemon nw
    match g_hash_table_lookup daemon.notification_hash id with
    | none => none
    | some nt =>
      let usec := nt.expiration.tv_usec - now.tv_usec
      let sec := nt.expiration.tv_sec - now.tv_sec
      let diff : GTimeVal :=
        if usec < 0 then { tv_sec := sec - 1, tv_usec := usec + G_USEC_PER_SEC }
        else { tv_sec := sec, tv_usec := usec }
      let nt := { nt with paused := true, paused_diff := diff }
      some { daemon with notification_hash := write_entry daemon.notification_hash id nt }

/-- Source lines 703 to 714. -/
def _mouse_exitted_cb (daemon : NotifyDaemonPrivate) (nw : Nat) (inferior : Bool) :
    Option NotifyDaemonPrivate :=
  if inferior then some daemon
  else
    let id := NW_GET_NOTIFY_ID daemon nw
    match g_hash_table_lookup daemon.notification_hash id with
    | none => none
    | some nt =>
      let nt := { nt with paused := false }
      some { daemon with notification_hash := write_entry daemon.notification_hash id nt }

/-- Source lines 716 to 757.  The threaded state is the daemon (for the trace)
and `*phas_more_timeouts`; `now` is the clock reading of line 727. -/
def _is_expired (now : GTimeVal) (_key : Nat) (nt : NotifyTimeout)
    (s : NotifyDaemonPrivate × Bool) : Bool × NotifyTimeout × (NotifyDaemonPrivate × Bool) :=
  if !nt.has_timeout then (false, nt, s)
  else
    let expiration_time := nt.expiration.toMsec
    let now_time := now.toMsec
    if now_time > expiration_time then
      let daemon := s.1.call (Call.theme_notification_tick nt.nw 0)
      let daemon := _emit_closed_signal daemon nt.nw NOTIFYD_CLOSED_EXPIRED
      (true, nt, (daemon, s.2))
    else if nt.paused then
      let usec := nt.paused_diff.tv_usec + now.tv_usec
      let sec := nt.paused_diff.tv_sec + now.tv_sec
      let expiration : GTimeVal :=
        if usec ≥ G_USEC_PER_SEC then { tv_sec := sec + 1, tv_usec := usec - G_USEC_PER_SEC }
        else { tv_sec := sec, tv_usec := usec }
      (false, { nt with expiration := expiration }, (s.1, true))
    else
      let daemon := s.1.call (Call.theme_notification_tick nt.nw (expiration_time - now_time))
      (false, nt, (daemon, true))

/-- Source lines 759 to 776.  `_is_expired` is called once per entry and reads
the clock itself (line 727), so a sweep has one clock reading per entry:
`clock key` is the reading taken in the call for the entry stored under `key`.
The result is the callback's return value (`TRUE` keeps the source attached). -/
def _check_expiration (clock : Nat → GTimeVal) (daemon : NotifyDaemonPrivate) :
    Bool × NotifyDaemonPrivate :=
  let r := g_hash_table_foreach_remove (fun key nt s => _is_expired (clock key) key nt s)
    (fun nt s => (_notify_timeout_destroy nt s.1, s.2)) daemon.notification_hash (daemon, false)
  let has_more_timeouts := r.2.2
  let daemon := { r.2.1 with notification_hash := r.1 }
  if !has_more_timeouts then
    let daemon := { daemon with timeout_source := 0 }
    if g_hash_table_size daemon.notification_hash = 0 then (false, add_exit_timeout daemon)
    else (false, daemon)
  else (true, daemon)

/-- Lines 795 to 805: the microsecond offset for a timeout in milliseconds,
`glong usec = timeout * 1000L`, replaced by `G_MAXLONG` when it is negative. -/
def timeout_usec (timeout : Int) : Int :=
  let usec := wrapLong (timeout * 1000)
  if usec < 0 then G_MAXLONG else usec

/-- Lines 795 to 805 where `long` has `bits` bits: the product of
`glong usec = timeout * 1000L` is computed in `long` and wraps to `bits` bits
(two's complement, the overflow behaviour the comment of lines 797 to 801 counts
on), and the test `usec < 0` of line 802 replaces a negative result by that
platform's `G_MAXLONG`.  `timeout_usec` is the case of 64 bits. -/
def timeout_usec_bits (bits : Nat) (timeout : Int) : Int :=
  let usec := wrapLongBits bits (timeout * 1000)
  if usec < 0 then G_MAXLONG_bits bits else usec

/-- Source lines 778 to 815.  `NOTIFY_DAEMON_DEFAULT_TIMEOUT` is a constant of
`daemon.h`, which is a parameter here; `now` is the clock reading of line 807. -/
def _calculate_timeout (NOTIFY_DAEMON_DEFAULT_TIMEOUT : Int) (daemon : NotifyDaemonPrivate)
    (nt : NotifyTimeout) (timeout : Int) (now : GTimeVal) : NotifyTimeout × NotifyDaemonPrivate :=
  if timeout = 0 then
    ({ nt with has_timeout := false }, daemon)
  else
    let timeout := if timeout = -1 then NOTIFY_DAEMON_DEFAULT_TIMEOUT else timeout
    let daemon := daemon.call (Call.theme_set_notification_timeout nt.nw timeout)
    let usec := timeout_usec timeout
    let nt := { nt with has_timeout := true, expiration := g_time_val_add now usec }
    if daemon.timeout_source = 0 then
      let r := g_timeout_add daemon 100 SourceFunc._check_expiration
      (nt, { r.2 with timeout_source := r.1 })
    else
      (nt, daemon)

/-! ## Id allocation and storing (lines 817 to 853) -/

/-- The `do ... while (id == 0)` loop of lines 823 to 840, returning the id
found and the new `next_id`.  The table does not change inside the loop and
`next_id` cycles through `1 .. UINT_MAX`, so after `UINT_MAX` unsuccessful rounds
the loop is back in the state it started from: `none` on running out of fuel
stands for a loop that never ends. -/
def allocate_id (notification_hash : GHashTable NotifyTimeout) : Nat → Nat → Option (Nat × Nat)
  | 0, _ => none
  | fuel + 1, next_id =>
    let id := next_id
    let next_id := if id ≠ UINT_MAX then next_id + 1 else 1
    let id := if (g_hash_table_lookup notification_hash id).isSome then 0 else id
    if id = 0 then allocate_id notification_hash fuel next_id else some (id, next_id)

/-- Source lines 817 to 853; `now` is the clock reading inside
`_calculate_timeout`. -/
def _store_notification (NOTIFY_DAEMON_DEFAULT_TIMEOUT : Int) (daemon : NotifyDaemonPrivate)
    (nw : Nat) (timeout : Int) (now : GTimeVal) : Option (NotifyTimeout × NotifyDaemonPrivate) :=
  match allocate_id daemon.notification_hash UINT_MAX daemon.next_id with
  | none => none
  | some (id, next_id) =>
    let daemon := { daemon with next_id := next_id }
    let nt := { NotifyTimeout.zero with id := id, nw := nw }
    let r := _calculate_timeout NOTIFY_DAEMON_DEFAULT_TIMEOUT daemon nt timeout now
    let nt := r.1
    let daemon := { r.2 with notification_hash := g_hash_table_insert r.2.notification_hash id nt }
    some (nt, remove_exit_timeout daemon)

/-! ## Start-up (lines 381 to 407) -/

/-- The zero-filled private structure of a new daemon object, in a process
whose main context has handed out no source id yet and has no popup window. -/
def NotifyDaemonPrivate.zero : NotifyDaemonPrivate :=
  { next_id := 0, timeout_source := 0, exit_timeout_source := 0,
    idle_reposition_notify_ids := [], monitored_window_hash := [], notification_hash := [],
    url_clicked_lock := false, screen := { stacks_ := [], n_stacks := 0 },
    sources := [], next_source_id := 1, notify_id_data := fun _ => 0, x11_filters := 0,
    trace := [] }

/-- Source lines 381 to 407, with `create_screen` and `create_stacks_for_screen`
(lines 278 to 346) for a display of `n_monitors` monitors. -/
def notify_daemon_init (n_monitors : Nat) : NotifyDaemonPrivate :=
  let daemon := { NotifyDaemonPrivate.zero with next_id := 1, timeout_source := 0 }
  let daemon := add_exit_timeout daemon
  let daemon := { daemon with
    screen := { stacks_ := List.replicate n_monitors [], n_stacks := n_monitors } }
  { daemon with idle_reposition_notify_ids := [], monitored_window_hash := [],
                notification_hash := [] }

/-! ## Source window tracking (lines 1207 to 1309) -/

/-- The X server as the daemon queries it.  `XQueryTree w` is `(root, parent)`
of window `w`, `none` when the request fails; `XGetGeometry w` is its
`(width, height)`; `XTranslateCoordinates w` its origin in root coordinates;
`n_windows` bounds the number of windows the server has. -/
structure XServer where
  XQueryTree : Nat → Option (Nat × Nat)
  XGetGeometry : Nat → Option (Nat × Nat)
  XTranslateCoordinates : Nat → Option (Int × Int)
  n_windows : Nat

/-- Source lines 1207 to 1228: returns the parent (`None` = 0 on failure) and
the value `*root` has afterwards. -/
def get_window_parent (x : XServer) (window : Nat) (root : Nat) : Nat × Nat :=
  match x.XQueryTree window with
  | none => (0, root)
  | some (r, parent) => (parent, r)

/-- The `for` loop of lines 1253 to 1258, entered with the result of the first
`get_window_parent`; `none` is a walk that does not end within the windows the
server has. -/
def monitor_walk (x : XServer) (id : Nat) :
    Nat → Nat → Nat → NotifyDaemonPrivate → Option NotifyDaemonPrivate
  | 0, _, _, _ => none
  | fuel + 1, parent, root, daemon =>
    if parent ≠ 0 ∧ root ≠ parent then
      let daemon := daemon.call (Call.XSelectInput parent)
      let daemon := { daemon with
        monitored_window_hash := g_hash_table_insert daemon.monitored_window_hash parent id }
      let r := get_window_parent x parent root
      monitor_walk x id fuel r.1 r.2 daemon
    else some daemon

/-- Source lines 1234 to 1259.  The entry `nt` points into the registry; it is
named by its key, and `none` is the failed `g_assert (nt != NULL)`. -/
def monitor_notification_source_windows (x : XServer) (daemon : NotifyDaemonPrivate)
    (key : Nat) (source : Nat) : Option NotifyDaemonPrivate :=
  let daemon :=
    if g_hash_table_size daemon.monitored_window_hash = 0 then
      { daemon with x11_filters := daemon.x11_filters + 1 }
    else daemon
  match g_hash_table_lookup daemon.notification_hash key with
  | none => none
  | some nt =>
    let nt := { nt with src_window_xid := source }
    let daemon := { daemon with notification_hash := write_entry daemon.notification_hash key nt }
    let r := get_window_parent x source 0
    monitor_walk x nt.id (x.n_windows + 1) r.1 r.2 daemon

/-- Source lines 1262 to 1309. -/
def sync_notification_position (x : XServer) (daemon : NotifyDaemonPrivate) (nw : Nat)
    (source : Nat) : NotifyDaemonPrivate :=
  match x.XGetGeometry source with
  | none => daemon
  | some (width, height) =>
    match x.XTranslateCoordinates source with
    | none => daemon
    | some (x0, y0) =>
      let px := x0 + (width / 2 : Nat)
      let py := y0 + (height / 2 : Nat)
      let daemon := daemon.call (Call.theme_set_notification_arrow nw true px py)
      let daemon := daemon.call (Call.theme_move_notification nw px py)
      let daemon := daemon.call (Call.theme_show_notification nw)
      daemon.call (Call.gtk_widget_queue_draw nw)

/-! ## The D-Bus handlers (lines 1323 to 1683) -/

/-- Modelled from the spec: `notify_stack_add_window` of `stack.c`, which is not
part of the source given.  `place(popup, monitor_index, is_new)` appends the
popup to the target stack when it is new and updates it in place otherwise.  An
index outside the array changes no stack. -/
def notify_stack_add_window (daemon : NotifyDaemonPrivate) (stack : Int) (nw : Nat)
    (new_notification : Bool) : NotifyDaemonPrivate :=
  let daemon := daemon.call (Call.notify_stack_add_window stack nw new_notification)
  if new_notification ∧ 0 ≤ stack then
    { daemon with screen := { daemon.screen with
        stacks_ := daemon.screen.stacks_.modify (fun ws => ws ++ [nw]) stack.toNat } }
  else daemon

/-- The arguments of a `Notify` call that the lifecycle engine looks at: the
`replaces_id`, the timeout, and the `window-xid`, `x` and `y` hints.
`sound_file` says whether a playable sound file came out of lines 1408 to
1445. -/
structure NotifyRequest where
  id : Nat
  timeout : Int
  hint_window_xid : Option Nat
  hint_x : Option Int
  hint_y : Option Int
  sound_file : Bool

/-- What the handler reads from outside the daemon while it runs: the window
the theme engine creates, the theme's always-stack flag, the monitor settings
and pointer position, the screensaver and fullscreen queries, the X server, and
the two clock readings (inside `_store_notification` and at line 1663). -/
structure NotifyEnv where
  new_nw : Nat
  always_stack : Bool
  use_active : Bool
  pointer_monitor : Int
  monitor_number : Int
  screensaver_active : Bool
  fullscreen_window_exists : Bool
  xserver : XServer
  now_store : GTimeVal
  now : GTimeVal

/-- What a handler hands back over D-Bus. -/
inductive Reply where
  | error (code : Nat) (message : String)
  | return_id (id : Nat)
deriving DecidableEq, Repr

/-- Lines 1520 to 1607: where the popup goes. -/
def place_notification (env : NotifyEnv) (daemon : NotifyDaemonPrivate) (req : NotifyRequest)
    (nw : Nat) (new_notification : Bool) : NotifyDaemonPrivate :=
  let window_xid := req.hint_window_xid.getD 0
  let use_pos_data := req.hint_window_xid.isNone && req.hint_x.isSome && req.hint_y.isSome
  if window_xid ≠ 0 ∧ env.always_stack = false then daemon
  else if use_pos_data = true ∧ env.always_stack = false then
    let x := req.hint_x.getD 0
    let y := req.hint_y.getD 0
    let daemon := daemon.call (Call.theme_set_notification_arrow nw true x y)
    daemon.call (Call.theme_move_notification nw x y)
  else
    let daemon := daemon.call (Call.theme_set_notification_arrow nw false 0 0)
    let monitor_num := if env.use_active then env.pointer_monitor else env.monitor_number
    let monitor_num :=
      if monitor_num ≥ daemon.screen.n_stacks then daemon.screen.n_stacks - 1 else monitor_num
    notify_stack_add_window daemon monitor_num nw new_notification

/-- Lines 1619 to 1668: tracking of the source window, showing the popup or
queueing its close, tagging the window, arming the timeout and replying.  `id`
is the local variable of that name (0 for a new notification) and `return_id`
the key of the entry `nt` points to.  The idle source of line 1651 is a source
with interval 0. -/
def notify_finish (NOTIFY_DAEMON_DEFAULT_TIMEOUT : Int) (env : NotifyEnv)
    (daemon : NotifyDaemonPrivate) (req : NotifyRequest) (nw id return_id : Nat) :
    Option (Reply × NotifyDaemonPrivate) :=
  let window_xid := req.hint_window_xid.getD 0
  -- lines 1624 to 1628
  let tracked :=
    if window_xid ≠ 0 ∧ env.always_stack = false then
      (monitor_notification_source_windows env.xserver daemon return_id window_xid).map
        (fun daemon => sync_notification_position env.xserver daemon nw window_xid)
    else some daemon
  match tracked with
  | none => none
  | some daemon =>
    match g_hash_table_lookup daemon.notification_hash return_id with
    | none => none
    | some nt =>
      -- lines 1633 to 1652
      let daemon :=
        if nt.has_timeout = false ∨
            (env.screensaver_active = false ∧ env.fullscreen_window_exists = false) then
          let daemon := daemon.call (Call.theme_show_notification nw)
          if req.sound_file then daemon.call (Call.sound_play_file nw) else daemon
        else
          (g_timeout_add daemon 0 (SourceFunc._close_notification_not_shown id)).2
      -- lines 1658 to 1664
      let daemon := { daemon with
        notify_id_data := fun w => if w = nw then return_id else daemon.notify_id_data w }
      let r := _calculate_timeout NOTIFY_DAEMON_DEFAULT_TIMEOUT daemon nt req.timeout env.now
      let daemon := { r.2 with
        notification_hash := write_entry r.2.notification_hash return_id r.1 }
      some (Reply.return_id return_id, daemon)

/-- Source lines 1323 to 1669.  Setting text, icon, actions and hints on the
popup is rendering and is left out; everything that touches the registry, the
timers, the stacks, the tracked windows or the signals is kept, in source
order.  `none` is a call that does not return. -/
def notify_daemon_notify_handler (NOTIFY_DAEMON_DEFAULT_TIMEOUT : Int) (env : NotifyEnv)
    (daemon : NotifyDaemonPrivate) (req : NotifyRequest) : Option (Reply × NotifyDaemonPrivate) :=
  if g_hash_table_size daemon.notification_hash > MAX_NOTIFICATIONS then
    some (Reply.error 1 "Exceeded maximum number of notifications", daemon)
  else
    -- lines 1353 to 1365
    let found := if req.id > 0 then g_hash_table_lookup daemon.notification_hash req.id else none
    match found with
    | some nt =>
      -- a live entry: `id` stays, its popup is reused (created only if it has none)
      let id := req.id
      let new_notification := decide (nt.nw = 0)
      let nw := if nt.nw = 0 then env.new_nw else nt.nw
      let daemon :=
        if nt.nw = 0 then daemon.call (Call.theme_create_notification nw)
        else daemon.call (Call.theme_clear_notification_actions nw)
      let daemon := place_notification env daemon req nw new_notification
      -- lines 1609 to 1617, `id != 0`
      notify_finish NOTIFY_DAEMON_DEFAULT_TIMEOUT env daemon req nw id id
    | none =>
      -- no live entry: `id = 0`, lines 1367 to 1378 create the popup
      let nw := env.new_nw
      let daemon := daemon.call (Call.theme_create_notification nw)
      let daemon := place_notification env daemon req nw true
      -- lines 1609 to 1617, `id == 0`
      match _store_notification NOTIFY_DAEMON_DEFAULT_TIMEOUT daemon nw req.timeout env.now_store with
      | none => none
      | some (nt, daemon) => notify_finish NOTIFY_DAEMON_DEFAULT_TIMEOUT env daemon req nw 0 nt.id

/-- Source lines 1671 to 1683: the return value, the error set (code and
message) and the state afterwards. -/
def notify_daemon_close_notification_handler (daemon : NotifyDaemonPrivate) (id : Nat) :
    Bool × Option (Nat × String) × NotifyDaemonPrivate :=
  if id = 0 then
    (false, some (100, "0 is not a valid notification ID"), daemon)
  else
    (true, none, _close_notification daemon id true NOTIFYD_CLOSED_API)

/-! ## Monitor changes (lines 197 to 276) -/

/-- Source lines 197 to 209.  Modelled from the spec: `notify_stack_new` of
`stack.c`, which is not part of the source given, makes the stack of a newly
detected monitor, a stack that holds no popup yet. -/
def create_stack_for_monitor (daemon : NotifyDaemonPrivate) (monitor_num : Nat) :
    NotifyDaemonPrivate :=
  { daemon with screen := { daemon.screen with
      stacks_ := daemon.screen.stacks_.set monitor_num [] } }

/-- The loop of lines 235 to 242: stacks for the monitors `i`, `i + 1`, ...,
`count` of them. -/
def add_stacks : Nat → Nat → NotifyDaemonPrivate → NotifyDaemonPrivate
  | _, 0, daemon => daemon
  | i, count + 1, daemon => add_stacks (i + 1) count (create_stack_for_monitor daemon i)

/-- The inner loop of lines 259 to 265: every window of the copied list is
added to `last_stack` as a new one. -/
def transfer_windows (last_stack : Int) :
    List Nat → NotifyDaemonPrivate → NotifyDaemonPrivate
  | [], daemon => daemon
  | w :: rest, daemon =>
    transfer_windows last_stack rest (notify_stack_add_window daemon last_stack w true)

/-- The loop of lines 253 to 270 over the stacks `i`, `i + 1`, ..., `count` of
them.  Modelled from the spec: `notify_stack_get_windows` is the stack's window
list and `notify_stack_destroy` of `stack.c`, which is not part of the source
given, removes the stack and leaves its popups alone (they are transferred, not
destroyed); the slot is then cleared (`stacks[i] = NULL`). -/
def transfer_stacks (last_stack : Int) : Nat → Nat → NotifyDaemonPrivate → NotifyDaemonPrivate
  | _, 0, daemon => daemon
  | i, count + 1, daemon =>
    let windows := daemon.screen.stacks_.getD i []
    let daemon := transfer_windows last_stack windows daemon
    let daemon := { daemon with screen := { daemon.screen with
      stacks_ := daemon.screen.stacks_.set i [] } }
    transfer_stacks last_stack (i + 1) count daemon

/-- Source lines 211 to 276, for a display that now reports `n_monitors`
monitors.  `g_renew` keeps the first `n_monitors` slots and adds empty ones. -/
def on_screen_monitors_changed (daemon : NotifyDaemonPrivate) (n_monitors : Int) :
    NotifyDaemonPrivate :=
  let nscreen := daemon.screen
  if n_monitors > nscreen.n_stacks then
    -- grow
    let daemon := { daemon with screen := { nscreen with
      stacks_ := nscreen.stacks_ ++ List.replicate (n_monitors - nscreen.n_stacks).toNat [] } }
    let daemon := add_stacks nscreen.n_stacks.toNat (n_monitors - nscreen.n_stacks).toNat daemon
    { daemon with screen := { daemon.screen with n_stacks := n_monitors } }
  else if n_monitors < nscreen.n_stacks then
    let last_stack := n_monitors - 1
    -- transfer items before removing stacks
    let daemon :=
      transfer_stacks last_stack n_monitors.toNat (nscreen.n_stacks - n_monitors).toNat daemon
    -- remove the extra stacks
    { daemon with screen :=
        { stacks_ := daemon.screen.stacks_.take n_monitors.toNat, n_stacks := n_monitors } }
  else daemon

/-! ## Deferred callbacks (lines 554 to 621) and the main loop -/

/-- Source lines 554 to 561; `id` is `data->id`. -/
def _close_notification_not_shown (daemon : NotifyDaemonPrivate) (id : Nat) :
    Bool × NotifyDaemonPrivate :=
  (false, _close_notification daemon id true NOTIFYD_CLOSED_RESERVED)

/-- Source lines 577 to 599. -/
def idle_reposition_notification (x : XServer) (daemon : NotifyDaemonPrivate) (notify_id : Nat) :
    Bool × NotifyDaemonPrivate :=
  let daemon :=
    match g_hash_table_lookup daemon.notification_hash notify_id with
    | some nt => sync_notification_position x daemon nt.nw nt.src_window_xid
    | none => daemon
  (false, { daemon with
    idle_reposition_notify_ids := g_hash_table_remove daemon.idle_reposition_notify_ids notify_id })

/-- Source lines 601 to 621. -/
def _queue_idle_reposition_notification (daemon : NotifyDaemonPrivate) (notify_id : Nat) :
    NotifyDaemonPrivate :=
  if (g_hash_table_lookup daemon.idle_reposition_notify_ids notify_id).isSome then daemon
  else
    let r := g_timeout_add daemon 50 (SourceFunc.idle_reposition_notification notify_id)
    { r.2 with
      idle_reposition_notify_ids :=
        g_hash_table_insert r.2.idle_reposition_notify_ids notify_id r.1 }

/-- The X event types `_notify_x11_filter` tells apart. -/
inductive XEventType where
  | DestroyNotify
  | ConfigureNotify
  | MapNotify
  | ReparentNotify
  | other
deriving DecidableEq, Repr

/-- Source lines 623 to 674, for an event of type `type` on `window`; the
filter always returns `GDK_FILTER_CONTINUE`.  `none` is a call that does not
return (see `monitor_notification_source_windows`). -/
def _notify_x11_filter (x : XServer) (daemon : NotifyDaemonPrivate) (type : XEventType)
    (window : Nat) : Option NotifyDaemonPrivate :=
  if type = XEventType.DestroyNotify then
    let daemon := { daemon with
      monitored_window_hash := g_hash_table_remove daemon.monitored_window_hash window }
    if g_hash_table_size daemon.monitored_window_hash = 0 then
      some { daemon with x11_filters := daemon.x11_filters - 1 }
    else some daemon
  else
    match g_hash_table_lookup daemon.monitored_window_hash window with
    | none => some daemon
    | some notify_id =>
      if type = XEventType.ConfigureNotify ∨ type = XEventType.MapNotify then
        some (_queue_idle_reposition_notification daemon notify_id)
      else if type = XEventType.ReparentNotify then
        match g_hash_table_lookup daemon.notification_hash notify_id with
        | none => some daemon
        | some nt =>
          (monitor_notification_source_windows x daemon notify_id nt.src_window_xid).map
            (fun daemon => sync_notification_position x daemon nt.nw nt.src_window_xid)
      else some daemon

/-- One dispatch of an attached source by the GLib main loop: the callback
runs, and a source whose callback returns `FALSE` is destroyed.  `clock` gives
the clock readings of a sweep (see `_check_expiration`); `none` is the process
ending in `do_exit` (lines 152 to 156). -/
def dispatch (x : XServer) (clock : Nat → GTimeVal) (daemon : NotifyDaemonPrivate)
    (source : GSource) : Option NotifyDaemonPrivate :=
  match source.func with
  | SourceFunc.do_exit => none
  | SourceFunc._check_expiration =>
    let r := _check_expiration clock daemon
    some (if r.1 then r.2 else g_source_remove r.2 source.id)
  | SourceFunc.idle_reposition_notification id =>
    let r := idle_reposition_notification x daemon id
    some (if r.1 then r.2 else g_source_remove r.2 source.id)
  | SourceFunc._close_notification_not_shown id =>
    let r := _close_notification_not_shown daemon id
    some (if r.1 then r.2 else g_source_remove r.2 source.id)

/-! ## Notions used to state the properties -/

/-- Whether the ancestor walk of lines 1253 to 1258 ends within `fuel` rounds;
the control flow of `monitor_walk` without its effects. -/
def walk_ends (x : XServer) : Nat → Nat → Nat → Bool
  | 0, _, _ => false
  | fuel + 1, parent, root =>
    if parent ≠ 0 ∧ root ≠ parent then
      walk_ends x fuel (get_window_parent x parent root).1 (get_window_parent x parent root).2
    else true

/-- The ancestor walk from `source` reaches the root, or a failed query, within
the windows the server has. -/
def TrackingEnds (x : XServer) (source : Nat) : Prop :=
  walk_ends x (x.n_windows + 1) (get_window_parent x source 0).1
    (get_window_parent x source 0).2 = true

instance (x : XServer) (source : Nat) : Decidable (TrackingEnds x source) := by
  unfold TrackingEnds; infer_instance

/-- The number of candidates the allocator tries, starting from `n`, before it
reaches `u`, in the cyclic order `n, n+1, ..., UINT_MAX, 1, 2, ...`. -/
def cyclicDistance (n u : Nat) : Nat :=
  if n ≤ u then u - n else UINT_MAX - n + u

/-- The expiry test of line 732 for an entry with a timeout: the clock reading,
in milliseconds, is strictly past the expiration, in milliseconds. -/
def ExpiredAt (now : GTimeVal) (nt : NotifyTimeout) : Prop :=
  nt.has_timeout = true ∧ nt.expiration.toMsec < now.toMsec

instance (now : GTimeVal) (nt : NotifyTimeout) : Decidable (ExpiredAt now nt) := by
  unfold ExpiredAt; infer_instance

/-- The entry as a tick that does not expire it leaves it (lines 738 to 752):
the entry part of what `_is_expired` returns, which depends on neither key nor
threaded state. -/
def tick_entry (now : GTimeVal) (nt : NotifyTimeout) : NotifyTimeout :=
  (_is_expired now 0 nt (NotifyDaemonPrivate.zero, false)).2.1

/-- The registry a sweep leaves: the entries expired at their own clock
reading dropped, the others ticked at theirs. -/
def sweep_table (clock : Nat → GTimeVal) (h : GHashTable NotifyTimeout) :
    GHashTable NotifyTimeout :=
  h.filterMap (fun e =>
    if ExpiredAt (clock e.1) e.2 then none else some (e.1, tick_entry (clock e.1) e.2))

/-- The outbound calls one entry causes during a sweep, with `f` the `_notify_id`
datum of the windows: tick, closed signal and widget destruction for an expired
entry, a tick for a running one, nothing for a paused or untimed one. -/
def entry_calls (now : GTimeVal) (f : Nat → Nat) (nt : NotifyTimeout) : List Call :=
  if ExpiredAt now nt then
    [Call.theme_notification_tick nt.nw 0, Call.NotificationClosed (f nt.nw) NOTIFYD_CLOSED_EXPIRED,
      Call.gtk_widget_destroy nt.nw]
  else if nt.has_timeout = true ∧ nt.paused = false then
    [Call.theme_notification_tick nt.nw (nt.expiration.toMsec - now.toMsec)]
  else []

/-- The outbound calls of a whole sweep, in iteration order. -/
def sweep_calls (clock : Nat → GTimeVal) (f : Nat → Nat) : GHashTable NotifyTimeout → List Call
  | [] => []
  | e :: rest => entry_calls (clock e.1) f e.2 ++ sweep_calls clock f rest

/-- Whether a sweep sets `has_more_timeouts`: some timed entry is not expired
at its clock reading. -/
def sweep_more (clock : Nat → GTimeVal) (h : GHashTable NotifyTimeout) : Bool :=
  h.any (fun e => e.2.has_timeout && !decide (ExpiredAt (clock e.1) e.2))

/-- A running notification, id 1 on popup 101, due at 10.0 s. -/
def sampleEntry1 : NotifyTimeout :=
  { NotifyTimeout.zero with id := 1, nw := 101, has_timeout := true,
                            expiration := { tv_sec := 10, tv_usec := 0 } }

/-- A paused notification, id 2 on popup 102, due at 20.5 s, paused with 5 s
remaining. -/
def sampleEntry2 : NotifyTimeout :=
  { NotifyTimeout.zero with id := 2, nw := 102, has_timeout := true,
                            expiration := { tv_sec := 20, tv_usec := 500000 },
                            paused := true, paused_diff := { tv_sec := 5, tv_usec := 0 } }

/-- A daemon on one monitor whose registry holds `sampleEntry1` and
`sampleEntry2` and whose tick is running; popup `100 + i` carries the id `i`. -/
def sampleDaemon : NotifyDaemonPrivate :=
  { notify_daemon_init 1 with
    next_id := 3, timeout_source := 2, exit_timeout_source := 0,
    sources := [{ id := 2, interval_ms := 100, func := SourceFunc._check_expiration }],
    next_source_id := 3,
    notification_hash := [(1, sampleEntry1), (2, sampleEntry2)],
    notify_id_data := fun w => w - 100 }

/-- An X server with one top-level window 7 under the root 1. -/
def sampleXServer : XServer :=
  { XQueryTree := fun w => if w = 7 then some (1, 1) else if w = 1 then some (1, 0) else none,
    XGetGeometry := fun w => if w = 7 then some (200, 100) else none,
    XTranslateCoordinates := fun w => if w = 7 then some (50, 60) else none,
    n_windows := 2 }

/-- The handler's surroundings at 15.0 s: the theme creates popup 121, nothing
suppresses display, and notifications go to monitor 0. -/
def sampleEnv : NotifyEnv :=
  { new_nw := 121, always_stack := false, use_active := false, pointer_monitor := 0,
    monitor_number := 0, screensaver_active := false, fullscreen_window_exists := false,
    xserver := sampleXServer,
    now_store := { tv_sec := 15, tv_usec := 0 }, now := { tv_sec := 15, tv_usec := 0 } }

/-- A request for a new notification with a timeout of 5 s and no hints. -/
def sampleRequest : NotifyRequest :=
  { id := 0, timeout := 5000, hint_window_xid := none, hint_x := none, hint_y := none,
    sound_file := false }

/-- A daemon whose registry holds 20 live notifications, ids 1 to 20, none of
them timed; popup `100 + i` belongs to notification `i`. -/
def fullDaemon : NotifyDaemonPrivate :=
  { notify_daemon_init 1 with
    next_id := 21, exit_timeout_source := 0, sources := [], next_source_id := 2,
    notification_hash :=
      (List.range 20).map (fun i => (i + 1, { NotifyTimeout.zero with id := i + 1, nw := 101 + i })),
    notify_id_data := fun w => w - 100 }

/-- The sample daemon after its id counter has wrapped around to 1. -/
def wrappedDaemon : NotifyDaemonPrivate :=
  { sampleDaemon with next_id := 1 }

/-- A daemon whose only live notification is `sampleEntry1` after it has been
re-armed with timeout 0. -/
def untimedDaemon : NotifyDaemonPrivate :=
  { sampleDaemon with
    notification_hash := [(1, (_calculate_timeout 7000 sampleDaemon sampleEntry1 0
      { tv_sec := 15, tv_usec := 0 }).1)] }

/-- A request for a new notification anchored to the source window 7. -/
def anchoredRequest : NotifyRequest :=
  { sampleRequest with hint_window_xid := some 7 }

/-- A request that re-uses the id of the paused notification 2, with a timeout
of 60 s. -/
def rearmRequest : NotifyRequest :=
  { sampleRequest with id := 2, timeout := 60000 }

/-- The daemon with 20 live notifications after one more request for a new
notification has been handled: the registry holds the ids 1 to 21. -/
def overfullDaemon : NotifyDaemonPrivate :=
  match notify_daemon_notify_handler 7000 sampleEnv fullDaemon sampleRequest with
  | some r => r.2
  | none => fullDaemon

/-- A request that re-uses the id of the live notification 1. -/
def renewRequest : NotifyRequest :=
  { sampleRequest with id := 1 }

/-- The registry invariant on a table `h`, with `f` the `_notify_id` datum of
the popup windows: keys are pairwise distinct, every entry is stored under its
own id, and the popup of an entry carries that id. -/
def EntriesOk (f : Nat → Nat) (h : GHashTable NotifyTimeout) : Prop :=
  h.keys.Nodup ∧ ∀ e ∈ h, e.2.id = e.1 ∧ f e.2.nw = e.1

instance (f : Nat → Nat) (h : GHashTable NotifyTimeout) : Decidable (EntriesOk f h) := by
  unfold EntriesOk; infer_instance

/-- The registry invariant that the handlers maintain, on a daemon state. -/
def RegistryOk (daemon : NotifyDaemonPrivate) : Prop :=
  EntriesOk daemon.notify_id_data daemon.notification_hash

instance (daemon : NotifyDaemonPrivate) : Decidable (RegistryOk daemon) := by
  unfold RegistryOk; infer_instance

/-- The update of `next_id` in lines 826 to 833: the candidate the allocator
tries after `id`. -/
def next_candidate (id : Nat) : Nat :=
  if id ≠ UINT_MAX then id + 1 else 1

/-- The `k`-th candidate the allocator tries when it starts from `n`
(`k = 0` is `n` itself). -/
def candidate (n k : Nat) : Nat :=
  next_candidate^[k] n

/-- The states the daemon reaches from start-up through `_store_notification`,
`_close_notification` and `_check_expiration`, with any arguments and at any
clock reading. -/
inductive Reachable (D : Int) : NotifyDaemonPrivate → Prop where
  | init (n_monitors : Nat) : Reachable D (notify_daemon_init n_monitors)
  | store {daemon daemon2 : NotifyDaemonPrivate} {nt : NotifyTimeout} (nw : Nat) (timeout : Int)
      (now : GTimeVal) :
      Reachable D daemon → _store_notification D daemon nw timeout now = some (nt, daemon2) →
      Reachable D daemon2
  | close {daemon : NotifyDaemonPrivate} (id : Nat) (hide_notification : Bool)
      (reason : NotifydClosedReason) :
      Reachable D daemon → Reachable D (_close_notification daemon id hide_notification reason)
  | sweep {daemon : NotifyDaemonPrivate} (clock : Nat → GTimeVal) :
      Reachable D daemon → Reachable D (_check_expiration clock daemon).2

/-- The states of a running daemon: start-up, followed by any sequence of
`Notify` and `CloseNotification` calls that return, X events, pointer crossings,
monitor changes, and dispatches of attached sources, in any surroundings. -/
inductive Running (D : Int) : NotifyDaemonPrivate → Prop where
  | init (n_monitors : Nat) : Running D (notify_daemon_init n_monitors)
  | notify {daemon daemon2 : NotifyDaemonPrivate} {reply : Reply} (env : NotifyEnv)
      (req : NotifyRequest) :
      Running D daemon → notify_daemon_notify_handler D env daemon req = some (reply, daemon2) →
      Running D daemon2
  | close {daemon : NotifyDaemonPrivate} (id : Nat) :
      Running D daemon → Running D (notify_daemon_close_notification_handler daemon id).2.2
  | x11_event {daemon daemon2 : NotifyDaemonPrivate} (x : XServer) (type : XEventType)
      (window : Nat) :
      Running D daemon → _notify_x11_filter x daemon type window = some daemon2 →
      Running D daemon2
  | mouse_entered {daemon daemon2 : NotifyDaemonPrivate} (nw : Nat) (inferior : Bool)
      (now : GTimeVal) :
      Running D daemon → _mouse_entered_cb daemon nw inferior now = some daemon2 →
      Running D daemon2
  | mouse_exitted {daemon daemon2 : NotifyDaemonPrivate} (nw : Nat) (inferior : Bool) :
      Running D daemon → _mouse_exitted_cb daemon nw inferior = some daemon2 →
      Running D daemon2
  | monitors_changed {daemon : NotifyDaemonPrivate} (n_monitors : Int) :
      Running D daemon → Running D (on_screen_monitors_changed daemon n_monitors)
  | dispatch {daemon daemon2 : NotifyDaemonPrivate} (x : XServer) (clock : Nat → GTimeVal)
      (source : GSource) :
      Running D daemon → source ∈ daemon.sources →
      dispatch x clock daemon source = some daemon2 → Running D daemon2

/-- The id a source debounces, when it is a reposition debounce. -/
def debounce_id : SourceFunc → Option Nat
  | SourceFunc.idle_reposition_notification id => some id
  | _ => none

/-- The number of attached reposition debounces for `id`. -/
def pending_repositions (daemon : NotifyDaemonPrivate) (id : Nat) : Nat :=
  daemon.sources.countP (fun s => decide (debounce_id s.func = some id))

/-- The invariant of the main context and the debounce queue: attached sources
have pairwise distinct ids, all in `1 .. next_source_id - 1`; the tag of the exit
timer is one the context has handed out, and not that of a debounce; every
attached debounce is recorded in `idle_reposition_notify_ids` under its id; and
every id recorded there has exactly one attached debounce. -/
def QueueOk (daemon : NotifyDaemonPrivate) : Prop :=
  (daemon.sources.map (fun s => s.id)).Nodup ∧
  (∀ s ∈ daemon.sources, 1 ≤ s.id ∧ s.id < daemon.next_source_id) ∧
  daemon.exit_timeout_source < daemon.next_source_id ∧
  (∀ s ∈ daemon.sources, s.id = daemon.exit_timeout_source → debounce_id s.func = none) ∧
  (∀ s ∈ daemon.sources, ∀ id ∈ debounce_id s.func,
    (g_hash_table_lookup daemon.idle_reposition_notify_ids id).isSome = true) ∧
  (∀ e ∈ daemon.idle_reposition_notify_ids, pending_repositions daemon e.1 = 1)

instance (daemon : NotifyDaemonPrivate) : Decidable (QueueOk daemon) := by
  unfold QueueOk; infer_instance

/-- The part of the state `QueueOk` speaks about: the attached sources, the
next source id, the tag of the exit timer and the table of pending debounces. -/
def queue_view (daemon : NotifyDaemonPrivate) : List GSource × Nat × Nat × GHashTable Nat :=
  (daemon.sources, daemon.next_source_id, daemon.exit_timeout_source,
    daemon.idle_reposition_notify_ids)

/-- The number of repositions carried out, read off a trace: the redraw of line
1308 is the last call of `sync_notification_position` and is issued nowhere
else. -/
def sync_count (trace : List Call) : Nat :=
  trace.countP (fun c => match c with
    | Call.gtk_widget_queue_draw _ => true
    | _ => false)

/-- The calls lines 1619 to 1668 can issue. -/
def finish_call : Call → Bool
  | Call.XSelectInput _ => true
  | Call.theme_set_notification_arrow _ _ _ _ => true
  | Call.theme_move_notification _ _ _ => true
  | Call.theme_show_notification _ => true
  | Call.gtk_widget_queue_draw _ => true
  | Call.sound_play_file _ => true
  | Call.theme_set_notification_timeout _ _ => true
  | _ => false

/-- The calls lines 1520 to 1668 can issue for a popup that is being updated:
those of `finish_call`, and a stack update that is not flagged as new. -/
def update_call : Call → Bool
  | Call.notify_stack_add_window _ _ new_notification => !new_notification
  | c => finish_call c

/-- The idle-exit invariant: source ids are positive, and the exit timer is
armed exactly when the registry is empty. -/
def ExitTimerOk (daemon : NotifyDaemonPrivate) : Prop :=
  1 ≤ daemon.next_source_id ∧
  (daemon.exit_timeout_source > 0 ↔ g_hash_table_size daemon.notification_hash = 0)

/-- The surroundings of `sampleEnv` with the monitor setting at -1. -/
def strayEnv : NotifyEnv :=
  { sampleEnv with monitor_number := -1 }

/-- The surroundings of `sampleEnv` while the screensaver is active. -/
def suppressedEnv : NotifyEnv :=
  { sampleEnv with screensaver_active := true }

/-- Whether a call is a `NotificationClosed` signal. -/
def is_closed_signal : Call → Bool
  | Call.NotificationClosed _ _ => true
  | _ => false

/-- The daemon on one monitor after its first notification, popup 121 with a
timeout of 5 s, has been stored at 15.0 s. -/
def storedDaemon : NotifyDaemonPrivate :=
  match _store_notification 7000 (notify_daemon_init 1) 121 5000 { tv_sec := 15, tv_usec := 0 } with
  | some r => r.2
  | none => notify_daemon_init 1

/-- A daemon on three monitors whose stacks hold the popups 101 and 102, 103,
and 104 and 105. -/
def threeMonitorDaemon : NotifyDaemonPrivate :=
  { notify_daemon_init 3 with
    screen := { stacks_ := [[101, 102], [103], [104, 105]], n_stacks := 3 } }

/-- A request for a new notification whose hints are `window-xid = 0`, `x = 5`
and `y = 6`. -/
def zeroXidRequest : NotifyRequest :=
  { sampleRequest with hint_window_xid := some 0, hint_x := some 5, hint_y := some 6 }

/-- The state `daemon` with the pending mark of `id` cleared. -/
def mark_cleared (daemon : NotifyDaemonPrivate) (id : Nat) : NotifyDaemonPrivate :=
  { daemon with
    idle_reposition_notify_ids := g_hash_table_remove daemon.idle_reposition_notify_ids id }

/-- The window tree as the server reports it: `chain` lists the proper
ancestors of `w` from its parent upwards, up to but excluding `root`, and every
parent query on the way succeeds and names `root` as the root. -/
def AncestorChain (x : XServer) (root : Nat) : Nat → List Nat → Prop
  | w, [] => x.XQueryTree w = some (root, root)
  | w, a :: rest =>
    x.XQueryTree w = some (root, a) ∧ a ≠ 0 ∧ a ≠ root ∧ AncestorChain x root a rest

/-- Decides `AncestorChain` by walking the list. -/
def AncestorChain.dec (x : XServer) (root : Nat) :
    (w : Nat) → (chain : List Nat) → Decidable (AncestorChain x root w chain)
  | w, [] => by unfold AncestorChain; infer_instance
  | w, a :: rest => by
    unfold AncestorChain
    have := AncestorChain.dec x root a rest
    infer_instance

instance (x : XServer) (root w : Nat) (chain : List Nat) :
    Decidable (AncestorChain x root w chain) :=
  AncestorChain.dec x root w chain

/-- An X server with the window 9 inside 8 inside the top-level window 7 under
the root 1. -/
def nestedXServer : XServer :=
  { XQueryTree := fun w =>
      if w = 9 then some (1, 8) else if w = 8 then some (1, 7)
      else if w = 7 then some (1, 1) else if w = 1 then some (1, 0) else none,
    XGetGeometry := fun w => if w = 9 then some (200, 100) else none,
    XTranslateCoordinates := fun w => if w = 9 then some (50, 60) else none,
    n_windows := 4 }

/-- The states the daemon reaches from start-up through `_store_notification`
(which arms a new entry with `_calculate_timeout`), `_calculate_timeout` on a live
entry (the re-arming of lines 1661 to 1664), `_close_notification` and
`_check_expiration`, with any arguments and at any clock reading. -/
inductive Ticking (D : Int) : NotifyDaemonPrivate → Prop where
  | init (n_monitors : Nat) : Ticking D (notify_daemon_init n_monitors)
  | store {daemon daemon2 : NotifyDaemonPrivate} {nt : NotifyTimeout} (nw : Nat) (timeout : Int)
      (now : GTimeVal) :
      Ticking D daemon → _store_notification D daemon nw timeout now = some (nt, daemon2) →
      Ticking D daemon2
  | rearm {daemon : NotifyDaemonPrivate} {nt : NotifyTimeout} (key : Nat) (timeout : Int)
      (now : GTimeVal) :
      Ticking D daemon → g_hash_table_lookup daemon.notification_hash key = some nt →
      Ticking D { (_calculate_timeout D daemon nt timeout now).2 with
        notification_hash :=
          write_entry (_calculate_timeout D daemon nt timeout now).2.notification_hash key
            (_calculate_timeout D daemon nt timeout now).1 }
  | close {daemon : NotifyDaemonPrivate} (id : Nat) (hide_notification : Bool)
      (reason : NotifydClosedReason) :
      Ticking D daemon → Ticking D (_close_notification daemon id hide_notification reason)
  | sweep {daemon : NotifyDaemonPrivate} (clock : Nat → GTimeVal) :
      Ticking D daemon → Ticking D (_check_expiration clock daemon).2

/-- Whether some entry of the registry has `has_timeout` set. -/
def has_timed_entry (h : GHashTable NotifyTimeout) : Bool :=
  h.any (fun e => e.2.has_timeout)

/-- The tick invariant: source ids are positive, and the periodic tick is
scheduled whenever some live entry has `has_timeout` set. -/
def TickOk (daemon : NotifyDaemonPrivate) : Prop :=
  1 ≤ daemon.next_source_id ∧
  (has_timed_entry daemon.notification_hash = true → daemon.timeout_source ≠ 0)

/-- The trace of `daemon2` is the trace of `daemon` followed by calls that all
satisfy `p`. -/
def TraceExt (p : Call → Bool) (daemon daemon2 : NotifyDaemonPrivate) : Prop :=
  ∃ added, daemon2.trace = daemon.trace ++ added ∧ ∀ c ∈ added, p c = true

/-- A running notification, id 1 on popup 101, due at 10.000 s. -/
def twinEntry1 : NotifyTimeout :=
  { NotifyTimeout.zero with id := 1, nw := 101, has_timeout := true,
                            expiration := { tv_sec := 10, tv_usec := 0 } }

/-- A running notification, id 2 on popup 102, due at 10.000 s as well. -/
def twinEntry2 : NotifyTimeout :=
  { NotifyTimeout.zero with id := 2, nw := 102, has_timeout := true,
                            expiration := { tv_sec := 10, tv_usec := 0 } }

/-- The sample daemon with the registry holding `twinEntry1` and
`twinEntry2`. -/
def twinDaemon : NotifyDaemonPrivate :=
  { sampleDaemon with notification_hash := [(1, twinEntry1), (2, twinEntry2)] }

/-- The clock readings of a sweep that examines entry 1 at 10.000999 s and
every other entry one microsecond later, at 10.001000 s. -/
def splitClock : Nat → GTimeVal :=
  fun key => if key = 1 then { tv_sec := 10, tv_usec := 999 } else { tv_sec := 10, tv_usec := 1000 }

/-! ## Facts about hash tables -/

theorem lookup_eq_none_iff {ν : Type} (h : GHashTable ν) (key : Nat) :
    g_hash_table_lookup h key = none ↔ key ∉ h.keys := by
  induction h with
  | nil => simp [g_hash_table_lookup, GHashTable.keys]
  | cons e rest ih =>
    obtain ⟨k, v⟩ := e
    by_cases hk : k = key
    · simp [g_hash_table_lookup, GHashTable.keys, hk]
    · have hk' : ¬ key = k := fun c => hk c.symm
      simpa [g_hash_table_lookup, GHashTable.keys, hk, hk'] using ih

theorem keys_insert {ν : Type} (h : GHashTable ν) (key : Nat) (value : ν) (j : Nat) :
    j ∈ (g_hash_table_insert h key value).keys ↔ j ∈ h.keys ∨ j = key := by
  induction h with
  | nil => simp [g_hash_table_insert, GHashTable.keys]
  | cons e rest ih =>
    obtain ⟨k, v⟩ := e
    by_cases hk : k = key
    · subst hk
      simp [g_hash_table_insert, GHashTable.keys]
      tauto
    · simp only [GHashTable.keys] at ih
      simp [g_hash_table_insert, GHashTable.keys, hk, ih]
      tauto

theorem nodup_keys_insert {ν : Type} (h : GHashTable ν) (key : Nat) (value : ν)
    (hn : h.keys.Nodup) : (g_hash_table_insert h key value).keys.Nodup := by
  induction h with
  | nil => simp [g_hash_table_insert, GHashTable.keys]
  | cons e rest ih =>
    obtain ⟨k, v⟩ := e
    have hn' : k ∉ GHashTable.keys rest ∧ (GHashTable.keys rest).Nodup := by
      simpa [GHashTable.keys] using hn
    by_cases hk : k = key
    · simpa [g_hash_table_insert, GHashTable.keys, hk] using hn
    · have hmem := keys_insert rest key value k
      have hrec := ih hn'.2
      have hnot : k ∉ (g_hash_table_insert rest key value).keys := by
        rw [hmem]; tauto
      simp only [g_hash_table_insert, hk, if_false, GHashTable.keys, List.map_cons,
        List.nodup_cons]
      exact ⟨hnot, hrec⟩

theorem lookup_insert_self {ν : Type} (h : GHashTable ν) (key : Nat) (value : ν) :
    g_hash_table_lookup (g_hash_table_insert h key value) key = some value := by
  induction h with
  | nil => simp [g_hash_table_insert, g_hash_table_lookup]
  | cons e rest ih =>
    obtain ⟨k, v⟩ := e
    by_cases hk : k = key
    · simp [g_hash_table_insert, g_hash_table_lookup, hk]
    · simp [g_hash_table_insert, g_hash_table_lookup, hk, ih]

/-! ## Facts about time values -/

theorem g_time_val_add_spec (now : GTimeVal) (m : Int) (hn : now.Normal) (hm : 0 ≤ m) :
    (g_time_val_add now m).Normal ∧ (g_time_val_add now m).toUsec = now.toUsec + m := by
  unfold GTimeVal.Normal at hn
  have hg : ¬ ¬ (0 ≤ now.tv_usec ∧ now.tv_usec < 1000000) := not_not.mpr hn
  simp only [g_time_val_add, G_USEC_PER_SEC, GTimeVal.Normal, GTimeVal.toUsec, hm, hg, if_true,
    if_false]
  split_ifs <;> simp only [] <;> constructor <;> omega

theorem toMsec_of_normal (t : GTimeVal) (h : t.Normal) : t.toMsec = t.toUsec / 1000 := by
  unfold GTimeVal.Normal at h
  unfold GTimeVal.toMsec GTimeVal.toUsec
  rw [Int.tdiv_eq_ediv h.1 (by decide)]
  omega

theorem wrapLong_of_range (x : Int) (h1 : -9223372036854775808 ≤ x) (h2 : x < 9223372036854775808) :
    wrapLong x = x := by
  unfold wrapLong
  rw [Int.emod_eq_of_lt (by omega) (by omega)]
  omega

theorem timeout_usec_pos (t : Int) (h1 : 0 < t) (h2 : t ≤ INT_MAX) : timeout_usec t = t * 1000 := by
  unfold INT_MAX at h2
  unfold timeout_usec
  rw [wrapLong_of_range _ (by omega) (by omega)]
  simp only []
  split_ifs <;> omega

theorem timeout_usec_neg (t : Int) (h1 : t < 0) (h2 : -INT_MAX - 1 ≤ t) : timeout_usec t = G_MAXLONG := by
  unfold INT_MAX at h2
  unfold timeout_usec
  rw [wrapLong_of_range _ (by omega) (by omega)]
  simp only []
  split_ifs <;> omega

/-! ## Facts about the id allocator -/

theorem allocate_id_finds (h : GHashTable NotifyTimeout) (u : Nat) (hu1 : 1 ≤ u)
    (hu2 : u ≤ UINT_MAX) (hfree : g_hash_table_lookup h u = none) :
    ∀ fuel n, 1 ≤ n → n ≤ UINT_MAX → cyclicDistance n u < fuel →
      ∃ id n', allocate_id h fuel n = some (id, n') ∧ 1 ≤ id ∧ id ≤ UINT_MAX ∧
        g_hash_table_lookup h id = none ∧ 1 ≤ n' ∧ n' ≤ UINT_MAX := by
  intro fuel
  induction fuel with
  | zero => intro n _ _ hd; omega
  | succ f ih =>
    intro n hn1 hn2 hd
    cases hl : g_hash_table_lookup h n with
    | none =>
      refine ⟨n, if n ≠ UINT_MAX then n + 1 else 1, ?_, hn1, hn2, hl, ?_, ?_⟩
      · have hn0 : n ≠ 0 := by omega
        simp [allocate_id, hl, hn0]
      · split <;> omega
      · split <;> omega
    | some v =>
      have hne : n ≠ u := by
        intro c; rw [c, hfree] at hl; cases hl
      have hstep : allocate_id h (f + 1) n
          = allocate_id h f (if n ≠ UINT_MAX then n + 1 else 1) := by
        simp [allocate_id, hl]
      rw [hstep]
      apply ih
      · split <;> omega
      · split <;> omega
      · unfold cyclicDistance UINT_MAX at *
        split_ifs at * <;> omega

theorem free_id_exists {ν : Type} (h : GHashTable ν) (hlen : g_hash_table_size h < UINT_MAX) :
    ∃ i, 1 ≤ i ∧ i ≤ UINT_MAX ∧ i ∉ h.keys := by
  by_contra hall
  push_neg at hall
  have hsub : Finset.Icc 1 UINT_MAX ⊆ h.keys.toFinset := by
    intro i hi
    rw [Finset.mem_Icc] at hi
    exact List.mem_toFinset.mpr (hall i hi.1 hi.2)
  have h0 := Finset.card_le_card hsub
  have h1 : h.keys.toFinset.card ≤ h.keys.length := List.toFinset_card_le _
  have h2 : h.keys.length = h.length := by simp [GHashTable.keys]
  have h3 : (Finset.Icc 1 UINT_MAX).card = UINT_MAX := by simp
  unfold g_hash_table_size at hlen
  omega

theorem calculate_timeout_hash (D : Int) (daemon : NotifyDaemonPrivate) (nt : NotifyTimeout)
    (timeout : Int) (now : GTimeVal) :
    (_calculate_timeout D daemon nt timeout now).2.notification_hash = daemon.notification_hash := by
  by_cases h0 : timeout = 0 <;> by_cases hs : daemon.timeout_source = 0 <;>
    simp [_calculate_timeout, h0, hs, NotifyDaemonPrivate.call, g_timeout_add]

theorem calculate_timeout_id (D : Int) (daemon : NotifyDaemonPrivate) (nt : NotifyTimeout)
    (timeout : Int) (now : GTimeVal) :
    (_calculate_timeout D daemon nt timeout now).1.id = nt.id := by
  by_cases h0 : timeout = 0 <;> by_cases hs : daemon.timeout_source = 0 <;>
    simp [_calculate_timeout, h0, hs, NotifyDaemonPrivate.call, g_timeout_add]

theorem remove_exit_timeout_hash (daemon : NotifyDaemonPrivate) :
    (remove_exit_timeout daemon).notification_hash = daemon.notification_hash := by
  by_cases h0 : daemon.exit_timeout_source = 0 <;>
    simp [remove_exit_timeout, h0, g_source_remove]

/-! ## Facts about the expiration sweep -/

theorem sweep_eq_of (clock : Nat → GTimeVal)
    (func : Nat → NotifyTimeout → NotifyDaemonPrivate × Bool →
      Bool × NotifyTimeout × (NotifyDaemonPrivate × Bool))
    (hfunc : ∀ key nt s, func key nt s = _is_expired (clock key) key nt s)
    (h : GHashTable NotifyTimeout) :
    ∀ (d : NotifyDaemonPrivate) (b : Bool),
    g_hash_table_foreach_remove func
      (fun nt s => (_notify_timeout_destroy nt s.1, s.2)) h (d, b)
    = (sweep_table clock h,
        ({ d with trace := d.trace ++ sweep_calls clock d.notify_id_data h },
          b || sweep_more clock h)) := by
  induction h with
  | nil => intro d b; simp [g_hash_table_foreach_remove, sweep_table, sweep_calls, sweep_more]
  | cons e rest ih =>
    intro d b
    obtain ⟨k, nt⟩ := e
    rw [g_hash_table_foreach_remove, hfunc]
    by_cases ht : nt.has_timeout = true
    · by_cases hx : nt.expiration.toMsec < (clock k).toMsec
      · have hE : ExpiredAt (clock k) nt := ⟨ht, hx⟩
        simp only [_is_expired, ht, hx, Bool.not_true, gt_iff_lt, if_true, Bool.false_eq_true,
          if_false, ih]
        simp [sweep_table, sweep_calls, sweep_more, entry_calls, hE, _emit_closed_signal,
          NotifyDaemonPrivate.call, _notify_timeout_destroy, NW_GET_NOTIFY_ID]
      · have hE : ¬ ExpiredAt (clock k) nt := fun c => hx c.2
        by_cases hp : nt.paused = true
        · simp only [_is_expired, ht, hx, hp, Bool.not_true, gt_iff_lt, if_true,
            Bool.false_eq_true, if_false, ih]
          simp [sweep_table, sweep_calls, sweep_more, entry_calls, hE, tick_entry, _is_expired,
            ht, hx, hp]
        · simp only [_is_expired, ht, hx, hp, Bool.not_true, gt_iff_lt, if_true,
            Bool.false_eq_true, if_false, ih]
          simp [sweep_table, sweep_calls, sweep_more, entry_calls, hE, tick_entry, _is_expired,
            ht, hx, hp, NotifyDaemonPrivate.call]
    · have hE : ¬ ExpiredAt (clock k) nt := fun c => ht c.1
      simp only [_is_expired, ht, Bool.not_false, if_true, ih]
      simp [sweep_table, sweep_calls, sweep_more, entry_calls, hE, tick_entry, _is_expired, ht]

theorem sweep_eq (clock : Nat → GTimeVal) (h : GHashTable NotifyTimeout) :
    ∀ (d : NotifyDaemonPrivate) (b : Bool),
    g_hash_table_foreach_remove (fun key nt s => _is_expired (clock key) key nt s)
      (fun nt s => (_notify_timeout_destroy nt s.1, s.2)) h (d, b)
    = (sweep_table clock h,
        ({ d with trace := d.trace ++ sweep_calls clock d.notify_id_data h },
          b || sweep_more clock h)) :=
  sweep_eq_of clock _ (fun _ _ _ => rfl) h

theorem lookup_sweep_table_none (clock : Nat → GTimeVal) (h : GHashTable NotifyTimeout) (k : Nat)
    (hk : g_hash_table_lookup h k = none) :
    g_hash_table_lookup (sweep_table clock h) k = none := by
  induction h with
  | nil => simp [sweep_table, g_hash_table_lookup]
  | cons e rest ih =>
    obtain ⟨k', nt⟩ := e
    by_cases hkk : k' = k
    · simp [g_hash_table_lookup, hkk] at hk
    · simp only [g_hash_table_lookup, hkk, if_false] at hk
      have := ih hk
      unfold sweep_table at this ⊢
      by_cases hE : ExpiredAt (clock k') nt
      · simpa [List.filterMap_cons, hE] using this
      · simpa [List.filterMap_cons, hE, g_hash_table_lookup, hkk] using this

theorem lookup_sweep_table_keep (clock : Nat → GTimeVal) (h : GHashTable NotifyTimeout) (k : Nat)
    (nt : NotifyTimeout) (hk : g_hash_table_lookup h k = some nt)
    (hE : ¬ ExpiredAt (clock k) nt) :
    g_hash_table_lookup (sweep_table clock h) k = some (tick_entry (clock k) nt) := by
  induction h with
  | nil => simp [g_hash_table_lookup] at hk
  | cons e rest ih =>
    obtain ⟨k', nt'⟩ := e
    by_cases hkk : k' = k
    · simp only [g_hash_table_lookup, hkk, if_true, Option.some.injEq] at hk
      subst hk
      subst hkk
      simp [sweep_table, List.filterMap_cons, hE, g_hash_table_lookup]
    · simp only [g_hash_table_lookup, hkk, if_false] at hk
      have := ih hk
      unfold sweep_table at this ⊢
      by_cases hE' : ExpiredAt (clock k') nt'
      · simpa [List.filterMap_cons, hE'] using this
      · simpa [List.filterMap_cons, hE', g_hash_table_lookup, hkk] using this

theorem lookup_sweep_table_drop (clock : Nat → GTimeVal) (h : GHashTable NotifyTimeout) (k : Nat)
    (nt : NotifyTimeout) (hn : h.keys.Nodup) (hk : g_hash_table_lookup h k = some nt)
    (hE : ExpiredAt (clock k) nt) : g_hash_table_lookup (sweep_table clock h) k = none := by
  induction h with
  | nil => simp [g_hash_table_lookup] at hk
  | cons e rest ih =>
    obtain ⟨k', nt'⟩ := e
    have hn' : k' ∉ GHashTable.keys rest ∧ (GHashTable.keys rest).Nodup := by
      simpa [GHashTable.keys] using hn
    by_cases hkk : k' = k
    · simp only [g_hash_table_lookup, hkk, if_true, Option.some.injEq] at hk
      subst hk
      subst hkk
      have hnone := (lookup_eq_none_iff rest k').2 hn'.1
      have := lookup_sweep_table_none clock rest k' hnone
      unfold sweep_table at this ⊢
      simpa [List.filterMap_cons, hE] using this
    · simp only [g_hash_table_lookup, hkk, if_false] at hk
      have := ih hn'.2 hk
      unfold sweep_table at this ⊢
      by_cases hE' : ExpiredAt (clock k') nt'
      · simpa [List.filterMap_cons, hE'] using this
      · simpa [List.filterMap_cons, hE', g_hash_table_lookup, hkk] using this

theorem count_closed_entry_calls (now : GTimeVal) (f : Nat → Nat) (nt : NotifyTimeout) (i : Nat)
    (reason : NotifydClosedReason) :
    (entry_calls now f nt).count (Call.NotificationClosed i reason)
      = if ExpiredAt now nt ∧ f nt.nw = i ∧ reason = NOTIFYD_CLOSED_EXPIRED then 1 else 0 := by
  unfold entry_calls
  by_cases hE : ExpiredAt now nt
  · by_cases hi : f nt.nw = i
    · by_cases hr : reason = NOTIFYD_CLOSED_EXPIRED
      · simp [hE, hi, hr, List.count_cons]
      · have hr' : ¬ NOTIFYD_CLOSED_EXPIRED = reason := fun c => hr c.symm
        simp [hE, hi, hr, hr', List.count_cons]
    · simp [hE, hi, List.count_cons]
  · by_cases hp : nt.has_timeout = true ∧ nt.paused = false
    · simp [hE, hp, List.count_cons]
    · simp [hE, hp]

theorem count_closed_sweep_calls (clock : Nat → GTimeVal) (f : Nat → Nat)
    (h : GHashTable NotifyTimeout)
    (hn : h.keys.Nodup) (hf : ∀ e ∈ h, f e.2.nw = e.1) (i : Nat) (reason : NotifydClosedReason) :
    ((sweep_calls clock f h).count (Call.NotificationClosed i reason) = 1 ∧
        reason = NOTIFYD_CLOSED_EXPIRED ∧
        ∃ nt, g_hash_table_lookup h i = some nt ∧ ExpiredAt (clock i) nt) ∨
    ((sweep_calls clock f h).count (Call.NotificationClosed i reason) = 0 ∧
        ¬ (reason = NOTIFYD_CLOSED_EXPIRED ∧
        ∃ nt, g_hash_table_lookup h i = some nt ∧ ExpiredAt (clock i) nt)) := by
  induction h with
  | nil => right; simp [sweep_calls, g_hash_table_lookup]
  | cons e rest ih =>
    obtain ⟨k, nt⟩ := e
    have hn' : k ∉ GHashTable.keys rest ∧ (GHashTable.keys rest).Nodup := by
      simpa [GHashTable.keys] using hn
    have hfk : f nt.nw = k := hf (k, nt) (by simp)
    have hf' : ∀ e ∈ rest, f e.2.nw = e.1 := fun e he => hf e (by simp [he])
    have hrec := ih hn'.2 hf'
    simp only [sweep_calls, List.count_append, count_closed_entry_calls, hfk]
    by_cases hki : k = i
    · subst hki
      have hnone := (lookup_eq_none_iff rest k).2 hn'.1
      have hrest : (sweep_calls clock f rest).count (Call.NotificationClosed k reason) = 0 := by
        rcases hrec with ⟨_, _, nt', hl, _⟩ | ⟨h0, _⟩
        · rw [hnone] at hl; cases hl
        · exact h0
      rw [hrest]
      by_cases hc : ExpiredAt (clock k) nt ∧ reason = NOTIFYD_CLOSED_EXPIRED
      · left
        simp [hc.1, hc.2, g_hash_table_lookup]
      · right
        simp only [g_hash_table_lookup, if_true, Option.some.injEq, exists_eq_left', true_and]
        constructor
        · simp; tauto
        · tauto
    · have hlk : g_hash_table_lookup ((k, nt) :: rest) i = g_hash_table_lookup rest i := by
        simp [g_hash_table_lookup, hki]
      rw [hlk]
      simpa [hki] using hrec

theorem add_exit_timeout_hash (d : NotifyDaemonPrivate) :
    (add_exit_timeout d).notification_hash = d.notification_hash := by
  by_cases h : d.exit_timeout_source > 0 <;> simp [add_exit_timeout, h, g_timeout_add]

theorem add_exit_timeout_trace (d : NotifyDaemonPrivate) :
    (add_exit_timeout d).trace = d.trace := by
  by_cases h : d.exit_timeout_source > 0 <;> simp [add_exit_timeout, h, g_timeout_add]

theorem check_expiration_hash (clock : Nat → GTimeVal) (d : NotifyDaemonPrivate) :
    (_check_expiration clock d).2.notification_hash = sweep_table clock d.notification_hash := by
  unfold _check_expiration
  simp only [sweep_eq]
  split_ifs <;> simp [add_exit_timeout_hash]

theorem check_expiration_trace (clock : Nat → GTimeVal) (d : NotifyDaemonPrivate) :
    (_check_expiration clock d).2.trace
      = d.trace ++ sweep_calls clock d.notify_id_data d.notification_hash := by
  unfold _check_expiration
  simp only [sweep_eq]
  split_ifs <;> simp [add_exit_timeout_trace]

theorem check_expiration_result (clock : Nat → GTimeVal) (d : NotifyDaemonPrivate) :
    (_check_expiration clock d).1 = sweep_more clock d.notification_hash := by
  unfold _check_expiration
  simp only [sweep_eq]
  split_ifs with h1 h2 <;> simp_all

theorem tick_entry_id (now : GTimeVal) (nt : NotifyTimeout) :
    (tick_entry now nt).id = nt.id ∧ (tick_entry now nt).nw = nt.nw ∧
      (tick_entry now nt).has_timeout = nt.has_timeout ∧ (tick_entry now nt).paused = nt.paused ∧
      (tick_entry now nt).paused_diff = nt.paused_diff ∧
      (tick_entry now nt).src_window_xid = nt.src_window_xid := by
  by_cases ht : nt.has_timeout = true <;> by_cases hx : nt.expiration.toMsec < now.toMsec <;>
    by_cases hp : nt.paused = true <;> simp [tick_entry, _is_expired, ht, hx, hp]

theorem lookup_write_entry_self {ν : Type} (h : GHashTable ν) (key : Nat) (v w : ν)
    (hl : g_hash_table_lookup h key = some w) :
    g_hash_table_lookup (write_entry h key v) key = some v := by
  induction h with
  | nil => simp [g_hash_table_lookup] at hl
  | cons e rest ih =>
    obtain ⟨k, u⟩ := e
    by_cases hk : k = key
    · simp [write_entry, g_hash_table_lookup, hk]
    · simp only [g_hash_table_lookup, hk, if_false] at hl
      simp [write_entry, g_hash_table_lookup, hk, ih hl]

theorem lookup_write_entry_other {ν : Type} (h : GHashTable ν) (key j : Nat) (v : ν)
    (hj : j ≠ key) :
    g_hash_table_lookup (write_entry h key v) j = g_hash_table_lookup h j := by
  induction h with
  | nil => simp [write_entry, g_hash_table_lookup]
  | cons e rest ih =>
    obtain ⟨k, u⟩ := e
    by_cases hkj : k = j
    · subst hkj
      simp [write_entry, g_hash_table_lookup, hj]
    · simp [write_entry, g_hash_table_lookup, hkj, ih]

theorem keys_write_entry {ν : Type} (h : GHashTable ν) (key : Nat) (v : ν) :
    (write_entry h key v).keys = h.keys := by
  induction h with
  | nil => simp [write_entry, GHashTable.keys]
  | cons e rest ih =>
    obtain ⟨k, u⟩ := e
    simp only [GHashTable.keys] at ih
    simp [write_entry, GHashTable.keys, ih]

theorem calculate_timeout_entry_zero (D : Int) (daemon : NotifyDaemonPrivate) (nt : NotifyTimeout)
    (now : GTimeVal) :
    (_calculate_timeout D daemon nt 0 now).1 = { nt with has_timeout := false } := by
  simp [_calculate_timeout]

theorem calculate_timeout_entry (D : Int) (daemon : NotifyDaemonPrivate) (nt : NotifyTimeout)
    (timeout : Int) (now : GTimeVal) (h0 : timeout ≠ 0) :
    (_calculate_timeout D daemon nt timeout now).1
      = { nt with has_timeout := true,
                  expiration := g_time_val_add now
                    (timeout_usec (if timeout = -1 then D else timeout)) } := by
  by_cases hs : daemon.timeout_source = 0 <;>
    simp [_calculate_timeout, h0, hs, NotifyDaemonPrivate.call, g_timeout_add]

theorem is_expired_untimed (now : GTimeVal) (key : Nat) (nt : NotifyTimeout)
    (s : NotifyDaemonPrivate × Bool) (h : nt.has_timeout = false) :
    _is_expired now key nt s = (false, nt, s) := by
  simp [_is_expired, h]

theorem is_expired_result (now : GTimeVal) (key : Nat) (nt : NotifyTimeout)
    (s : NotifyDaemonPrivate × Bool) :
    (_is_expired now key nt s).1 = decide (ExpiredAt now nt) := by
  by_cases ht : nt.has_timeout = true <;> by_cases hx : nt.expiration.toMsec < now.toMsec <;>
    by_cases hp : nt.paused = true <;> simp [_is_expired, ExpiredAt, ht, hx, hp]

theorem tick_entry_untimed (now : GTimeVal) (nt : NotifyTimeout) (h : nt.has_timeout = false) :
    tick_entry now nt = nt := by
  simp [tick_entry, _is_expired, h]

theorem toMsec_mono (a b : GTimeVal) (ha : a.Normal) (hb : b.Normal)
    (h : a.toUsec ≤ b.toUsec) : a.toMsec ≤ b.toMsec := by
  rw [toMsec_of_normal a ha, toMsec_of_normal b hb]
  omega

/-! ## Facts about the handlers -/

theorem notify_stack_add_window_hash (d : NotifyDaemonPrivate) (stack : Int) (nw : Nat) (b : Bool) :
    (notify_stack_add_window d stack nw b).notification_hash = d.notification_hash ∧
    (notify_stack_add_window d stack nw b).next_id = d.next_id := by
  simp only [notify_stack_add_window]
  split_ifs <;> simp [NotifyDaemonPrivate.call]

theorem place_notification_hash (env : NotifyEnv) (d : NotifyDaemonPrivate) (req : NotifyRequest)
    (nw : Nat) (b : Bool) :
    (place_notification env d req nw b).notification_hash = d.notification_hash ∧
    (place_notification env d req nw b).next_id = d.next_id := by
  simp only [place_notification]
  split_ifs <;> simp [NotifyDaemonPrivate.call, notify_stack_add_window_hash]

theorem monitor_walk_returns (x : XServer) (id : Nat) :
    ∀ (fuel parent root : Nat) (d : NotifyDaemonPrivate), walk_ends x fuel parent root = true →
      ∃ d', monitor_walk x id fuel parent root d = some d' ∧
        d'.notification_hash = d.notification_hash ∧ d'.notify_id_data = d.notify_id_data := by
  intro fuel
  induction fuel with
  | zero => intro p r d h; simp [walk_ends] at h
  | succ f ih =>
    intro p r d h
    by_cases hc : p ≠ 0 ∧ r ≠ p
    · rw [walk_ends, if_pos hc] at h
      obtain ⟨d', h1, h2, h3⟩ := ih _ _
        ({ d.call (Call.XSelectInput p) with
            monitored_window_hash :=
              g_hash_table_insert (d.call (Call.XSelectInput p)).monitored_window_hash p id }) h
      refine ⟨d', ?_, ?_, ?_⟩
      · rw [monitor_walk, if_pos hc]; exact h1
      · simpa [NotifyDaemonPrivate.call] using h2
      · simpa [NotifyDaemonPrivate.call] using h3
    · exact ⟨d, by rw [monitor_walk, if_neg hc], rfl, rfl⟩

theorem monitor_notification_source_windows_returns (x : XServer) (d : NotifyDaemonPrivate)
    (key source : Nat) (nt : NotifyTimeout)
    (hl : g_hash_table_lookup d.notification_hash key = some nt) (ht : TrackingEnds x source) :
    ∃ d', monitor_notification_source_windows x d key source = some d' ∧
      d'.notification_hash
        = write_entry d.notification_hash key { nt with src_window_xid := source } ∧
      d'.notify_id_data = d.notify_id_data := by
  unfold TrackingEnds at ht
  by_cases h0 : g_hash_table_size d.monitored_window_hash = 0
  · obtain ⟨d', h1, h2, h3⟩ := monitor_walk_returns x nt.id _ _ _
      ({ d with x11_filters := d.x11_filters + 1,
                notification_hash :=
                  write_entry d.notification_hash key { nt with src_window_xid := source } }) ht
    exact ⟨d', by simp only [monitor_notification_source_windows, h0, if_true, hl]; exact h1,
      by simpa using h2, by simpa using h3⟩
  · obtain ⟨d', h1, h2, h3⟩ := monitor_walk_returns x nt.id _ _ _
      ({ d with notification_hash :=
                  write_entry d.notification_hash key { nt with src_window_xid := source } }) ht
    exact ⟨d', by simp only [monitor_notification_source_windows, h0, if_false, hl]; exact h1,
      by simpa using h2, by simpa using h3⟩

theorem sync_notification_position_hash (x : XServer) (d : NotifyDaemonPrivate) (nw source : Nat) :
    (sync_notification_position x d nw source).notification_hash = d.notification_hash ∧
    (sync_notification_position x d nw source).notify_id_data = d.notify_id_data := by
  unfold sync_notification_position
  cases x.XGetGeometry source with
  | none => simp
  | some g =>
    obtain ⟨w, h⟩ := g
    cases x.XTranslateCoordinates source with
    | none => simp
    | some c => obtain ⟨a, b⟩ := c; simp [NotifyDaemonPrivate.call]

theorem calculate_timeout_entry_indep (D : Int) (d d' : NotifyDaemonPrivate) (nt : NotifyTimeout)
    (timeout : Int) (now : GTimeVal) :
    (_calculate_timeout D d nt timeout now).1 = (_calculate_timeout D d' nt timeout now).1 := by
  by_cases h0 : timeout = 0
  · subst h0; rw [calculate_timeout_entry_zero, calculate_timeout_entry_zero]
  · rw [calculate_timeout_entry _ _ _ _ _ h0, calculate_timeout_entry _ _ _ _ _ h0]

theorem calculate_timeout_data (D : Int) (d : NotifyDaemonPrivate) (nt : NotifyTimeout)
    (timeout : Int) (now : GTimeVal) :
    (_calculate_timeout D d nt timeout now).2.notify_id_data = d.notify_id_data := by
  by_cases h0 : timeout = 0 <;> by_cases hs : d.timeout_source = 0 <;>
    simp [_calculate_timeout, h0, hs, NotifyDaemonPrivate.call, g_timeout_add]

/-- What lines 1619 to 1668 do to the registry: with the entry `nt` live under
`return_id` and a source window walk that ends, the call returns `return_id`,
the keys of the registry stay, the other entries stay, the popup is tagged with
`return_id`, and the entry is `nt`, possibly with a new source window, re-armed
by `_calculate_timeout`. -/
theorem notify_finish_returns (D : Int) (env : NotifyEnv) (d : NotifyDaemonPrivate)
    (req : NotifyRequest) (nw id rid : Nat) (nt : NotifyTimeout)
    (hl : g_hash_table_lookup d.notification_hash rid = some nt)
    (htrack : req.hint_window_xid.getD 0 = 0 ∨ env.always_stack = true ∨
      TrackingEnds env.xserver (req.hint_window_xid.getD 0)) :
    ∃ d' ntX, notify_finish D env d req nw id rid = some (Reply.return_id rid, d') ∧
      (ntX = nt ∨ ntX = { nt with src_window_xid := req.hint_window_xid.getD 0 }) ∧
      g_hash_table_lookup d'.notification_hash rid
        = some (_calculate_timeout D d ntX req.timeout env.now).1 ∧
      d'.notification_hash.keys = d.notification_hash.keys ∧
      (∀ j, j ≠ rid → g_hash_table_lookup d'.notification_hash j
        = g_hash_table_lookup d.notification_hash j) ∧
      d'.notify_id_data nw = rid := by
  -- the state after lines 1624 to 1628
  have htr : ∃ dT ntX,
      (if req.hint_window_xid.getD 0 ≠ 0 ∧ env.always_stack = false then
        (monitor_notification_source_windows env.xserver d rid (req.hint_window_xid.getD 0)).map
          (fun daemon => sync_notification_position env.xserver daemon nw
            (req.hint_window_xid.getD 0))
      else some d) = some dT ∧
      (ntX = nt ∨ ntX = { nt with src_window_xid := req.hint_window_xid.getD 0 }) ∧
      g_hash_table_lookup dT.notification_hash rid = some ntX ∧
      dT.notification_hash.keys = d.notification_hash.keys ∧
      (∀ j, j ≠ rid → g_hash_table_lookup dT.notification_hash j
        = g_hash_table_lookup d.notification_hash j) := by
    by_cases hc : req.hint_window_xid.getD 0 ≠ 0 ∧ env.always_stack = false
    · have hends : TrackingEnds env.xserver (req.hint_window_xid.getD 0) := by
        rcases htrack with h | h | h
        · exact absurd h hc.1
        · rw [hc.2] at h; cases h
        · exact h
      obtain ⟨dM, hM, hMh, _⟩ :=
        monitor_notification_source_windows_returns env.xserver d rid _ nt hl hends
      refine ⟨_, _, by rw [if_pos hc, hM]; rfl, Or.inr rfl, ?_, ?_, ?_⟩
      · rw [(sync_notification_position_hash _ _ _ _).1, hMh]
        exact lookup_write_entry_self _ _ _ _ hl
      · rw [(sync_notification_position_hash _ _ _ _).1, hMh, keys_write_entry]
      · intro j hj
        rw [(sync_notification_position_hash _ _ _ _).1, hMh, lookup_write_entry_other _ _ _ _ hj]
    · exact ⟨d, nt, by rw [if_neg hc], Or.inl rfl, hl, rfl, fun _ _ => rfl⟩
  obtain ⟨dT, ntX, hT, hX, hlT, hkT, hoT⟩ := htr
  cases hfin : notify_finish D env d req nw id rid with
  | none => simp [notify_finish, hT, hlT] at hfin
  | some r =>
  simp only [notify_finish, hT, hlT, Option.some.injEq] at hfin
  subst hfin
  refine ⟨_, ntX, rfl, hX, ?_, ?_, ?_, ?_⟩
  all_goals simp only [calculate_timeout_hash, calculate_timeout_data]
  · rw [calculate_timeout_entry_indep D _ d]
    split_ifs <;> exact lookup_write_entry_self _ _ _ _ hlT
  · rw [keys_write_entry]
    split_ifs <;> simpa [NotifyDaemonPrivate.call, g_timeout_add] using hkT
  · intro j hj
    rw [lookup_write_entry_other _ _ _ _ hj]
    split_ifs <;> simpa [NotifyDaemonPrivate.call, g_timeout_add] using hoT j hj
  · simp

theorem keys_insert_new {ν : Type} (h : GHashTable ν) (key : Nat) (value : ν)
    (hk : key ∉ h.keys) : (g_hash_table_insert h key value).keys = h.keys ++ [key] := by
  induction h with
  | nil => simp [g_hash_table_insert, GHashTable.keys]
  | cons e rest ih =>
    obtain ⟨k, v⟩ := e
    have hk' : ¬ k = key ∧ key ∉ GHashTable.keys rest := by
      simp only [GHashTable.keys, List.map_cons, List.mem_cons, not_or] at hk
      exact ⟨fun c => hk.1 c.symm, hk.2⟩
    have := ih hk'.2
    simp only [GHashTable.keys] at this
    simp [g_hash_table_insert, GHashTable.keys, hk'.1, this]

theorem keys_remove {ν : Type} (h : GHashTable ν) (key : Nat) :
    (g_hash_table_remove h key).keys = h.keys.filter (fun k => decide (k ≠ key)) := by
  induction h with
  | nil => simp [g_hash_table_remove, GHashTable.keys]
  | cons e rest ih =>
    obtain ⟨k, v⟩ := e
    simp only [g_hash_table_remove, GHashTable.keys] at ih
    by_cases hk : k = key <;>
      simpa [g_hash_table_remove, GHashTable.keys, List.filter_cons, hk] using ih

theorem keys_remove_appended (ks : List Nat) (key : Nat) (hk : key ∉ ks) :
    (ks ++ [key]).filter (fun k => decide (k ≠ key)) = ks := by
  induction ks with
  | nil => simp
  | cons a rest ih =>
    simp only [List.mem_cons, not_or] at hk
    have ha : a ≠ key := fun c => hk.1 c.symm
    rw [List.cons_append, List.filter_cons, if_pos (by simpa using ha), ih hk.2]

theorem close_notification_live (d : NotifyDaemonPrivate) (id : Nat) (hide : Bool)
    (reason : NotifydClosedReason) (nt : NotifyTimeout)
    (hl : g_hash_table_lookup d.notification_hash id = some nt) :
    (_close_notification d id hide reason).notification_hash
      = g_hash_table_remove d.notification_hash id ∧
    (_close_notification d id hide reason).trace
      = d.trace ++ (Call.NotificationClosed (d.notify_id_data nt.nw) reason ::
          (if hide then [Call.theme_hide_notification nt.nw] else []) ++
          [Call.gtk_widget_destroy nt.nw]) := by
  simp only [_close_notification, hl]
  cases hide <;> split_ifs <;>
    simp [add_exit_timeout_hash, add_exit_timeout_trace, _emit_closed_signal,
      _notify_timeout_destroy, NotifyDaemonPrivate.call, NW_GET_NOTIFY_ID]

theorem close_notification_absent (d : NotifyDaemonPrivate) (id : Nat) (hide : Bool)
    (reason : NotifydClosedReason)
    (hl : g_hash_table_lookup d.notification_hash id = none) :
    _close_notification d id hide reason = d := by
  simp only [_close_notification, hl]

/-- What `_store_notification` does to the registry when `next_id` is in
`1 .. UINT_MAX` and some id in that range is unused. -/
theorem store_notification_spec (D : Int) (daemon : NotifyDaemonPrivate) (nw : Nat)
    (timeout : Int) (now : GTimeVal)
    (hnext : 1 ≤ daemon.next_id ∧ daemon.next_id ≤ UINT_MAX)
    (hfree : ∃ i, 1 ≤ i ∧ i ≤ UINT_MAX ∧ i ∉ daemon.notification_hash.keys) :
    ∃ nt daemon', _store_notification D daemon nw timeout now = some (nt, daemon') ∧
      nt.id ≠ 0 ∧ nt.id ≤ UINT_MAX ∧ nt.nw = nw ∧ nt.id ∉ daemon.notification_hash.keys ∧
      daemon'.notification_hash = g_hash_table_insert daemon.notification_hash nt.id nt := by
  obtain ⟨u, hu1, hu2, hu⟩ := hfree
  have hfree' := (lookup_eq_none_iff daemon.notification_hash u).2 hu
  have hdist : cyclicDistance daemon.next_id u < UINT_MAX := by
    unfold cyclicDistance UINT_MAX at *
    split_ifs <;> omega
  obtain ⟨id, n', halloc, hid1, hid2, hidfree, _, _⟩ :=
    allocate_id_finds daemon.notification_hash u hu1 hu2 hfree' UINT_MAX daemon.next_id
      hnext.1 hnext.2 hdist
  have hidnot := (lookup_eq_none_iff daemon.notification_hash id).1 hidfree
  unfold _store_notification
  rw [halloc]
  refine ⟨_, _, rfl, ?_⟩
  have hnw : ∀ (d : NotifyDaemonPrivate) (e : NotifyTimeout),
      (_calculate_timeout D d e timeout now).1.nw = e.nw := by
    intro d e
    by_cases h0 : timeout = 0
    · subst h0; rw [calculate_timeout_entry_zero]
    · rw [calculate_timeout_entry _ _ _ _ _ h0]
  simp only [calculate_timeout_id, remove_exit_timeout_hash, calculate_timeout_hash, hnw]
  exact ⟨by omega, hid2, trivial, hidnot, trivial⟩

theorem calculate_timeout_nw (D : Int) (d : NotifyDaemonPrivate) (e : NotifyTimeout)
    (timeout : Int) (now : GTimeVal) :
    (_calculate_timeout D d e timeout now).1.nw = e.nw ∧
    (_calculate_timeout D d e timeout now).1.paused = e.paused ∧
    (_calculate_timeout D d e timeout now).1.paused_diff = e.paused_diff := by
  by_cases h0 : timeout = 0
  · subst h0; rw [calculate_timeout_entry_zero]; exact ⟨rfl, rfl, rfl⟩
  · rw [calculate_timeout_entry _ _ _ _ _ h0]; exact ⟨rfl, rfl, rfl⟩

/-! ## The registry invariant is maintained -/

theorem lookup_some_mem {ν : Type} (h : GHashTable ν) (k : Nat) (v : ν)
    (hl : g_hash_table_lookup h k = some v) : (k, v) ∈ h := by
  induction h with
  | nil => simp [g_hash_table_lookup] at hl
  | cons e rest ih =>
    obtain ⟨k', v'⟩ := e
    by_cases hk : k' = k
    · simp only [g_hash_table_lookup, hk, if_true, Option.some.injEq] at hl
      simp [hk, hl]
    · simp only [g_hash_table_lookup, hk, if_false] at hl
      exact List.mem_cons_of_mem _ (ih hl)

theorem mem_write_entry {ν : Type} (h : GHashTable ν) (key : Nat) (v : ν) (e : Nat × ν)
    (he : e ∈ write_entry h key v) :
    (e.1 = key ∧ e.2 = v ∧ ∃ w, (key, w) ∈ h) ∨ (e.1 ≠ key ∧ e ∈ h) := by
  induction h with
  | nil => simp [write_entry] at he
  | cons a rest ih =>
    obtain ⟨k, u⟩ := a
    simp only [write_entry, List.mem_cons] at he
    rcases he with he | he
    · by_cases hk : k = key
      · left; subst hk; simp [he]
      · right; simp [he, hk]
    · rcases ih he with ⟨h1, h2, w, hw⟩ | ⟨h1, h2⟩
      · exact Or.inl ⟨h1, h2, w, List.mem_cons_of_mem _ hw⟩
      · exact Or.inr ⟨h1, List.mem_cons_of_mem _ h2⟩

theorem mem_insert {ν : Type} (h : GHashTable ν) (key : Nat) (v : ν) (e : Nat × ν)
    (he : e ∈ g_hash_table_insert h key v) : e = (key, v) ∨ e ∈ h := by
  induction h with
  | nil => simpa [g_hash_table_insert] using he
  | cons a rest ih =>
    obtain ⟨k, u⟩ := a
    by_cases hk : k = key
    · simp only [g_hash_table_insert, hk, if_true, List.mem_cons] at he
      rcases he with he | he
      · exact Or.inl he
      · exact Or.inr (List.mem_cons_of_mem _ he)
    · simp only [g_hash_table_insert, hk, if_false, List.mem_cons] at he
      rcases he with he | he
      · exact Or.inr (by simp [he])
      · rcases ih he with h1 | h1
        · exact Or.inl h1
        · exact Or.inr (List.mem_cons_of_mem _ h1)

theorem entriesOk_write_entry (f : Nat → Nat) (h : GHashTable NotifyTimeout) (k : Nat)
    (nt v : NotifyTimeout) (hok : EntriesOk f h) (hl : g_hash_table_lookup h k = some nt)
    (hid : v.id = nt.id) (hnw : v.nw = nt.nw) : EntriesOk f (write_entry h k v) := by
  have hm := hok.2 _ (lookup_some_mem h k nt hl)
  refine ⟨by rw [keys_write_entry]; exact hok.1, ?_⟩
  intro e he
  rcases mem_write_entry h k v e he with ⟨h1, h2, _⟩ | ⟨_, h2⟩
  · rw [h1, h2, hid, hnw]; exact hm
  · exact hok.2 e h2

theorem entriesOk_insert (f : Nat → Nat) (h : GHashTable NotifyTimeout) (k : Nat)
    (v : NotifyTimeout) (hok : EntriesOk f h) (hid : v.id = k) (hnw : f v.nw = k) :
    EntriesOk f (g_hash_table_insert h k v) := by
  refine ⟨nodup_keys_insert h k v hok.1, ?_⟩
  intro e he
  rcases mem_insert h k v e he with h1 | h1
  · rw [h1]; exact ⟨hid, hnw⟩
  · exact hok.2 e h1

theorem entriesOk_remove (f : Nat → Nat) (h : GHashTable NotifyTimeout) (k : Nat)
    (hok : EntriesOk f h) : EntriesOk f (g_hash_table_remove h k) := by
  refine ⟨by rw [keys_remove]; exact hok.1.filter _, ?_⟩
  intro e he
  exact hok.2 e (List.mem_of_mem_filter he)

theorem sweep_table_keys_sublist (clock : Nat → GTimeVal) (h : GHashTable NotifyTimeout) :
    (sweep_table clock h).keys.Sublist h.keys := by
  induction h with
  | nil => simp [sweep_table, GHashTable.keys]
  | cons a rest ih =>
    obtain ⟨k, nt⟩ := a
    simp only [sweep_table, GHashTable.keys] at ih ⊢
    by_cases hE : ExpiredAt (clock k) nt
    · simpa [List.filterMap_cons, hE] using ih.trans (List.sublist_cons_self _ _)
    · simpa [List.filterMap_cons, hE] using ih

theorem entriesOk_sweep_table (f : Nat → Nat) (clock : Nat → GTimeVal) (h : GHashTable NotifyTimeout)
    (hok : EntriesOk f h) : EntriesOk f (sweep_table clock h) := by
  refine ⟨hok.1.sublist (sweep_table_keys_sublist clock h), ?_⟩
  intro e he
  simp only [sweep_table, List.mem_filterMap] at he
  obtain ⟨a, ha, hae⟩ := he
  by_cases hE : ExpiredAt (clock a.1) a.2
  · simp [hE] at hae
  · simp only [hE, if_false, Option.some.injEq] at hae
    rw [← hae]
    simp only [(tick_entry_id (clock a.1) a.2).1, (tick_entry_id (clock a.1) a.2).2.1]
    exact hok.2 a ha

theorem entriesOk_tag (f : Nat → Nat) (h : GHashTable NotifyTimeout) (nw rid : Nat)
    (hok : EntriesOk f h) (hnw : ∀ e ∈ h, e.2.nw = nw → e.1 = rid) :
    EntriesOk (fun w => if w = nw then rid else f w) h := by
  refine ⟨hok.1, ?_⟩
  intro e he
  refine ⟨(hok.2 e he).1, ?_⟩
  by_cases hw : e.2.nw = nw
  · simp [hw, hnw e he hw]
  · simp [hw, (hok.2 e he).2]

theorem monitor_walk_some (x : XServer) (id : Nat) :
    ∀ (fuel parent root : Nat) (d d' : NotifyDaemonPrivate),
      monitor_walk x id fuel parent root d = some d' →
        d'.notification_hash = d.notification_hash ∧ d'.notify_id_data = d.notify_id_data := by
  intro fuel
  induction fuel with
  | zero => intro p r d d' h; simp [monitor_walk] at h
  | succ f ih =>
    intro p r d d' h
    by_cases hc : p ≠ 0 ∧ r ≠ p
    · rw [monitor_walk, if_pos hc] at h
      have := ih _ _ _ _ h
      simpa [NotifyDaemonPrivate.call] using this
    · rw [monitor_walk, if_neg hc] at h
      cases h
      exact ⟨rfl, rfl⟩

theorem monitor_notification_source_windows_some (x : XServer) (d d' : NotifyDaemonPrivate)
    (key source : Nat) (h : monitor_notification_source_windows x d key source = some d') :
    ∃ nt, g_hash_table_lookup d.notification_hash key = some nt ∧
      d'.notification_hash
        = write_entry d.notification_hash key { nt with src_window_xid := source } ∧
      d'.notify_id_data = d.notify_id_data := by
  cases hl : g_hash_table_lookup d.notification_hash key with
  | none =>
    by_cases h0 : g_hash_table_size d.monitored_window_hash = 0 <;>
      simp [monitor_notification_source_windows, h0, hl] at h
  | some nt =>
    refine ⟨nt, rfl, ?_⟩
    by_cases h0 : g_hash_table_size d.monitored_window_hash = 0
    · simp only [monitor_notification_source_windows, h0, if_true, hl] at h
      simpa using monitor_walk_some x _ _ _ _ _ _ h
    · simp only [monitor_notification_source_windows, h0, if_false, hl] at h
      simpa using monitor_walk_some x _ _ _ _ _ _ h

theorem add_exit_timeout_data (d : NotifyDaemonPrivate) :
    (add_exit_timeout d).notify_id_data = d.notify_id_data := by
  by_cases h : d.exit_timeout_source > 0 <;> simp [add_exit_timeout, h, g_timeout_add]

theorem check_expiration_data (clock : Nat → GTimeVal) (d : NotifyDaemonPrivate) :
    (_check_expiration clock d).2.notify_id_data = d.notify_id_data := by
  unfold _check_expiration
  simp only [sweep_eq]
  split_ifs <;> simp [add_exit_timeout_data]

theorem close_notification_data (d : NotifyDaemonPrivate) (id : Nat) (hide : Bool)
    (reason : NotifydClosedReason) :
    (_close_notification d id hide reason).notify_id_data = d.notify_id_data := by
  cases hl : g_hash_table_lookup d.notification_hash id with
  | none => rw [close_notification_absent d id hide reason hl]
  | some nt =>
    simp only [_close_notification, hl]
    cases hide <;> split_ifs <;>
      simp [add_exit_timeout_data, _emit_closed_signal, _notify_timeout_destroy,
        NotifyDaemonPrivate.call]

/-- The registry invariant holds when the daemon starts. -/
theorem registryOk_init (n_monitors : Nat) : RegistryOk (notify_daemon_init n_monitors) := by
  simp [RegistryOk, EntriesOk, notify_daemon_init, GHashTable.keys]

/-- The expiration sweep keeps the registry invariant. -/
theorem registryOk_check_expiration (clock : Nat → GTimeVal) (d : NotifyDaemonPrivate)
    (hok : RegistryOk d) : RegistryOk (_check_expiration clock d).2 := by
  have := entriesOk_sweep_table d.notify_id_data clock d.notification_hash hok
  unfold RegistryOk
  rw [check_expiration_hash, check_expiration_data]
  exact this

/-- Closing a notification keeps the registry invariant. -/
theorem registryOk_close_notification (d : NotifyDaemonPrivate) (id : Nat) (hide : Bool)
    (reason : NotifydClosedReason) (hok : RegistryOk d) :
    RegistryOk (_close_notification d id hide reason) := by
  cases hl : g_hash_table_lookup d.notification_hash id with
  | none => rw [close_notification_absent d id hide reason hl]; exact hok
  | some nt =>
    have := entriesOk_remove d.notify_id_data d.notification_hash id hok
    unfold RegistryOk
    rw [(close_notification_live d id hide reason nt hl).1, close_notification_data]
    exact this

/-- Pausing a notification keeps the registry invariant. -/
theorem registryOk_mouse_entered (d d' : NotifyDaemonPrivate) (nw : Nat) (inferior : Bool)
    (now : GTimeVal) (hok : RegistryOk d) (h : _mouse_entered_cb d nw inferior now = some d') :
    RegistryOk d' := by
  cases inferior with
  | true => simp only [_mouse_entered_cb, if_true, Option.some.injEq] at h; rw [← h]; exact hok
  | false =>
    cases hl : g_hash_table_lookup d.notification_hash (NW_GET_NOTIFY_ID d nw) with
    | none => simp [_mouse_entered_cb, hl] at h
    | some nt =>
      simp only [_mouse_entered_cb, hl, Bool.false_eq_true, if_false, Option.some.injEq] at h
      rw [← h]
      exact entriesOk_write_entry d.notify_id_data d.notification_hash _ nt _ hok hl rfl rfl

/-- Resuming a notification keeps the registry invariant. -/
theorem registryOk_mouse_exitted (d d' : NotifyDaemonPrivate) (nw : Nat) (inferior : Bool)
    (hok : RegistryOk d) (h : _mouse_exitted_cb d nw inferior = some d') : RegistryOk d' := by
  cases inferior with
  | true => simp only [_mouse_exitted_cb, if_true, Option.some.injEq] at h; rw [← h]; exact hok
  | false =>
    cases hl : g_hash_table_lookup d.notification_hash (NW_GET_NOTIFY_ID d nw) with
    | none => simp [_mouse_exitted_cb, hl] at h
    | some nt =>
      simp only [_mouse_exitted_cb, hl, Bool.false_eq_true, if_false, Option.some.injEq] at h
      rw [← h]
      exact entriesOk_write_entry d.notify_id_data d.notification_hash _ nt _ hok hl rfl rfl

theorem place_notification_data (env : NotifyEnv) (d : NotifyDaemonPrivate) (req : NotifyRequest)
    (nw : Nat) (b : Bool) :
    (place_notification env d req nw b).notify_id_data = d.notify_id_data := by
  simp only [place_notification, notify_stack_add_window]
  split_ifs <;> simp [NotifyDaemonPrivate.call]

theorem remove_exit_timeout_data (daemon : NotifyDaemonPrivate) :
    (remove_exit_timeout daemon).notify_id_data = daemon.notify_id_data := by
  by_cases h0 : daemon.exit_timeout_source = 0 <;>
    simp [remove_exit_timeout, h0, g_source_remove]

theorem store_notification_some (D : Int) (d d2 : NotifyDaemonPrivate) (nw : Nat) (timeout : Int)
    (now : GTimeVal) (nt : NotifyTimeout)
    (h : _store_notification D d nw timeout now = some (nt, d2)) :
    nt.nw = nw ∧
    d2.notification_hash = g_hash_table_insert d.notification_hash nt.id nt ∧
    d2.notify_id_data = d.notify_id_data := by
  unfold _store_notification at h
  split at h
  · cases h
  · rename_i id next_id _
    simp only [Option.some.injEq, Prod.mk.injEq] at h
    obtain ⟨h1, h2⟩ := h
    rw [← h2, ← h1]
    simp only [remove_exit_timeout_hash, remove_exit_timeout_data, calculate_timeout_hash,
      calculate_timeout_data, calculate_timeout_id, (calculate_timeout_nw _ _ _ _ _).1]
    exact ⟨trivial, trivial, trivial⟩

/-- Lines 1619 to 1668 establish the registry invariant when the registry
satisfies it with the popup `nw` already counted as tagged with `return_id`. -/
theorem registryOk_notify_finish (D : Int) (env : NotifyEnv) (d d' : NotifyDaemonPrivate)
    (req : NotifyRequest) (nw id rid : Nat) (r : Reply)
    (hok : EntriesOk (fun w => if w = nw then rid else d.notify_id_data w) d.notification_hash)
    (h : notify_finish D env d req nw id rid = some (r, d')) : RegistryOk d' := by
  -- the state after lines 1624 to 1628
  have htr : ∀ dT, (if req.hint_window_xid.getD 0 ≠ 0 ∧ env.always_stack = false then
        (monitor_notification_source_windows env.xserver d rid (req.hint_window_xid.getD 0)).map
          (fun daemon => sync_notification_position env.xserver daemon nw
            (req.hint_window_xid.getD 0))
      else some d) = some dT →
      dT.notify_id_data = d.notify_id_data ∧
      EntriesOk (fun w => if w = nw then rid else d.notify_id_data w) dT.notification_hash := by
    intro dT hT
    by_cases hc : req.hint_window_xid.getD 0 ≠ 0 ∧ env.always_stack = false
    · rw [if_pos hc] at hT
      cases hm : monitor_notification_source_windows env.xserver d rid
          (req.hint_window_xid.getD 0) with
      | none => rw [hm] at hT; cases hT
      | some dM =>
        rw [hm] at hT
        simp only [Option.map_some', Option.some.injEq] at hT
        obtain ⟨nt, hl, hMh, hMd⟩ := monitor_notification_source_windows_some _ _ _ _ _ hm
        rw [← hT, (sync_notification_position_hash _ _ _ _).1,
          (sync_notification_position_hash _ _ _ _).2, hMh, hMd]
        exact ⟨rfl, entriesOk_write_entry _ _ _ nt _ hok hl rfl rfl⟩
    · rw [if_neg hc] at hT
      cases hT
      exact ⟨rfl, hok⟩
  simp only [notify_finish] at h
  split at h
  · cases h
  · rename_i dT hT
    obtain ⟨hTd, hTok⟩ := htr dT hT
    split at h
    · cases h
    · rename_i ntT hlT
      simp only [Option.some.injEq, Prod.mk.injEq] at h
      rw [← h.2]
      unfold RegistryOk
      simp only [calculate_timeout_hash, calculate_timeout_data]
      have hw := entriesOk_write_entry _ _ rid ntT
        (_calculate_timeout D d ntT req.timeout env.now).1 hTok hlT
        (calculate_timeout_id _ _ _ _ _) (calculate_timeout_nw _ _ _ _ _).1
      rw [calculate_timeout_entry_indep D _ d]
      split_ifs <;> simpa [NotifyDaemonPrivate.call, g_timeout_add, hTd] using hw

/-- The notify handler keeps the registry invariant, as long as the popup the
theme engine creates is not the popup of a live notification. -/
theorem registryOk_notify (D : Int) (env : NotifyEnv) (daemon d1 : NotifyDaemonPrivate)
    (req : NotifyRequest) (r : Reply) (hok : RegistryOk daemon)
    (hfresh : ∀ e ∈ daemon.notification_hash, e.2.nw ≠ env.new_nw)
    (h : notify_daemon_notify_handler D env daemon req = some (r, d1)) : RegistryOk d1 := by
  unfold notify_daemon_notify_handler at h
  split at h
  · simp only [Option.some.injEq, Prod.mk.injEq] at h
    rw [← h.2]; exact hok
  · simp only [] at h
    split at h
    · -- a live entry is re-used
      rename_i nt hfound
      have hl : g_hash_table_lookup daemon.notification_hash req.id = some nt := by
        by_cases hid : req.id > 0
        · simpa [hid] using hfound
        · simp [hid] at hfound
      have hmem := hok.2 _ (lookup_some_mem _ _ _ hl)
      refine registryOk_notify_finish D env _ d1 req _ req.id req.id r ?_ h
      rw [(place_notification_hash _ _ _ _ _).1, place_notification_data]
      have htag : EntriesOk
          (fun w => if w = (if nt.nw = 0 then env.new_nw else nt.nw) then req.id
            else daemon.notify_id_data w) daemon.notification_hash := by
        apply entriesOk_tag _ _ _ _ hok
        intro e he hw
        by_cases h0 : nt.nw = 0
        · rw [if_pos h0] at hw
          exact absurd hw (hfresh e he)
        · rw [if_neg h0] at hw
          have h1 := (hok.2 e he).2
          rw [hw] at h1
          rw [← h1]
          exact hmem.2
      split_ifs with h0
      · rw [if_pos h0] at htag; simpa [NotifyDaemonPrivate.call] using htag
      · rw [if_neg h0] at htag; simpa [NotifyDaemonPrivate.call] using htag
    · -- a new entry is stored
      split at h
      · cases h
      · rename_i nt d2 hstore
        obtain ⟨hnw, hd2, hdata⟩ := store_notification_some _ _ _ _ _ _ _ hstore
        refine registryOk_notify_finish D env d2 d1 req env.new_nw 0 nt.id r ?_ h
        rw [hd2, hdata, (place_notification_hash _ _ _ _ _).1, place_notification_data]
        have hold : EntriesOk (fun w => if w = env.new_nw then nt.id else daemon.notify_id_data w)
            daemon.notification_hash :=
          entriesOk_tag _ _ _ _ hok (fun e he hw => absurd hw (hfresh e he))
        have := entriesOk_insert _ _ nt.id nt hold rfl (by simp [hnw])
        simpa [NotifyDaemonPrivate.call] using this

/-! ## C1: stored ids are fresh and non-zero -/

/-- C1.  In every registry state with `next_id` in `1 .. UINT_MAX` and at least
one unused id in `1 .. UINT_MAX`, `_store_notification` returns: the entry it
returns has a non-zero id that was not a key of the registry before the call, the
entry is stored under that id, and the keys afterwards are exactly the old keys
plus that id; keys that were pairwise distinct and non-zero stay so. -/
theorem store_notification_fresh_id (D : Int) (daemon : NotifyDaemonPrivate) (nw : Nat)
    (timeout : Int) (now : GTimeVal)
    (hnext : 1 ≤ daemon.next_id ∧ daemon.next_id ≤ UINT_MAX)
    (hfree : ∃ i, 1 ≤ i ∧ i ≤ UINT_MAX ∧ i ∉ daemon.notification_hash.keys) :
    ∃ nt daemon', _store_notification D daemon nw timeout now = some (nt, daemon') ∧
      nt.id ≠ 0 ∧ nt.id ≤ UINT_MAX ∧ nt.id ∉ daemon.notification_hash.keys ∧
      g_hash_table_lookup daemon'.notification_hash nt.id = some nt ∧
      (∀ j, j ∈ daemon'.notification_hash.keys ↔ j ∈ daemon.notification_hash.keys ∨ j = nt.id) ∧
      (daemon.notification_hash.keys.Nodup ∧ 0 ∉ daemon.notification_hash.keys →
        daemon'.notification_hash.keys.Nodup ∧ 0 ∉ daemon'.notification_hash.keys) := by
  obtain ⟨u, hu1, hu2, hu⟩ := hfree
  have hfree' := (lookup_eq_none_iff daemon.notification_hash u).2 hu
  have hdist : cyclicDistance daemon.next_id u < UINT_MAX := by
    unfold cyclicDistance UINT_MAX at *
    split_ifs <;> omega
  obtain ⟨id, n', halloc, hid1, hid2, hidfree, _, _⟩ :=
    allocate_id_finds daemon.notification_hash u hu1 hu2 hfree' UINT_MAX daemon.next_id
      hnext.1 hnext.2 hdist
  have hidnot := (lookup_eq_none_iff daemon.notification_hash id).1 hidfree
  unfold _store_notification
  rw [halloc]
  refine ⟨_, _, rfl, ?_⟩
  simp only [calculate_timeout_id, remove_exit_timeout_hash, calculate_timeout_hash]
  refine ⟨by simp [NotifyTimeout.zero]; omega, by simpa [NotifyTimeout.zero] using hid2,
    by simpa [NotifyTimeout.zero] using hidnot, ?_, ?_, ?_⟩
  · simpa [NotifyTimeout.zero] using lookup_insert_self daemon.notification_hash id _
  · intro j
    simpa [NotifyTimeout.zero] using keys_insert daemon.notification_hash id _ j
  · rintro ⟨hnd, h0⟩
    refine ⟨nodup_keys_insert _ _ _ hnd, ?_⟩
    rw [keys_insert]
    intro c
    rcases c with c | c
    · exact h0 c
    · omega

/-- C1 on a registry whose ids 1 and 2 are live and whose `next_id` has wrapped
back to 1, so that the allocator has to skip both. -/
theorem store_notification_fresh_id_witness :
    (1 ≤ wrappedDaemon.next_id ∧ wrappedDaemon.next_id ≤ UINT_MAX) ∧
    (∃ i, 1 ≤ i ∧ i ≤ UINT_MAX ∧ i ∉ wrappedDaemon.notification_hash.keys) ∧
    ∃ nt daemon', _store_notification 7000 wrappedDaemon 121 5000 { tv_sec := 15, tv_usec := 0 }
        = some (nt, daemon') ∧
      nt.id ≠ 0 ∧ nt.id ≤ UINT_MAX ∧ nt.id ∉ wrappedDaemon.notification_hash.keys ∧
      g_hash_table_lookup daemon'.notification_hash nt.id = some nt ∧
      (∀ j, j ∈ daemon'.notification_hash.keys ↔
        j ∈ wrappedDaemon.notification_hash.keys ∨ j = nt.id) ∧
      (wrappedDaemon.notification_hash.keys.Nodup ∧ 0 ∉ wrappedDaemon.notification_hash.keys →
        daemon'.notification_hash.keys.Nodup ∧ 0 ∉ daemon'.notification_hash.keys) :=
  ⟨by decide, ⟨3, by decide⟩,
    store_notification_fresh_id 7000 wrappedDaemon 121 5000 { tv_sec := 15, tv_usec := 0 }
      (by decide) ⟨3, by decide⟩⟩

/-! ## C2: the capacity guard -/

/-- C2 at the failing input.  With 20 live notifications in the registry, the
guard of line 1342 does not fire: a request for a new notification is answered
with the fresh id 21 and the registry holds 21 entries afterwards. -/
theorem notify_at_limit_is_accepted :
    g_hash_table_size fullDaemon.notification_hash = MAX_NOTIFICATIONS ∧
    (notify_daemon_notify_handler 7000 sampleEnv fullDaemon sampleRequest).map
        (fun r => (r.1, g_hash_table_size r.2.notification_hash))
      = some (Reply.return_id 21, 21) := by
  decide

/-! ## C3: the sweep removes exactly the expired entries -/

/-- C3, as stated, fails: a sweep has no single time `now`.  Entries 1 and 2
of `twinDaemon` are both due at 10.000 s; the sweep reads the clock at
10.000999 s for entry 1 and at 10.001000 s for entry 2 and removes entry 2 only,
while for every single `now` the two entries are expired together or not at
all. -/
theorem sweep_has_no_single_now :
    g_hash_table_lookup twinDaemon.notification_hash 1 = some twinEntry1 ∧
    g_hash_table_lookup twinDaemon.notification_hash 2 = some twinEntry2 ∧
    (_check_expiration splitClock twinDaemon).2.notification_hash.keys = [1] ∧
    (∀ now : GTimeVal, ExpiredAt now twinEntry1 ↔ ExpiredAt now twinEntry2) :=
  ⟨by decide, by decide, by decide, fun _ => Iff.rfl⟩

/-- C3, amended.  For every tick of the expiration sweep on a registry that
satisfies the registry invariant, with `clock k` the clock reading `_is_expired`
takes when it examines the entry `k`: an entry is removed exactly when it has a
timeout and its expiration in milliseconds is strictly less than its own clock
reading in milliseconds; every other entry stays (same id and window); no entry
appears; and among the calls the sweep emits, `NotificationClosed (id, expired)`
occurs exactly once for each removed entry and no closed signal occurs for any
other id or with any other reason. -/
theorem check_expiration_removes_exactly_expired (clock : Nat → GTimeVal)
    (daemon : NotifyDaemonPrivate) (hok : RegistryOk daemon) :
    (∀ k nt, g_hash_table_lookup daemon.notification_hash k = some nt →
      (ExpiredAt (clock k) nt →
        g_hash_table_lookup (_check_expiration clock daemon).2.notification_hash k = none) ∧
      (¬ ExpiredAt (clock k) nt →
        ∃ nt', g_hash_table_lookup (_check_expiration clock daemon).2.notification_hash k
            = some nt' ∧
          nt'.id = nt.id ∧ nt'.nw = nt.nw)) ∧
    (∀ k, g_hash_table_lookup daemon.notification_hash k = none →
      g_hash_table_lookup (_check_expiration clock daemon).2.notification_hash k = none) ∧
    ∃ emitted, (_check_expiration clock daemon).2.trace = daemon.trace ++ emitted ∧
      (∀ i nt, g_hash_table_lookup daemon.notification_hash i = some nt →
        ExpiredAt (clock i) nt →
        emitted.count (Call.NotificationClosed i NOTIFYD_CLOSED_EXPIRED) = 1) ∧
      (∀ i reason, emitted.count (Call.NotificationClosed i reason) ≠ 0 →
        reason = NOTIFYD_CLOSED_EXPIRED ∧
          ∃ nt, g_hash_table_lookup daemon.notification_hash i = some nt ∧
            ExpiredAt (clock i) nt) := by
  obtain ⟨hn, hf⟩ := hok
  have hf' : ∀ e ∈ daemon.notification_hash, daemon.notify_id_data e.2.nw = e.1 :=
    fun e he => (hf e he).2
  refine ⟨?_, ?_, ?_⟩
  · intro k nt hk
    rw [check_expiration_hash]
    refine ⟨fun hE => lookup_sweep_table_drop clock _ k nt hn hk hE, fun hE => ?_⟩
    exact ⟨_, lookup_sweep_table_keep clock _ k nt hk hE, (tick_entry_id (clock k) nt).1,
      (tick_entry_id (clock k) nt).2.1⟩
  · intro k hk
    rw [check_expiration_hash]
    exact lookup_sweep_table_none clock _ k hk
  · refine ⟨_, check_expiration_trace clock daemon, ?_, ?_⟩
    · intro i nt hk hE
      rcases count_closed_sweep_calls clock daemon.notify_id_data daemon.notification_hash hn
        hf' i NOTIFYD_CLOSED_EXPIRED with ⟨h1, _⟩ | ⟨_, h0⟩
      · exact h1
      · exact absurd ⟨rfl, nt, hk, hE⟩ h0
    · intro i reason hc
      rcases count_closed_sweep_calls clock daemon.notify_id_data daemon.notification_hash hn
        hf' i reason with ⟨_, h1⟩ | ⟨h0, _⟩
      · exact h1
      · exact absurd h0 hc

/-- C3, amended, on the twin registry with the clock readings 10.000999 s and
10.001000 s: entry 2 is removed with one closed signal, entry 1 stays. -/
theorem check_expiration_removes_exactly_expired_witness :
    RegistryOk twinDaemon ∧
    g_hash_table_lookup (_check_expiration splitClock twinDaemon).2.notification_hash 2 = none ∧
    (∃ nt', g_hash_table_lookup (_check_expiration splitClock twinDaemon).2.notification_hash 1
        = some nt' ∧ nt'.id = twinEntry1.id ∧ nt'.nw = twinEntry1.nw) ∧
    ∃ emitted, (_check_expiration splitClock twinDaemon).2.trace
        = twinDaemon.trace ++ emitted ∧
      emitted.count (Call.NotificationClosed 2 NOTIFYD_CLOSED_EXPIRED) = 1 :=
  have h := check_expiration_removes_exactly_expired splitClock twinDaemon (by decide)
  ⟨by decide, (h.1 2 twinEntry2 (by decide)).1 (by decide),
    (h.1 1 twinEntry1 (by decide)).2 (by decide),
    h.2.2.elim fun emitted he =>
      ⟨emitted, he.1, he.2.1 2 twinEntry2 (by decide) (by decide)⟩⟩

/-! ## C4: notify followed by close -/

/-- C4.  In every state that accepts a new notification (at most
`MAX_NOTIFICATIONS` live entries, `next_id` in `1 .. UINT_MAX`, and a source
window walk that ends when one is asked for), a notify request that names no
live entry returns a fresh non-zero id `i` and adds
exactly that key to the registry; `close (i)` right after it succeeds, emits
`NotificationClosed (i, closed by call)` once (followed by hiding and destroying
the popup, and no other call), and leaves the registry with the keys it had
before the notify call. -/
theorem notify_then_close (D : Int) (env : NotifyEnv) (daemon : NotifyDaemonPrivate)
    (req : NotifyRequest)
    (hsize : g_hash_table_size daemon.notification_hash ≤ MAX_NOTIFICATIONS)
    (hnew : req.id = 0 ∨ g_hash_table_lookup daemon.notification_hash req.id = none)
    (hnext : 1 ≤ daemon.next_id ∧ daemon.next_id ≤ UINT_MAX)
    (htrack : req.hint_window_xid.getD 0 = 0 ∨ env.always_stack = true ∨
      TrackingEnds env.xserver (req.hint_window_xid.getD 0)) :
    ∃ i d1, notify_daemon_notify_handler D env daemon req = some (Reply.return_id i, d1) ∧
      i ≠ 0 ∧ i ∉ daemon.notification_hash.keys ∧
      d1.notification_hash.keys = daemon.notification_hash.keys ++ [i] ∧
      (notify_daemon_close_notification_handler d1 i).1 = true ∧
      (notify_daemon_close_notification_handler d1 i).2.2.notification_hash.keys
        = daemon.notification_hash.keys ∧
      (notify_daemon_close_notification_handler d1 i).2.2.trace
        = d1.trace ++ [Call.NotificationClosed i NOTIFYD_CLOSED_API,
            Call.theme_hide_notification env.new_nw, Call.gtk_widget_destroy env.new_nw] := by
  have hguard : ¬ g_hash_table_size daemon.notification_hash > MAX_NOTIFICATIONS := by omega
  have hfree : ∃ i, 1 ≤ i ∧ i ≤ UINT_MAX ∧ i ∉ daemon.notification_hash.keys :=
    free_id_exists daemon.notification_hash
      (by unfold MAX_NOTIFICATIONS at hsize; unfold UINT_MAX; omega)
  have hfound : (if req.id > 0 then g_hash_table_lookup daemon.notification_hash req.id
      else none) = none := by
    rcases hnew with h | h
    · simp [h]
    · simp [h]
  -- the state handed to `_store_notification`
  obtain ⟨nt, d2, hstore, hid0, _, hnw, hidnew, hd2⟩ :=
    store_notification_spec D
      (place_notification env (daemon.call (Call.theme_create_notification env.new_nw)) req
        env.new_nw true) env.new_nw req.timeout env.now_store
      (by rw [(place_notification_hash _ _ _ _ _).2]; exact hnext)
      (by rw [(place_notification_hash _ _ _ _ _).1]; exact hfree)
  rw [(place_notification_hash _ _ _ _ _).1] at hidnew hd2
  have hidnew' : nt.id ∉ daemon.notification_hash.keys := hidnew
  have hd2' : d2.notification_hash = g_hash_table_insert daemon.notification_hash nt.id nt := hd2
  have hl2 : g_hash_table_lookup d2.notification_hash nt.id = some nt := by
    rw [hd2']; exact lookup_insert_self _ _ _
  obtain ⟨d1, ntX, hfin, hX, hl1, hk1, _, hdata⟩ :=
    notify_finish_returns D env d2 req env.new_nw 0 nt.id nt hl2 htrack
  have hXnw : ntX.nw = env.new_nw := by
    rcases hX with h | h <;> rw [h] <;> exact hnw
  have hkeys : d1.notification_hash.keys = daemon.notification_hash.keys ++ [nt.id] := by
    rw [hk1, hd2', keys_insert_new _ _ _ hidnew']
  have hclose := close_notification_live d1 nt.id true NOTIFYD_CLOSED_API _ hl1
  refine ⟨nt.id, d1, ?_, hid0, hidnew', hkeys, ?_, ?_, ?_⟩
  · simp only [notify_daemon_notify_handler, hguard, if_false, hfound, hstore]
    exact hfin
  · simp [notify_daemon_close_notification_handler, hid0]
  · simp only [notify_daemon_close_notification_handler, hid0, if_false]
    rw [hclose.1, keys_remove, hkeys, keys_remove_appended _ _ hidnew']
  · simp only [notify_daemon_close_notification_handler, hid0, if_false]
    rw [hclose.2, (calculate_timeout_nw _ _ _ _ _).1, hXnw, hdata]
    rfl

/-- C4 on the sample registry, for a request that anchors the new popup to the
source window 7. -/
theorem notify_then_close_witness :
    (g_hash_table_size sampleDaemon.notification_hash ≤ MAX_NOTIFICATIONS ∧
      (anchoredRequest.id = 0 ∨
        g_hash_table_lookup sampleDaemon.notification_hash anchoredRequest.id = none) ∧
      (1 ≤ sampleDaemon.next_id ∧ sampleDaemon.next_id ≤ UINT_MAX) ∧
      (anchoredRequest.hint_window_xid.getD 0 = 0 ∨ sampleEnv.always_stack = true ∨
        TrackingEnds sampleEnv.xserver (anchoredRequest.hint_window_xid.getD 0))) ∧
    ∃ i d1, notify_daemon_notify_handler 7000 sampleEnv sampleDaemon anchoredRequest
        = some (Reply.return_id i, d1) ∧
      i ≠ 0 ∧ i ∉ sampleDaemon.notification_hash.keys ∧
      d1.notification_hash.keys = sampleDaemon.notification_hash.keys ++ [i] ∧
      (notify_daemon_close_notification_handler d1 i).1 = true ∧
      (notify_daemon_close_notification_handler d1 i).2.2.notification_hash.keys
        = sampleDaemon.notification_hash.keys ∧
      (notify_daemon_close_notification_handler d1 i).2.2.trace
        = d1.trace ++ [Call.NotificationClosed i NOTIFYD_CLOSED_API,
            Call.theme_hide_notification sampleEnv.new_nw,
            Call.gtk_widget_destroy sampleEnv.new_nw] :=
  ⟨⟨by decide, Or.inl rfl, by decide, Or.inr (Or.inr (by decide))⟩,
    notify_then_close 7000 sampleEnv sampleDaemon anchoredRequest (by decide) (Or.inl rfl)
      (by decide) (Or.inr (Or.inr (by decide)))⟩

/-! ## C5: a timeout of 0 never expires -/

/-- C5.  An entry armed with timeout 0 has `has_timeout = false`; for every
clock reading `_is_expired` returns `FALSE` for it and changes neither the entry
nor the threaded state (so no call is emitted); and a sweep of any registry in
which the entry is live, with any clock readings, leaves it there, unchanged,
and emits no closed signal for its id. -/
theorem timeout_zero_never_expires (D : Int) (daemon : NotifyDaemonPrivate) (nt : NotifyTimeout)
    (now now' : GTimeVal) (clock : Nat → GTimeVal) (key : Nat) (s : NotifyDaemonPrivate × Bool)
    (d : NotifyDaemonPrivate) (k : Nat) (hok : RegistryOk d)
    (hlive : g_hash_table_lookup d.notification_hash k
      = some (_calculate_timeout D daemon nt 0 now).1) :
    (_calculate_timeout D daemon nt 0 now).1.has_timeout = false ∧
    _is_expired now' key (_calculate_timeout D daemon nt 0 now).1 s
      = (false, (_calculate_timeout D daemon nt 0 now).1, s) ∧
    g_hash_table_lookup (_check_expiration clock d).2.notification_hash k
      = some (_calculate_timeout D daemon nt 0 now).1 ∧
    ∃ emitted, (_check_expiration clock d).2.trace = d.trace ++ emitted ∧
      ∀ reason, emitted.count (Call.NotificationClosed k reason) = 0 := by
  have hz : (_calculate_timeout D daemon nt 0 now).1.has_timeout = false := by
    rw [calculate_timeout_entry_zero]
  have hE : ¬ ExpiredAt (clock k) (_calculate_timeout D daemon nt 0 now).1 := by
    intro c
    have h1 := c.1
    rw [hz] at h1
    cases h1
  refine ⟨hz, is_expired_untimed now' key _ s hz, ?_, _, check_expiration_trace clock d, ?_⟩
  · rw [check_expiration_hash, lookup_sweep_table_keep clock _ k _ hlive hE,
      tick_entry_untimed (clock k) _ hz]
  · intro reason
    rcases count_closed_sweep_calls clock d.notify_id_data d.notification_hash hok.1
      (fun e he => (hok.2 e he).2) k reason with ⟨_, _, nt', hl, hx⟩ | ⟨h0, _⟩
    · rw [hlive] at hl
      cases hl
      exact absurd hx hE
    · exact h0

/-- C5 for notification 1 of the sample registry re-armed with timeout 0, swept
at 99 s. -/
theorem timeout_zero_never_expires_witness :
    (RegistryOk untimedDaemon ∧
      g_hash_table_lookup untimedDaemon.notification_hash 1
        = some (_calculate_timeout 7000 sampleDaemon sampleEntry1 0
            { tv_sec := 15, tv_usec := 0 }).1) ∧
    ((_calculate_timeout 7000 sampleDaemon sampleEntry1 0
        { tv_sec := 15, tv_usec := 0 }).1.has_timeout = false ∧
    _is_expired { tv_sec := 99, tv_usec := 0 } 1
        (_calculate_timeout 7000 sampleDaemon sampleEntry1 0 { tv_sec := 15, tv_usec := 0 }).1
        (untimedDaemon, false)
      = (false, (_calculate_timeout 7000 sampleDaemon sampleEntry1 0
          { tv_sec := 15, tv_usec := 0 }).1, (untimedDaemon, false)) ∧
    g_hash_table_lookup
        (_check_expiration (fun _ => { tv_sec := 99, tv_usec := 0 })
          untimedDaemon).2.notification_hash 1
      = some (_calculate_timeout 7000 sampleDaemon sampleEntry1 0
          { tv_sec := 15, tv_usec := 0 }).1 ∧
    ∃ emitted, (_check_expiration (fun _ => { tv_sec := 99, tv_usec := 0 }) untimedDaemon).2.trace
        = untimedDaemon.trace ++ emitted ∧
      ∀ reason, emitted.count (Call.NotificationClosed 1 reason) = 0) :=
  ⟨⟨by decide, by decide⟩,
    timeout_zero_never_expires 7000 sampleDaemon sampleEntry1 { tv_sec := 15, tv_usec := 0 }
      { tv_sec := 99, tv_usec := 0 } (fun _ => { tv_sec := 99, tv_usec := 0 }) 1
      (untimedDaemon, false) untimedDaemon 1 (by decide)
      (by decide)⟩

/-! ## C6: negative timeouts -/

/-- C6, the claim refuted: with the default timeout 7000 ms and the clock at
100 s, timeout `-2` arms the entry to expire `G_MAXLONG` microseconds later,
while timeout `-1` arms it to expire at 107 s. -/
theorem negative_timeout_is_not_default :
    (_calculate_timeout 7000 NotifyDaemonPrivate.zero NotifyTimeout.zero (-2)
        { tv_sec := 100, tv_usec := 0 }).1.expiration
      = { tv_sec := 9223372036954, tv_usec := 775807 } ∧
    (_calculate_timeout 7000 NotifyDaemonPrivate.zero NotifyTimeout.zero (-1)
        { tv_sec := 100, tv_usec := 0 }).1.expiration
      = { tv_sec := 107, tv_usec := 0 } := by
  decide

/-- C6 as the code has it.  With a default timeout in `0 .. INT_MAX`, timeout
`-1` arms the entry with the default (`has_timeout` set, expiration `now` plus
the default in milliseconds); every other negative `int` timeout sets
`has_timeout` too, but the offset it adds to `now` is `G_MAXLONG`
microseconds. -/
theorem negative_timeout_arming (D : Int) (daemon : NotifyDaemonPrivate) (nt : NotifyTimeout)
    (t : Int) (now : GTimeVal) (hnow : now.Normal) (hD0 : 0 ≤ D) (hD1 : D ≤ INT_MAX)
    (ht : t < -1) (hmin : -INT_MAX - 1 ≤ t) :
    (_calculate_timeout D daemon nt (-1) now).1.has_timeout = true ∧
    (_calculate_timeout D daemon nt (-1) now).1.expiration.toUsec = now.toUsec + D * 1000 ∧
    (_calculate_timeout D daemon nt t now).1.has_timeout = true ∧
    (_calculate_timeout D daemon nt t now).1.expiration.toUsec = now.toUsec + G_MAXLONG := by
  have hDu : timeout_usec D = D * 1000 := by
    by_cases hz : D = 0
    · subst hz; decide
    · exact timeout_usec_pos D (by omega) hD1
  have htu : timeout_usec t = G_MAXLONG := timeout_usec_neg t (by omega) hmin
  have ht1 : t ≠ -1 := by omega
  have ht0 : t ≠ 0 := by omega
  rw [calculate_timeout_entry D daemon nt (-1) now (by decide),
    calculate_timeout_entry D daemon nt t now ht0]
  simp only [if_true, ht1, if_false, hDu, htu, true_and]
  refine ⟨(g_time_val_add_spec now _ hnow (by omega)).2, ?_⟩
  exact (g_time_val_add_spec now _ hnow (by unfold G_MAXLONG; omega)).2

/-- C6 as the code has it, for the default 7000 ms, timeout `-2` and the clock
at 100 s. -/
theorem negative_timeout_arming_witness :
    (GTimeVal.Normal { tv_sec := 100, tv_usec := 0 } ∧ (0 : Int) ≤ 7000 ∧ (7000 : Int) ≤ INT_MAX ∧
      (-2 : Int) < -1 ∧ -INT_MAX - 1 ≤ (-2 : Int)) ∧
    ((_calculate_timeout 7000 sampleDaemon sampleEntry1 (-1)
        { tv_sec := 100, tv_usec := 0 }).1.has_timeout = true ∧
    (_calculate_timeout 7000 sampleDaemon sampleEntry1 (-1)
        { tv_sec := 100, tv_usec := 0 }).1.expiration.toUsec
      = GTimeVal.toUsec { tv_sec := 100, tv_usec := 0 } + 7000 * 1000 ∧
    (_calculate_timeout 7000 sampleDaemon sampleEntry1 (-2)
        { tv_sec := 100, tv_usec := 0 }).1.has_timeout = true ∧
    (_calculate_timeout 7000 sampleDaemon sampleEntry1 (-2)
        { tv_sec := 100, tv_usec := 0 }).1.expiration.toUsec
      = GTimeVal.toUsec { tv_sec := 100, tv_usec := 0 } + G_MAXLONG) :=
  ⟨by decide,
    negative_timeout_arming 7000 sampleDaemon sampleEntry1 (-2) { tv_sec := 100, tv_usec := 0 }
      (by decide) (by decide) (by decide) (by decide) (by decide)⟩

/-! ## C7: positive timeouts are armed in the future -/

theorem timeout_usec_bits_64 (timeout : Int) :
    timeout_usec_bits 64 timeout = timeout_usec timeout := by
  simp only [timeout_usec_bits, wrapLongBits, G_MAXLONG_bits, timeout_usec, wrapLong, G_MAXLONG]
  norm_num

/-- C7 at the failing input.  Where `long` has 32 bits, the timeout
536870912 ms is positive and at most `INT_MAX`, its product with 1000 is
`125 * 2 ^ 32`, which is larger than that platform's `G_MAXLONG` and wraps to 0.
The test `usec < 0` of line 802 does not fire, so the offset added to the clock
reading is 0: it is neither positive nor `G_MAXLONG`, the expiration armed at
15.0 s is 15.0 s, not later than the arming time, and the entry is expired one
millisecond after it was armed. -/
theorem timeout_offset_wraps_to_zero :
    (0 : Int) < 536870912 ∧ (536870912 : Int) ≤ INT_MAX ∧
    G_MAXLONG_bits 32 = 2147483647 ∧
    G_MAXLONG_bits 32 < 536870912 * 1000 ∧
    wrapLongBits 32 (536870912 * 1000) = 0 ∧
    timeout_usec_bits 32 536870912 = 0 ∧
    g_time_val_add { tv_sec := 15, tv_usec := 0 } (timeout_usec_bits 32 536870912)
      = { tv_sec := 15, tv_usec := 0 } ∧
    ExpiredAt { tv_sec := 15, tv_usec := 1000 }
      { sampleEntry1 with
        has_timeout := true,
        expiration := g_time_val_add { tv_sec := 15, tv_usec := 0 }
          (timeout_usec_bits 32 536870912) } := by
  decide

/-- Where `glong` has 64 bits (LP64, as `timeout_usec` has it), the overflow of
C7 cannot happen: for every timeout `t` with `0 < t ≤ INT_MAX` (milliseconds) the
microsecond offset `_calculate_timeout` adds to the clock reading is `t * 1000`,
which is positive; the armed expiration is normalised, is exactly `t` ms after
the arming time and hence strictly later, and the entry is not expired at the
arming time: `_is_expired` returns `FALSE` for it there. -/
theorem positive_timeout_not_expired (D : Int) (daemon : NotifyDaemonPrivate) (nt : NotifyTimeout)
    (t : Int) (now : GTimeVal) (key : Nat) (s : NotifyDaemonPrivate × Bool)
    (hpos : 0 < t) (hmax : t ≤ INT_MAX) (hnow : now.Normal) :
    timeout_usec t = t * 1000 ∧ 0 < timeout_usec t ∧
    (_calculate_timeout D daemon nt t now).1.has_timeout = true ∧
    (_calculate_timeout D daemon nt t now).1.expiration = g_time_val_add now (timeout_usec t) ∧
    (_calculate_timeout D daemon nt t now).1.expiration.Normal ∧
    (_calculate_timeout D daemon nt t now).1.expiration.toUsec = now.toUsec + t * 1000 ∧
    now.toUsec < (_calculate_timeout D daemon nt t now).1.expiration.toUsec ∧
    ¬ ExpiredAt now (_calculate_timeout D daemon nt t now).1 ∧
    (_is_expired now key (_calculate_timeout D daemon nt t now).1 s).1 = false := by
  have hu : timeout_usec t = t * 1000 := timeout_usec_pos t hpos hmax
  have ht1 : t ≠ -1 := by omega
  have ht0 : t ≠ 0 := by omega
  have hadd := g_time_val_add_spec now (t * 1000) hnow (by omega)
  have hmono := toMsec_mono now (g_time_val_add now (t * 1000)) hnow hadd.1 (by omega)
  rw [calculate_timeout_entry D daemon nt t now ht0]
  simp only [ht1, if_false, hu]
  have hE : ¬ ExpiredAt now
      { nt with has_timeout := true, expiration := g_time_val_add now (t * 1000) } := by
    intro c
    have := c.2
    simp only [] at this
    omega
  refine ⟨trivial, by omega, trivial, trivial, hadd.1, hadd.2, by omega, hE, ?_⟩
  rw [is_expired_result]
  exact decide_eq_false hE

/-- The 64 bit case for a timeout of 5000 ms armed at 15.999999 s. -/
theorem positive_timeout_not_expired_witness :
    ((0 : Int) < 5000 ∧ (5000 : Int) ≤ INT_MAX ∧
      GTimeVal.Normal { tv_sec := 15, tv_usec := 999999 }) ∧
    (timeout_usec 5000 = 5000 * 1000 ∧ 0 < timeout_usec 5000 ∧
    (_calculate_timeout 7000 sampleDaemon sampleEntry1 5000
        { tv_sec := 15, tv_usec := 999999 }).1.has_timeout = true ∧
    (_calculate_timeout 7000 sampleDaemon sampleEntry1 5000
        { tv_sec := 15, tv_usec := 999999 }).1.expiration
      = g_time_val_add { tv_sec := 15, tv_usec := 999999 } (timeout_usec 5000) ∧
    (_calculate_timeout 7000 sampleDaemon sampleEntry1 5000
        { tv_sec := 15, tv_usec := 999999 }).1.expiration.Normal ∧
    (_calculate_timeout 7000 sampleDaemon sampleEntry1 5000
        { tv_sec := 15, tv_usec := 999999 }).1.expiration.toUsec
      = GTimeVal.toUsec { tv_sec := 15, tv_usec := 999999 } + 5000 * 1000 ∧
    GTimeVal.toUsec { tv_sec := 15, tv_usec := 999999 }
      < (_calculate_timeout 7000 sampleDaemon sampleEntry1 5000
        { tv_sec := 15, tv_usec := 999999 }).1.expiration.toUsec ∧
    ¬ ExpiredAt { tv_sec := 15, tv_usec := 999999 }
      (_calculate_timeout 7000 sampleDaemon sampleEntry1 5000
        { tv_sec := 15, tv_usec := 999999 }).1 ∧
    (_is_expired { tv_sec := 15, tv_usec := 999999 } 1
      (_calculate_timeout 7000 sampleDaemon sampleEntry1 5000
        { tv_sec := 15, tv_usec := 999999 }).1 (sampleDaemon, false)).1 = false) :=
  ⟨by decide,
    positive_timeout_not_expired 7000 sampleDaemon sampleEntry1 5000
      { tv_sec := 15, tv_usec := 999999 } 1 (sampleDaemon, false) (by decide) (by decide)
      (by decide)⟩

/-! ## C8: pausing loses no time -/

/-- C8.  Pointer-enter at clock reading `t0` on the popup of a live timed entry
with normalised expiration `E` returns, marks the entry paused, keeps `E`, and
stores as `paused_diff` the normalised difference `E - t0`.  Every later tick,
at clock reading `t1`, that finds the entry still paused and not expired
(whatever expiration `E'` earlier ticks have written) does not expire it, keeps
it paused with the same `paused_diff`, and writes a normalised expiration with
`expiration - t1 = E - t0` in microseconds. -/
theorem pause_is_lossless (daemon : NotifyDaemonPrivate) (nw : Nat) (nt : NotifyTimeout)
    (t0 t1 E' : GTimeVal) (key : Nat) (s : NotifyDaemonPrivate × Bool)
    (hlook : g_hash_table_lookup daemon.notification_hash (NW_GET_NOTIFY_ID daemon nw) = some nt)
    (hto : nt.has_timeout = true) (hE : nt.expiration.Normal) (ht0 : t0.Normal)
    (ht1 : t1.Normal) (hlive : ¬ t1.toMsec > E'.toMsec) :
    ∃ d1 nt1, _mouse_entered_cb daemon nw false t0 = some d1 ∧
      g_hash_table_lookup d1.notification_hash (NW_GET_NOTIFY_ID daemon nw) = some nt1 ∧
      nt1.paused = true ∧ nt1.has_timeout = true ∧ nt1.expiration = nt.expiration ∧
      0 ≤ nt1.paused_diff.tv_usec ∧ nt1.paused_diff.tv_usec < 1000000 ∧
      nt1.paused_diff.tv_sec * 1000000 + nt1.paused_diff.tv_usec
        = nt.expiration.toUsec - t0.toUsec ∧
      (_is_expired t1 key { nt1 with expiration := E' } s).1 = false ∧
      (_is_expired t1 key { nt1 with expiration := E' } s).2.1.paused = true ∧
      (_is_expired t1 key { nt1 with expiration := E' } s).2.1.paused_diff = nt1.paused_diff ∧
      (_is_expired t1 key { nt1 with expiration := E' } s).2.1.expiration.Normal ∧
      (_is_expired t1 key { nt1 with expiration := E' } s).2.1.expiration.toUsec - t1.toUsec
        = nt.expiration.toUsec - t0.toUsec := by
  unfold GTimeVal.Normal at hE ht0 ht1
  have hx : ¬ E'.toMsec < t1.toMsec := fun c => hlive c
  cases hcb : _mouse_entered_cb daemon nw false t0 with
  | none => simp [_mouse_entered_cb, hlook] at hcb
  | some d1 =>
  simp only [_mouse_entered_cb, hlook, Bool.false_eq_true, if_false, Option.some.injEq] at hcb
  subst hcb
  refine ⟨_, _, rfl, lookup_write_entry_self _ _ _ _ hlook, rfl, hto, rfl, ?_⟩
  by_cases hneg : nt.expiration.tv_usec - t0.tv_usec < 0
  · simp only [hneg, if_true, _is_expired, hto, hx, G_USEC_PER_SEC, GTimeVal.Normal,
      GTimeVal.toUsec, Bool.not_true, Bool.false_eq_true, if_false, gt_iff_lt, ge_iff_le]
    split_ifs <;> simp only [] <;> constructorm* _ ∧ _ <;> first | trivial | omega
  · simp only [hneg, if_false, _is_expired, hto, hx, G_USEC_PER_SEC, GTimeVal.Normal,
      GTimeVal.toUsec, Bool.not_true, Bool.false_eq_true, if_true, gt_iff_lt, ge_iff_le]
    split_ifs <;> simp only [] <;> constructorm* _ ∧ _ <;> first | trivial | omega

/-- C8 for notification 1 of the sample registry (due at 10.0 s), paused at
8.6 s and ticked at 9.7 s. -/
theorem pause_is_lossless_witness :
    (g_hash_table_lookup sampleDaemon.notification_hash (NW_GET_NOTIFY_ID sampleDaemon 101)
        = some sampleEntry1 ∧
      sampleEntry1.has_timeout = true ∧ sampleEntry1.expiration.Normal ∧
      GTimeVal.Normal { tv_sec := 8, tv_usec := 600000 } ∧
      GTimeVal.Normal { tv_sec := 9, tv_usec := 700000 } ∧
      ¬ GTimeVal.toMsec { tv_sec := 9, tv_usec := 700000 } > sampleEntry1.expiration.toMsec) ∧
    ∃ d1 nt1, _mouse_entered_cb sampleDaemon 101 false { tv_sec := 8, tv_usec := 600000 }
        = some d1 ∧
      g_hash_table_lookup d1.notification_hash (NW_GET_NOTIFY_ID sampleDaemon 101) = some nt1 ∧
      nt1.paused = true ∧ nt1.has_timeout = true ∧ nt1.expiration = sampleEntry1.expiration ∧
      0 ≤ nt1.paused_diff.tv_usec ∧ nt1.paused_diff.tv_usec < 1000000 ∧
      nt1.paused_diff.tv_sec * 1000000 + nt1.paused_diff.tv_usec
        = sampleEntry1.expiration.toUsec - GTimeVal.toUsec { tv_sec := 8, tv_usec := 600000 } ∧
      (_is_expired { tv_sec := 9, tv_usec := 700000 } 1
        { nt1 with expiration := sampleEntry1.expiration } (sampleDaemon, false)).1 = false ∧
      (_is_expired { tv_sec := 9, tv_usec := 700000 } 1
        { nt1 with expiration := sampleEntry1.expiration } (sampleDaemon, false)).2.1.paused
        = true ∧
      (_is_expired { tv_sec := 9, tv_usec := 700000 } 1
        { nt1 with expiration := sampleEntry1.expiration } (sampleDaemon, false)).2.1.paused_diff
        = nt1.paused_diff ∧
      (_is_expired { tv_sec := 9, tv_usec := 700000 } 1
        { nt1 with expiration := sampleEntry1.expiration }
        (sampleDaemon, false)).2.1.expiration.Normal ∧
      (_is_expired { tv_sec := 9, tv_usec := 700000 } 1
        { nt1 with expiration := sampleEntry1.expiration }
        (sampleDaemon, false)).2.1.expiration.toUsec
          - GTimeVal.toUsec { tv_sec := 9, tv_usec := 700000 }
        = sampleEntry1.expiration.toUsec - GTimeVal.toUsec { tv_sec := 8, tv_usec := 600000 } :=
  ⟨⟨by decide, by decide, by decide, by decide, by decide, by decide⟩,
    pause_is_lossless sampleDaemon 101 sampleEntry1 { tv_sec := 8, tv_usec := 600000 }
      { tv_sec := 9, tv_usec := 700000 } sampleEntry1.expiration 1 (sampleDaemon, false)
      (by decide) (by decide) (by decide) (by decide) (by decide) (by decide)⟩

/-! ## C9: a paused entry can expire -/

/-- C9 at the failing input.  A running notification with id 1 is due at
20.5 s; the pointer enters its popup at 20.45 s, which pauses it with 50 ms
remaining; the tick at 20.55 s finds it paused, expires it all the same, removes
it from the registry and emits `NotificationClosed (1, expired)`. -/
theorem paused_entry_expires :
    let entry : NotifyTimeout :=
      { NotifyTimeout.zero with id := 1, nw := 101, has_timeout := true,
                                expiration := { tv_sec := 20, tv_usec := 500000 } }
    let daemon : NotifyDaemonPrivate :=
      { sampleDaemon with notification_hash := [(1, entry)] }
    ∃ paused, _mouse_entered_cb daemon 101 false { tv_sec := 20, tv_usec := 450000 } = some paused ∧
      (g_hash_table_lookup paused.notification_hash 1).map (fun e => (e.paused, e.paused_diff))
        = some (true, { tv_sec := 0, tv_usec := 50000 }) ∧
      (_check_expiration (fun _ => { tv_sec := 20, tv_usec := 550000 })
        paused).2.notification_hash = [] ∧
      (_check_expiration (fun _ => { tv_sec := 20, tv_usec := 550000 }) paused).2.trace
        = [Call.theme_notification_tick 101 0,
           Call.NotificationClosed 1 NOTIFYD_CLOSED_EXPIRED, Call.gtk_widget_destroy 101] := by
  refine ⟨_, rfl, ?_, ?_, ?_⟩ <;> decide

/-! ## C10: re-arming a paused entry -/

/-- C10 at the failing input.  Notification 2 of `sampleDaemon` is paused with
5 s remaining.  A request at 15.0 s that re-uses id 2 with a timeout of 60 s is
answered with id 2 and re-arms the entry (line 1663) to expire at 75.0 s, but
the entry is still paused, and the tick at 15.1 s replaces that expiration by
20.1 s, the clock reading plus the old `paused_diff`: the re-arming is undone. -/
theorem rearm_does_not_cancel_pause :
    (notify_daemon_notify_handler 7000 sampleEnv sampleDaemon rearmRequest).map
        (fun r => (r.1, (g_hash_table_lookup r.2.notification_hash 2).map
          (fun e => (e.paused, e.expiration)),
          (g_hash_table_lookup
            (_check_expiration (fun _ => { tv_sec := 15, tv_usec := 100000 })
              r.2).2.notification_hash 2).map
          (fun e => (e.paused, e.expiration))))
      = some (Reply.return_id 2, some (true, { tv_sec := 75, tv_usec := 0 }),
          some (true, { tv_sec := 20, tv_usec := 100000 })) := by
  decide

/-- The same for every timeout, in a registry within the limit of line 1342.  A
notify request at clock reading `env.now` that re-uses the id of a live, paused
entry with a timeout `T` in `1 .. INT_MAX` returns that id and re-arms the entry
to expire `T` ms after `env.now`, but the entry stays paused with the
`paused_diff` it had; the next tick that does not expire it overwrites the new
expiration with its own clock reading plus that old `paused_diff`, whatever `T`
was. -/
theorem rearm_keeps_pause (D : Int) (env : NotifyEnv) (daemon : NotifyDaemonPrivate)
    (req : NotifyRequest) (nt : NotifyTimeout) (now' : GTimeVal) (key : Nat)
    (s : NotifyDaemonPrivate × Bool)
    (hsize : g_hash_table_size daemon.notification_hash ≤ MAX_NOTIFICATIONS)
    (hid : req.id > 0)
    (hlive : g_hash_table_lookup daemon.notification_hash req.id = some nt)
    (hpaused : nt.paused = true)
    (hT : 0 < req.timeout) (hTmax : req.timeout ≤ INT_MAX) (hnow : env.now.Normal)
    (htrack : req.hint_window_xid.getD 0 = 0 ∨ env.always_stack = true ∨
      TrackingEnds env.xserver (req.hint_window_xid.getD 0))
    (hnext : ¬ now'.toMsec > (g_time_val_add env.now (req.timeout * 1000)).toMsec) :
    ∃ d1 nt1, notify_daemon_notify_handler D env daemon req = some (Reply.return_id req.id, d1) ∧
      g_hash_table_lookup d1.notification_hash req.id = some nt1 ∧
      nt1.has_timeout = true ∧
      nt1.expiration.toUsec = env.now.toUsec + req.timeout * 1000 ∧
      nt1.paused = true ∧ nt1.paused_diff = nt.paused_diff ∧
      (_is_expired now' key nt1 s).1 = false ∧
      (_is_expired now' key nt1 s).2.1.paused = true ∧
      (_is_expired now' key nt1 s).2.1.expiration.toUsec
        = now'.toUsec + nt.paused_diff.toUsec := by
  have hguard : ¬ g_hash_table_size daemon.notification_hash > MAX_NOTIFICATIONS := by omega
  have hfound : (if req.id > 0 then g_hash_table_lookup daemon.notification_hash req.id
      else none) = some nt := by
    simp [hid, hlive]
  have ht0 : req.timeout ≠ 0 := by omega
  have ht1 : req.timeout ≠ -1 := by omega
  have hu : timeout_usec req.timeout = req.timeout * 1000 := timeout_usec_pos _ hT hTmax
  have hplace : ∀ (d : NotifyDaemonPrivate) (nw : Nat) (b : Bool),
      g_hash_table_lookup (place_notification env d req nw b).notification_hash req.id
        = g_hash_table_lookup d.notification_hash req.id := by
    intro d nw b
    rw [(place_notification_hash _ _ _ _ _).1]
  have hfinish : ∀ (d : NotifyDaemonPrivate) (nw : Nat),
      g_hash_table_lookup d.notification_hash req.id = some nt →
      ∃ d1 nt1, notify_finish D env d req nw req.id req.id = some (Reply.return_id req.id, d1) ∧
        g_hash_table_lookup d1.notification_hash req.id = some nt1 ∧
        nt1.has_timeout = true ∧
        nt1.expiration = g_time_val_add env.now (req.timeout * 1000) ∧
        nt1.paused = true ∧ nt1.paused_diff = nt.paused_diff := by
    intro d nw hl
    obtain ⟨d1, ntX, hfin, hX, hl1, _, _, _⟩ :=
      notify_finish_returns D env d req nw req.id req.id nt hl htrack
    have hXp : ntX.paused = true ∧ ntX.paused_diff = nt.paused_diff := by
      rcases hX with h | h <;> rw [h] <;> exact ⟨hpaused, rfl⟩
    refine ⟨d1, _, hfin, hl1, ?_, ?_, ?_, ?_⟩
    · rw [calculate_timeout_entry _ _ _ _ _ ht0]
    · rw [calculate_timeout_entry _ _ _ _ _ ht0]
      simp only [ht1, if_false, hu]
    · rw [(calculate_timeout_nw _ _ _ _ _).2.1]; exact hXp.1
    · rw [(calculate_timeout_nw _ _ _ _ _).2.2]; exact hXp.2
  have hhandler : ∃ d1 nt1,
      notify_daemon_notify_handler D env daemon req = some (Reply.return_id req.id, d1) ∧
        g_hash_table_lookup d1.notification_hash req.id = some nt1 ∧
        nt1.has_timeout = true ∧
        nt1.expiration = g_time_val_add env.now (req.timeout * 1000) ∧
        nt1.paused = true ∧ nt1.paused_diff = nt.paused_diff := by
    simp only [notify_daemon_notify_handler, hguard, if_false, hfound]
    apply hfinish
    rw [hplace]
    split_ifs <;> simpa [NotifyDaemonPrivate.call] using hlive
  obtain ⟨d1, nt1, hh, hl1, hto, hexp, hp, hpd⟩ := hhandler
  have hadd := g_time_val_add_spec env.now (req.timeout * 1000) hnow (by omega)
  have hx : ¬ nt1.expiration.toMsec < now'.toMsec := by
    rw [hexp]; exact fun c => hnext c
  refine ⟨d1, nt1, hh, hl1, hto, by rw [hexp]; exact hadd.2, hp, hpd, ?_, ?_, ?_⟩
  · simp [_is_expired, hto, hx, hp]
  · simp [_is_expired, hto, hx, hp]
  · simp only [_is_expired, hto, hx, hp, hpd, G_USEC_PER_SEC, GTimeVal.toUsec, Bool.not_true,
      Bool.false_eq_true, if_false, if_true, gt_iff_lt, ge_iff_le]
    split_ifs <;> simp only [] <;> omega

/-- The general fact for the paused notification 2 of the sample registry,
re-armed at 15.0 s with 60 s and ticked at 15.1 s. -/
theorem rearm_keeps_pause_witness :
    (g_hash_table_size sampleDaemon.notification_hash ≤ MAX_NOTIFICATIONS ∧
      rearmRequest.id > 0 ∧
      g_hash_table_lookup sampleDaemon.notification_hash rearmRequest.id = some sampleEntry2 ∧
      sampleEntry2.paused = true ∧ 0 < rearmRequest.timeout ∧ rearmRequest.timeout ≤ INT_MAX ∧
      sampleEnv.now.Normal ∧
      (rearmRequest.hint_window_xid.getD 0 = 0 ∨ sampleEnv.always_stack = true ∨
        TrackingEnds sampleEnv.xserver (rearmRequest.hint_window_xid.getD 0)) ∧
      ¬ GTimeVal.toMsec { tv_sec := 15, tv_usec := 100000 }
        > (g_time_val_add sampleEnv.now (rearmRequest.timeout * 1000)).toMsec) ∧
    ∃ d1 nt1, notify_daemon_notify_handler 7000 sampleEnv sampleDaemon rearmRequest
        = some (Reply.return_id rearmRequest.id, d1) ∧
      g_hash_table_lookup d1.notification_hash rearmRequest.id = some nt1 ∧
      nt1.has_timeout = true ∧
      nt1.expiration.toUsec = sampleEnv.now.toUsec + rearmRequest.timeout * 1000 ∧
      nt1.paused = true ∧ nt1.paused_diff = sampleEntry2.paused_diff ∧
      (_is_expired { tv_sec := 15, tv_usec := 100000 } 2 nt1 (sampleDaemon, false)).1 = false ∧
      (_is_expired { tv_sec := 15, tv_usec := 100000 } 2 nt1 (sampleDaemon, false)).2.1.paused
        = true ∧
      (_is_expired { tv_sec := 15, tv_usec := 100000 } 2 nt1
        (sampleDaemon, false)).2.1.expiration.toUsec
        = GTimeVal.toUsec { tv_sec := 15, tv_usec := 100000 } + sampleEntry2.paused_diff.toUsec :=
  ⟨⟨by decide, by decide, by decide, by decide, by decide, by decide, by decide,
      Or.inl (by decide), by decide⟩,
    rearm_keeps_pause 7000 sampleEnv sampleDaemon rearmRequest sampleEntry2
      { tv_sec := 15, tv_usec := 100000 } 2 (sampleDaemon, false) (by decide) (by decide)
      (by decide) (by decide) (by decide) (by decide) (by decide) (Or.inl (by decide))
      (by decide)⟩

/-! ## C11: a notify request that carries an id -/

theorem traceExt_refl (p : Call → Bool) (d : NotifyDaemonPrivate) : TraceExt p d d :=
  ⟨[], by simp, by simp⟩

theorem traceExt_of_eq (p : Call → Bool) (d d2 : NotifyDaemonPrivate) (h : d2.trace = d.trace) :
    TraceExt p d d2 :=
  ⟨[], by simp [h], by simp⟩

theorem traceExt_trans (p : Call → Bool) (a b c : NotifyDaemonPrivate) (h1 : TraceExt p a b)
    (h2 : TraceExt p b c) : TraceExt p a c := by
  obtain ⟨l1, e1, q1⟩ := h1
  obtain ⟨l2, e2, q2⟩ := h2
  refine ⟨l1 ++ l2, by rw [e2, e1, List.append_assoc], ?_⟩
  intro x hx
  rcases List.mem_append.1 hx with h | h
  · exact q1 x h
  · exact q2 x h

theorem traceExt_call (p : Call → Bool) (d : NotifyDaemonPrivate) (c : Call) (hc : p c = true) :
    TraceExt p d (d.call c) :=
  ⟨[c], rfl, by simpa using hc⟩

theorem traceExt_mono (p q : Call → Bool) (d d2 : NotifyDaemonPrivate)
    (hpq : ∀ c, p c = true → q c = true) (h : TraceExt p d d2) : TraceExt q d d2 := by
  obtain ⟨l, e, hl⟩ := h
  exact ⟨l, e, fun c hc => hpq c (hl c hc)⟩

theorem update_call_of_finish (c : Call) (h : finish_call c = true) : update_call c = true := by
  cases c <;> simp_all [finish_call, update_call]

theorem traceExt_stack_update (d : NotifyDaemonPrivate) (stack : Int) (nw : Nat) :
    TraceExt update_call d (notify_stack_add_window d stack nw false) := by
  simp only [notify_stack_add_window, Bool.false_eq_true, false_and, if_false]
  exact traceExt_call _ d (Call.notify_stack_add_window stack nw false) rfl

theorem traceExt_place_update (env : NotifyEnv) (d : NotifyDaemonPrivate) (req : NotifyRequest)
    (nw : Nat) : TraceExt update_call d (place_notification env d req nw false) := by
  simp only [place_notification]
  split_ifs
  · exact traceExt_refl _ _
  · exact traceExt_trans _ _ _ _
      (traceExt_call _ d (Call.theme_set_notification_arrow nw true (req.hint_x.getD 0)
        (req.hint_y.getD 0)) rfl)
      (traceExt_call _ _ (Call.theme_move_notification nw (req.hint_x.getD 0)
        (req.hint_y.getD 0)) rfl)
  all_goals
    exact traceExt_trans _ _ _ _
      (traceExt_call _ d (Call.theme_set_notification_arrow nw false 0 0) rfl)
      (traceExt_stack_update _ _ _)

theorem traceExt_sync (x : XServer) (d : NotifyDaemonPrivate) (nw source : Nat) :
    TraceExt finish_call d (sync_notification_position x d nw source) := by
  unfold sync_notification_position
  cases x.XGetGeometry source with
  | none => exact traceExt_refl _ _
  | some g =>
    cases x.XTranslateCoordinates source with
    | none => exact traceExt_refl _ _
    | some c =>
      exact traceExt_trans _ _ _ _ (traceExt_trans _ _ _ _ (traceExt_trans _ _ _ _
        (traceExt_call _ d (Call.theme_set_notification_arrow nw true _ _) rfl)
        (traceExt_call _ _ (Call.theme_move_notification nw _ _) rfl))
        (traceExt_call _ _ (Call.theme_show_notification nw) rfl))
        (traceExt_call _ _ (Call.gtk_widget_queue_draw nw) rfl)

theorem traceExt_monitor_walk (x : XServer) (id : Nat) :
    ∀ (fuel parent root : Nat) (d d2 : NotifyDaemonPrivate),
      monitor_walk x id fuel parent root d = some d2 → TraceExt finish_call d d2 := by
  intro fuel
  induction fuel with
  | zero => intro p r d d2 h; simp [monitor_walk] at h
  | succ f ih =>
    intro p r d d2 h
    by_cases hc : p ≠ 0 ∧ r ≠ p
    · rw [monitor_walk, if_pos hc] at h
      dsimp only at h
      have h3 := ih _ _ _ _ h
      exact traceExt_trans _ _ _ _ (traceExt_call _ d (Call.XSelectInput p) rfl)
        (traceExt_trans _ _ _ _ (traceExt_of_eq _ _ _ rfl) h3)
    · rw [monitor_walk, if_neg hc] at h
      simp only [Option.some.injEq] at h
      rw [h]; exact traceExt_refl _ _

theorem traceExt_monitor (x : XServer) (d d2 : NotifyDaemonPrivate) (key source : Nat)
    (h : monitor_notification_source_windows x d key source = some d2) :
    TraceExt finish_call d d2 := by
  cases hl : g_hash_table_lookup d.notification_hash key with
  | none =>
    by_cases h0 : g_hash_table_size d.monitored_window_hash = 0 <;>
      simp [monitor_notification_source_windows, h0, hl] at h
  | some nt =>
    by_cases h0 : g_hash_table_size d.monitored_window_hash = 0
    · simp only [monitor_notification_source_windows, h0, if_true, hl] at h
      have h3 := traceExt_monitor_walk x _ _ _ _ _ _ h
      exact traceExt_trans _ _ _ _ (traceExt_of_eq _ _ _ rfl) h3
    · simp only [monitor_notification_source_windows, h0, if_false, hl] at h
      have h3 := traceExt_monitor_walk x _ _ _ _ _ _ h
      exact traceExt_trans _ _ _ _ (traceExt_of_eq _ _ _ rfl) h3

theorem traceExt_calculate_timeout (D : Int) (d : NotifyDaemonPrivate) (nt : NotifyTimeout)
    (timeout : Int) (now : GTimeVal) :
    TraceExt finish_call d (_calculate_timeout D d nt timeout now).2 := by
  by_cases h0 : timeout = 0
  · simp only [_calculate_timeout, h0, if_true]; exact traceExt_refl _ _
  · by_cases hs : d.timeout_source = 0
    · simp only [_calculate_timeout, h0, if_false, NotifyDaemonPrivate.call, hs, if_true,
        g_timeout_add]
      exact ⟨[_], rfl, by simp [finish_call]⟩
    · simp only [_calculate_timeout, h0, if_false, NotifyDaemonPrivate.call, hs]
      exact ⟨[_], rfl, by simp [finish_call]⟩

theorem traceExt_notify_finish (D : Int) (env : NotifyEnv) (d d2 : NotifyDaemonPrivate)
    (req : NotifyRequest) (nw id rid : Nat) (r : Reply)
    (h : notify_finish D env d req nw id rid = some (r, d2)) : TraceExt finish_call d d2 := by
  unfold notify_finish at h
  have htr : ∀ dT, (if req.hint_window_xid.getD 0 ≠ 0 ∧ env.always_stack = false then
        (monitor_notification_source_windows env.xserver d rid (req.hint_window_xid.getD 0)).map
          (fun daemon => sync_notification_position env.xserver daemon nw
            (req.hint_window_xid.getD 0))
      else some d) = some dT → TraceExt finish_call d dT := by
    intro dT hT
    split_ifs at hT with hc
    · cases hm : monitor_notification_source_windows env.xserver d rid
          (req.hint_window_xid.getD 0) with
      | none => rw [hm] at hT; cases hT
      | some dM =>
        rw [hm] at hT
        simp only [Option.map_some', Option.some.injEq] at hT
        rw [← hT]
        exact traceExt_trans _ _ _ _ (traceExt_monitor _ _ _ _ _ hm) (traceExt_sync _ _ _ _)
    · simp only [Option.some.injEq] at hT
      rw [← hT]; exact traceExt_refl _ _
  simp only at h
  split at h
  · cases h
  · rename_i dT hT
    have hextT := htr dT hT
    split at h
    · cases h
    · rename_i nt hnt
      simp only [Option.some.injEq, Prod.mk.injEq] at h
      rw [← h.2]
      refine traceExt_trans _ _ _ _ hextT ?_
      refine traceExt_trans _ _ _ _ (?_ : TraceExt finish_call dT
        (if nt.has_timeout = false ∨
            (env.screensaver_active = false ∧ env.fullscreen_window_exists = false) then
          (if req.sound_file then
            (dT.call (Call.theme_show_notification nw)).call (Call.sound_play_file nw)
          else dT.call (Call.theme_show_notification nw))
        else (g_timeout_add dT 0 (SourceFunc._close_notification_not_shown id)).2)) ?_
      · split_ifs
        · exact traceExt_trans _ _ _ _ (traceExt_call _ dT (Call.theme_show_notification nw) rfl)
            (traceExt_call _ _ (Call.sound_play_file nw) rfl)
        · exact traceExt_call _ dT (Call.theme_show_notification nw) rfl
        · exact traceExt_of_eq _ _ _ rfl
      · have hc := traceExt_calculate_timeout D
          { (if nt.has_timeout = false ∨
                (env.screensaver_active = false ∧ env.fullscreen_window_exists = false) then
              (if req.sound_file then
                (dT.call (Call.theme_show_notification nw)).call (Call.sound_play_file nw)
              else dT.call (Call.theme_show_notification nw))
            else (g_timeout_add dT 0 (SourceFunc._close_notification_not_shown id)).2) with
            notify_id_data := fun w => if w = nw then rid else
              (if nt.has_timeout = false ∨
                (env.screensaver_active = false ∧ env.fullscreen_window_exists = false) then
              (if req.sound_file then
                (dT.call (Call.theme_show_notification nw)).call (Call.sound_play_file nw)
              else dT.call (Call.theme_show_notification nw))
            else (g_timeout_add dT 0
              (SourceFunc._close_notification_not_shown id)).2).notify_id_data w }
          nt req.timeout env.now
        exact traceExt_trans _ _ _ _ (traceExt_of_eq _ _ _ rfl)
          (traceExt_trans _ _ _ _ hc (traceExt_of_eq _ _ _ rfl))

theorem notify_handler_stores (D : Int) (env : NotifyEnv) (daemon : NotifyDaemonPrivate)
    (req : NotifyRequest)
    (hsize : g_hash_table_size daemon.notification_hash ≤ MAX_NOTIFICATIONS)
    (hnew : req.id = 0 ∨ g_hash_table_lookup daemon.notification_hash req.id = none)
    (hnext : 1 ≤ daemon.next_id ∧ daemon.next_id ≤ UINT_MAX)
    (htrack : req.hint_window_xid.getD 0 = 0 ∨ env.always_stack = true ∨
      TrackingEnds env.xserver (req.hint_window_xid.getD 0)) :
    ∃ i d1, notify_daemon_notify_handler D env daemon req = some (Reply.return_id i, d1) ∧
      i ≠ 0 ∧ i ∉ daemon.notification_hash.keys ∧
      d1.notification_hash.keys = daemon.notification_hash.keys ++ [i] := by
  have hguard : ¬ g_hash_table_size daemon.notification_hash > MAX_NOTIFICATIONS := by omega
  have hfree : ∃ i, 1 ≤ i ∧ i ≤ UINT_MAX ∧ i ∉ daemon.notification_hash.keys :=
    free_id_exists daemon.notification_hash
      (by unfold MAX_NOTIFICATIONS at hsize; unfold UINT_MAX; omega)
  have hfound : (if req.id > 0 then g_hash_table_lookup daemon.notification_hash req.id
      else none) = none := by
    rcases hnew with h | h
    · simp [h]
    · simp [h]
  obtain ⟨nt, d2, hstore, hid0, _, hnw, hidnew, hd2⟩ :=
    store_notification_spec D
      (place_notification env (daemon.call (Call.theme_create_notification env.new_nw)) req
        env.new_nw true) env.new_nw req.timeout env.now_store
      (by rw [(place_notification_hash _ _ _ _ _).2]; exact hnext)
      (by rw [(place_notification_hash _ _ _ _ _).1]; exact hfree)
  rw [(place_notification_hash _ _ _ _ _).1] at hidnew hd2
  have hidnew2 : nt.id ∉ daemon.notification_hash.keys := hidnew
  have hd3 : d2.notification_hash = g_hash_table_insert daemon.notification_hash nt.id nt := hd2
  have hl2 : g_hash_table_lookup d2.notification_hash nt.id = some nt := by
    rw [hd3]; exact lookup_insert_self _ _ _
  obtain ⟨d1, ntX, hfin, _, _, hk1, _, _⟩ :=
    notify_finish_returns D env d2 req env.new_nw 0 nt.id nt hl2 htrack
  refine ⟨nt.id, d1, ?_, hid0, hidnew2, by rw [hk1, hd3, keys_insert_new _ _ _ hidnew2]⟩
  simp only [notify_daemon_notify_handler, hguard, if_false, hfound, hstore]
  exact hfin

theorem notify_handler_dead_id (D : Int) (env : NotifyEnv) (daemon : NotifyDaemonPrivate)
    (req : NotifyRequest)
    (hdead : g_hash_table_lookup daemon.notification_hash req.id = none) :
    notify_daemon_notify_handler D env daemon req
      = notify_daemon_notify_handler D env daemon { req with id := 0 } := by
  have hfound : (if req.id > 0 then g_hash_table_lookup daemon.notification_hash req.id
      else none) = none := by simp [hdead]
  simp only [notify_daemon_notify_handler, hfound, place_notification, notify_finish,
    gt_iff_lt, lt_self_iff_false, if_false]

/-- C12: `CloseNotification (0)` returns `FALSE` with the error of code 100 and
message "0 is not a valid notification ID", and the daemon state afterwards is
the state before, whole: registry, timers, tracked windows and trace (so no
signal is emitted). -/
theorem close_zero_is_rejected (daemon : NotifyDaemonPrivate) :
    notify_daemon_close_notification_handler daemon 0
      = (false, some (100, "0 is not a valid notification ID"), daemon) := by
  simp [notify_daemon_close_notification_handler]

/-! ## C13: closing an id that is not live -/

/-- C13, as stated, fails: id 5 is non-zero and has no live entry in
`sampleDaemon`, and closing it returns `TRUE` with no error set, which is
success and not not-found. -/
theorem close_unknown_reports_success :
    (5 : Nat) ≠ 0 ∧ g_hash_table_lookup sampleDaemon.notification_hash 5 = none ∧
    (notify_daemon_close_notification_handler sampleDaemon 5).1 = true ∧
    (notify_daemon_close_notification_handler sampleDaemon 5).2.1 = none := by
  decide

/-- C13, amended: for every non-zero id that has no live entry, closing it
returns `TRUE` with no error set and leaves the whole daemon state as it was:
no `NotificationClosed` signal, and registry and idle-exit timer unchanged. -/
theorem close_unknown_changes_nothing (daemon : NotifyDaemonPrivate) (id : Nat) (hid : id ≠ 0)
    (hdead : g_hash_table_lookup daemon.notification_hash id = none) :
    notify_daemon_close_notification_handler daemon id = (true, none, daemon) := by
  simp [notify_daemon_close_notification_handler, hid, _close_notification, hdead]

theorem close_unknown_changes_nothing_witness :
    notify_daemon_close_notification_handler sampleDaemon 5 = (true, none, sampleDaemon) :=
  close_unknown_changes_nothing sampleDaemon 5 (by decide) (by decide)

/-! ## C14: the idle-exit timer is armed exactly when the registry is empty -/

theorem add_exit_timeout_armed (d : NotifyDaemonPrivate) (h : 1 ≤ d.next_source_id) :
    (add_exit_timeout d).exit_timeout_source > 0 ∧ 1 ≤ (add_exit_timeout d).next_source_id := by
  by_cases h0 : d.exit_timeout_source > 0
  · simp [add_exit_timeout, h0, h]
  · simp only [add_exit_timeout, h0, if_false, g_timeout_add]
    constructor <;> simp; omega

theorem calculate_timeout_exit (D : Int) (d : NotifyDaemonPrivate) (nt : NotifyTimeout)
    (timeout : Int) (now : GTimeVal) :
    (_calculate_timeout D d nt timeout now).2.exit_timeout_source = d.exit_timeout_source ∧
    d.next_source_id ≤ (_calculate_timeout D d nt timeout now).2.next_source_id := by
  by_cases h0 : timeout = 0 <;> by_cases hs : d.timeout_source = 0 <;>
    simp [_calculate_timeout, h0, hs, NotifyDaemonPrivate.call, g_timeout_add]

theorem insert_size_pos {ν : Type} (h : GHashTable ν) (key : Nat) (v : ν) :
    g_hash_table_size (g_hash_table_insert h key v) ≠ 0 := by
  cases hh : g_hash_table_insert h key v with
  | nil =>
    have := lookup_insert_self h key v
    rw [hh] at this
    simp [g_hash_table_lookup] at this
  | cons a rest => simp [g_hash_table_size]

theorem exitTimerOk_init (n : Nat) : ExitTimerOk (notify_daemon_init n) := by
  simp [ExitTimerOk, notify_daemon_init, add_exit_timeout, NotifyDaemonPrivate.zero,
    g_timeout_add, g_hash_table_size]

theorem remove_exit_timeout_exit (d : NotifyDaemonPrivate) :
    (remove_exit_timeout d).exit_timeout_source = 0 ∧
    (remove_exit_timeout d).next_source_id = d.next_source_id := by
  by_cases h0 : d.exit_timeout_source = 0 <;>
    simp [remove_exit_timeout, h0, g_source_remove]

theorem exitTimerOk_store (D : Int) (d d2 : NotifyDaemonPrivate) (nw : Nat) (timeout : Int)
    (now : GTimeVal) (nt : NotifyTimeout) (hok : ExitTimerOk d)
    (h : _store_notification D d nw timeout now = some (nt, d2)) : ExitTimerOk d2 := by
  unfold _store_notification at h
  split at h
  · cases h
  · rename_i id next_id _
    simp only [Option.some.injEq, Prod.mk.injEq] at h
    obtain ⟨_, h2⟩ := h
    have hc := (calculate_timeout_exit D { d with next_id := next_id }
      { NotifyTimeout.zero with id := id, nw := nw } timeout now).2
    simp only at hc
    rw [← h2]
    unfold ExitTimerOk at *
    rw [(remove_exit_timeout_exit _).1, (remove_exit_timeout_exit _).2, remove_exit_timeout_hash]
    refine ⟨by simp only; omega, ?_⟩
    simp only [gt_iff_lt, lt_self_iff_false, false_iff]
    exact insert_size_pos _ _ _

theorem exitTimerOk_rearm (d : NotifyDaemonPrivate) (h : GHashTable NotifyTimeout)
    (h1 : 1 ≤ d.next_source_id) (he : g_hash_table_size h ≠ 0 → d.exit_timeout_source = 0) :
    ExitTimerOk (if g_hash_table_size h = 0 then add_exit_timeout { d with notification_hash := h }
      else { d with notification_hash := h }) := by
  unfold ExitTimerOk
  split_ifs with hs
  · refine ⟨(add_exit_timeout_armed { d with notification_hash := h } h1).2, ?_⟩
    rw [add_exit_timeout_hash]
    exact ⟨fun _ => hs, fun _ => (add_exit_timeout_armed { d with notification_hash := h } h1).1⟩
  · refine ⟨h1, ?_⟩
    simp only [he hs]
    exact ⟨fun hx => absurd hx (by omega), fun hx => absurd hx hs⟩

theorem exitTimerOk_close (d : NotifyDaemonPrivate) (id : Nat) (hide : Bool)
    (reason : NotifydClosedReason) (hok : ExitTimerOk d) :
    ExitTimerOk (_close_notification d id hide reason) := by
  cases hl : g_hash_table_lookup d.notification_hash id with
  | none => rw [close_notification_absent d id hide reason hl]; exact hok
  | some nt =>
    have hne : g_hash_table_size d.notification_hash ≠ 0 := by
      have := lookup_some_mem _ _ _ hl
      unfold g_hash_table_size
      intro c
      rw [List.length_eq_zero] at c
      rw [c] at this
      cases this
    have he : d.exit_timeout_source = 0 := by
      unfold ExitTimerOk at hok
      by_contra c
      exact hne (hok.2.1 (by omega))
    simp only [_close_notification, hl]
    apply exitTimerOk_rearm
    · cases hide <;>
        simp [_notify_timeout_destroy, _emit_closed_signal, NotifyDaemonPrivate.call, hok.1]
    · intro _
      cases hide <;>
        simp [_notify_timeout_destroy, _emit_closed_signal, NotifyDaemonPrivate.call, he]

theorem sweep_more_nonempty (clock : Nat → GTimeVal) (h : GHashTable NotifyTimeout)
    (hm : sweep_more clock h = true) : g_hash_table_size (sweep_table clock h) ≠ 0 := by
  induction h with
  | nil => simp [sweep_more] at hm
  | cons e rest ih =>
    by_cases hE : ExpiredAt (clock e.1) e.2
    · have : sweep_more clock rest = true := by
        simp only [sweep_more, List.any_cons, Bool.or_eq_true] at hm ⊢
        rcases hm with h1 | h1
        · simp [hE] at h1
        · exact h1
      have := ih this
      simpa [sweep_table, hE, g_hash_table_size] using this
    · simp [sweep_table, hE, g_hash_table_size]

theorem exitTimerOk_check_expiration (clock : Nat → GTimeVal) (d : NotifyDaemonPrivate)
    (hok : ExitTimerOk d) : ExitTimerOk (_check_expiration clock d).2 := by
  have hsub : g_hash_table_size d.notification_hash = 0 →
      g_hash_table_size (sweep_table clock d.notification_hash) = 0 := by
    intro h0
    unfold g_hash_table_size at h0
    rw [List.length_eq_zero] at h0
    simp [h0, sweep_table, g_hash_table_size]
  unfold ExitTimerOk at *
  unfold _check_expiration
  simp only [sweep_eq]
  split_ifs with h1 h2
  · obtain ⟨ha, hb⟩ := add_exit_timeout_armed
      { d with trace := d.trace ++ sweep_calls clock d.notify_id_data d.notification_hash,
               notification_hash := sweep_table clock d.notification_hash, timeout_source := 0 }
      hok.1
    refine ⟨hb, ?_⟩
    rw [add_exit_timeout_hash]
    simp_all
  · refine ⟨hok.1, ?_⟩
    simp only at h2 ⊢
    constructor
    · intro hx; exact absurd (hsub (hok.2.1 hx)) h2
    · intro hx; exact absurd hx h2
  · refine ⟨hok.1, ?_⟩
    have hm : sweep_more clock d.notification_hash = true := by simpa using h1
    have hne := sweep_more_nonempty clock d.notification_hash hm
    simp only
    constructor
    · intro hx; exact absurd (hsub (hok.2.1 hx)) hne
    · intro hx; exact absurd hx hne

theorem exitTimerOk_reachable (D : Int) (d : NotifyDaemonPrivate) (h : Reachable D d) :
    ExitTimerOk d := by
  induction h with
  | init n => exact exitTimerOk_init n
  | store nw timeout clock _ hs ih => exact exitTimerOk_store D _ _ nw timeout clock _ ih hs
  | close id hide reason _ ih => exact exitTimerOk_close _ id hide reason ih
  | sweep clock _ ih => exact exitTimerOk_check_expiration clock _ ih

/-- C14: in every state reachable from start-up through `_store_notification`,
`_close_notification` and `_check_expiration`, `exit_timeout_source > 0` holds
if and only if the registry has no entry. -/
theorem exit_timer_armed_iff_empty (D : Int) (daemon : NotifyDaemonPrivate)
    (h : Reachable D daemon) :
    daemon.exit_timeout_source > 0 ↔ g_hash_table_size daemon.notification_hash = 0 :=
  (exitTimerOk_reachable D daemon h).2

theorem exit_timer_armed_iff_empty_witness :
    Reachable 7000 storedDaemon ∧
    (storedDaemon.exit_timeout_source > 0
      ↔ g_hash_table_size storedDaemon.notification_hash = 0) :=
  have h : Reachable 7000 storedDaemon :=
    Reachable.store 121 5000 { tv_sec := 15, tv_usec := 0 } (Reachable.init 1)
      (rfl : _store_notification 7000 (notify_daemon_init 1) 121 5000
        { tv_sec := 15, tv_usec := 0 } = some (_, storedDaemon))
  ⟨h, exit_timer_armed_iff_empty 7000 storedDaemon h⟩


/-! ## C15: shrinking the monitor count loses no popup -/

theorem take_set_of_le {α : Type} (a : α) (n m : Nat) (l : List α) (h : m ≤ n) :
    (l.set n a).take m = l.take m := by
  apply List.ext_getElem?
  intro k
  rw [List.getElem?_take, List.getElem?_take]
  split
  · rw [List.getElem?_set_ne (by omega)]
  · rfl

theorem transfer_windows_stacks (last_stack : Int) (h0 : 0 ≤ last_stack) :
    ∀ (ws : List Nat) (d : NotifyDaemonPrivate),
      (transfer_windows last_stack ws d).screen.stacks_
        = d.screen.stacks_.modify (fun s => s ++ ws) last_stack.toNat ∧
      (transfer_windows last_stack ws d).screen.n_stacks = d.screen.n_stacks := by
  intro ws
  induction ws with
  | nil =>
    intro d
    have hid : (fun s : List Nat => s) = id := rfl
    simp [transfer_windows, hid]
  | cons w rest ih =>
    intro d
    have hs : (notify_stack_add_window d last_stack w true).screen.stacks_
        = d.screen.stacks_.modify (fun s => s ++ [w]) last_stack.toNat := by
      simp [notify_stack_add_window, h0, NotifyDaemonPrivate.call]
    have hn : (notify_stack_add_window d last_stack w true).screen.n_stacks
        = d.screen.n_stacks := by
      simp [notify_stack_add_window, h0, NotifyDaemonPrivate.call]
    rw [transfer_windows, (ih _).1, (ih _).2, hs, hn, List.modify_modify_eq]
    refine ⟨?_, rfl⟩
    congr 1
    funext s
    simp

theorem transfer_stacks_take (last_stack : Int) (h0 : 0 ≤ last_stack) :
    ∀ (count i : Nat) (d : NotifyDaemonPrivate), last_stack.toNat < i →
      ((transfer_stacks last_stack i count d).screen.stacks_).take (last_stack.toNat + 1)
        = (d.screen.stacks_.take (last_stack.toNat + 1)).modify
            (fun s => s ++ ((d.screen.stacks_.drop i).take count).flatten) last_stack.toNat := by
  intro count
  induction count with
  | zero =>
    intro i d _
    have hid : (fun s : List Nat => s) = id := rfl
    simp [transfer_stacks, hid]
  | succ c ih =>
    intro i d hi
    rw [transfer_stacks]
    simp only
    rw [ih (i + 1) _ (by omega)]
    simp only [(transfer_windows_stacks last_stack h0 _ _).1]
    rw [take_set_of_le [] i (last_stack.toNat + 1) _ (by omega),
      @List.drop_set_of_lt _ [] i (i + 1) _ (by omega),
      List.drop_modify_of_lt _ last_stack.toNat (i + 1) _ (by omega), List.take_modify,
      List.modify_modify_eq]
    congr 1
    funext s
    simp only [Function.comp, List.append_assoc, List.append_cancel_left_eq]
    by_cases hlen : i < d.screen.stacks_.length
    · rw [List.getD_eq_getElem _ _ hlen, List.drop_eq_getElem_cons hlen]
      simp only [List.take_succ_cons, List.flatten_cons]
    · have h1 : d.screen.stacks_.length ≤ i := by omega
      simp [List.drop_eq_nil_of_le h1,
        List.drop_eq_nil_of_le (show d.screen.stacks_.length ≤ i + 1 by omega),
        List.getElem?_eq_none h1]

theorem monitors_shrink (d : NotifyDaemonPrivate) (n_monitors : Int) (h1 : 1 ≤ n_monitors)
    (h2 : n_monitors < d.screen.n_stacks)
    (hlen : d.screen.stacks_.length = d.screen.n_stacks.toNat) :
    (on_screen_monitors_changed d n_monitors).screen.n_stacks = n_monitors ∧
    (on_screen_monitors_changed d n_monitors).screen.stacks_
      = d.screen.stacks_.take (n_monitors.toNat - 1)
        ++ [d.screen.stacks_.getD (n_monitors.toNat - 1) []
              ++ (d.screen.stacks_.drop n_monitors.toNat).flatten] := by
  have hgt : ¬ n_monitors > d.screen.n_stacks := by omega
  have hm : (n_monitors - 1).toNat + 1 = n_monitors.toNat := by omega
  have hm' : (n_monitors - 1).toNat = n_monitors.toNat - 1 := by omega
  have hlt : n_monitors.toNat - 1 < d.screen.stacks_.length := by omega
  have hk := transfer_stacks_take (n_monitors - 1) (by omega)
    (d.screen.n_stacks - n_monitors).toNat n_monitors.toNat d (by omega)
  rw [hm, hm'] at hk
  simp only [on_screen_monitors_changed, hgt, h2, if_true, if_false]
  refine ⟨trivial, ?_⟩
  rw [hk]
  have htake : (d.screen.stacks_.drop n_monitors.toNat).take (d.screen.n_stacks - n_monitors).toNat
      = d.screen.stacks_.drop n_monitors.toNat := by
    apply List.take_of_length_le
    simp only [List.length_drop]
    omega
  rw [htake, List.modify_eq_take_cons_drop (by simp; omega)]
  simp only [List.take_take, List.drop_take]
  have e1 : min (n_monitors.toNat - 1) n_monitors.toNat = n_monitors.toNat - 1 := by omega
  have e2 : n_monitors.toNat - (n_monitors.toNat - 1 + 1) = 0 := by omega
  rw [e1, e2, List.getD_eq_getElem _ _ hlt]
  simp [List.getElem_take]

/-- C15: when the monitor count shrinks from `n_stacks = N` to `n_monitors = M`
with `1 ≤ M < N` (the array holding `N` stacks), `on_screen_monitors_changed`
leaves `n_stacks = M` and `M` stacks; the stacks `0 .. M-2` hold what they held;
stack `M-1` holds what it held followed by the popups of the removed stacks
`M .. N-1` in order; and all surviving stacks together hold exactly the popups
that all stacks held before. -/
theorem monitors_shrink_loses_no_popup (daemon : NotifyDaemonPrivate) (n_monitors : Int)
    (h1 : 1 ≤ n_monitors) (h2 : n_monitors < daemon.screen.n_stacks)
    (hlen : daemon.screen.stacks_.length = daemon.screen.n_stacks.toNat) :
    (on_screen_monitors_changed daemon n_monitors).screen.n_stacks = n_monitors ∧
    (on_screen_monitors_changed daemon n_monitors).screen.stacks_.length = n_monitors.toNat ∧
    (∀ i, i < n_monitors.toNat - 1 →
      (on_screen_monitors_changed daemon n_monitors).screen.stacks_.getD i []
        = daemon.screen.stacks_.getD i []) ∧
    (on_screen_monitors_changed daemon n_monitors).screen.stacks_.getD (n_monitors.toNat - 1) []
      = daemon.screen.stacks_.getD (n_monitors.toNat - 1) []
        ++ (daemon.screen.stacks_.drop n_monitors.toNat).flatten ∧
    (on_screen_monitors_changed daemon n_monitors).screen.stacks_.flatten
      = daemon.screen.stacks_.flatten := by
  obtain ⟨hn, hs⟩ := monitors_shrink daemon n_monitors h1 h2 hlen
  have hlt : n_monitors.toNat - 1 < daemon.screen.stacks_.length := by omega
  have hlt' : n_monitors.toNat - 1 ≤ daemon.screen.stacks_.length := by omega
  have hsucc : n_monitors.toNat - 1 + 1 = n_monitors.toNat := by omega
  refine ⟨hn, ?_, ?_, ?_, ?_⟩
  · rw [hs]
    simp only [List.length_append, List.length_take, List.length_singleton]
    omega
  · intro i hi
    rw [hs]
    simp only [List.getD_eq_getElem?_getD]
    rw [List.getElem?_append_left (by simp only [List.length_take]; omega),
      List.getElem?_take_of_lt hi]
  · rw [hs, List.getD_eq_getElem?_getD (_ ++ _),
      List.getElem?_append_right (by simp only [List.length_take]; omega)]
    simp [List.length_take, Nat.min_eq_left hlt']
  · rw [hs]
    conv_rhs => rw [← List.take_append_drop (n_monitors.toNat - 1) daemon.screen.stacks_,
      List.drop_eq_getElem_cons hlt, hsucc]
    rw [List.getD_eq_getElem _ _ hlt]
    simp

theorem monitors_shrink_loses_no_popup_witness :
    (on_screen_monitors_changed threeMonitorDaemon 2).screen.stacks_.getD 1 []
      = [103, 104, 105] := by
  have h := (monitors_shrink_loses_no_popup threeMonitorDaemon 2 (by decide) (by decide)
    (by decide)).2.2.2.1
  simpa [threeMonitorDaemon] using h

/-! ## C16: the monitor index handed to the stack -/

/-- C16 fails on the code at a negative index: with one stack (`n_stacks = 1`)
and the monitor setting at -1, the handler hands the popup to
`stacks[-1]`; the clamp of lines 1598 to 1603 tests `monitor_num >= n_stacks`
only, so the index used is not in `0 .. n_stacks - 1`. -/
theorem negative_monitor_index_is_used :
    sampleDaemon.screen.n_stacks = 1 ∧
    (notify_daemon_notify_handler 7000 strayEnv sampleDaemon sampleRequest).map
        (fun r => (r.1, r.2.trace))
      = some (Reply.return_id 3,
          [Call.theme_create_notification 121,
           Call.theme_set_notification_arrow 121 false 0 0,
           Call.notify_stack_add_window (-1) 121 true,
           Call.theme_set_notification_timeout 121 5000,
           Call.theme_show_notification 121,
           Call.theme_set_notification_timeout 121 5000]) := by
  decide

/-! ## C17: reposition requests are coalesced per id -/

theorem lookup_isSome_iff {ν : Type} (h : GHashTable ν) (key : Nat) :
    (g_hash_table_lookup h key).isSome = true ↔ key ∈ h.keys := by
  have := lookup_eq_none_iff h key
  cases hl : g_hash_table_lookup h key with
  | none => simpa [hl] using this
  | some v =>
    rw [hl] at this
    simp only [Option.isSome_some, true_iff]
    by_contra c
    exact absurd (this.2 c) (by simp)

theorem mem_keys_of_mem {ν : Type} (h : GHashTable ν) (e : Nat × ν) (he : e ∈ h) :
    e.1 ∈ h.keys := by
  simp only [GHashTable.keys, List.mem_map]
  exact ⟨e, he, rfl⟩

theorem pending_zero_of_absent (d : NotifyDaemonPrivate) (id : Nat) (hok : QueueOk d)
    (hl : (g_hash_table_lookup d.idle_reposition_notify_ids id).isSome = false) :
    pending_repositions d id = 0 := by
  unfold pending_repositions
  rw [List.countP_eq_zero]
  intro s hs hc
  have hd : debounce_id s.func = some id := by simpa using hc
  have := hok.2.2.2.2.1 s hs id (by rw [hd]; exact rfl)
  rw [this] at hl
  cases hl

theorem pending_le_one (d : NotifyDaemonPrivate) (id : Nat) (hok : QueueOk d) :
    pending_repositions d id ≤ 1 := by
  cases hl : (g_hash_table_lookup d.idle_reposition_notify_ids id).isSome with
  | false => rw [pending_zero_of_absent d id hok hl]; omega
  | true =>
    cases hv : g_hash_table_lookup d.idle_reposition_notify_ids id with
    | none => rw [hv] at hl; cases hl
    | some v =>
      have := hok.2.2.2.2.2 (id, v) (lookup_some_mem _ _ _ hv)
      simp only at this
      omega

theorem pending_one_of_present (d : NotifyDaemonPrivate) (id : Nat) (hok : QueueOk d)
    (hl : (g_hash_table_lookup d.idle_reposition_notify_ids id).isSome = true) :
    pending_repositions d id = 1 := by
  cases hv : g_hash_table_lookup d.idle_reposition_notify_ids id with
  | none => rw [hv] at hl; cases hl
  | some v => exact hok.2.2.2.2.2 (id, v) (lookup_some_mem _ _ _ hv)

theorem queue_pending_noop (d : NotifyDaemonPrivate) (id : Nat)
    (hl : (g_hash_table_lookup d.idle_reposition_notify_ids id).isSome = true) :
    _queue_idle_reposition_notification d id = d := by
  simp [_queue_idle_reposition_notification, hl]

theorem queue_records (d : NotifyDaemonPrivate) (id : Nat) :
    (g_hash_table_lookup (_queue_idle_reposition_notification d id).idle_reposition_notify_ids
      id).isSome = true := by
  cases hl : (g_hash_table_lookup d.idle_reposition_notify_ids id).isSome with
  | true => rw [queue_pending_noop d id hl]; exact hl
  | false =>
    simp [_queue_idle_reposition_notification, hl, g_timeout_add, lookup_insert_self]

theorem queue_twice (d : NotifyDaemonPrivate) (id : Nat) :
    _queue_idle_reposition_notification (_queue_idle_reposition_notification d id) id
      = _queue_idle_reposition_notification d id :=
  queue_pending_noop _ id (queue_records d id)

theorem queueOk_queue (d : NotifyDaemonPrivate) (id : Nat) (hok : QueueOk d) :
    QueueOk (_queue_idle_reposition_notification d id) := by
  cases hl : (g_hash_table_lookup d.idle_reposition_notify_ids id).isSome with
  | true => rw [queue_pending_noop d id hl]; exact hok
  | false =>
    have hp := pending_zero_of_absent d id hok hl
    have hnk : id ∉ GHashTable.keys d.idle_reposition_notify_ids := by
      intro c
      rw [(lookup_isSome_iff _ _).2 c] at hl
      cases hl
    unfold QueueOk pending_repositions at hok
    unfold pending_repositions at hp
    obtain ⟨h1, h2, h3, h4, h5, h6⟩ := hok
    simp only [_queue_idle_reposition_notification, hl, Bool.false_eq_true, if_false,
      g_timeout_add]
    unfold QueueOk pending_repositions
    dsimp only
    refine ⟨?_, ?_, ?_, ?_, ?_, ?_⟩
    · simp only [List.map_append, List.map_cons, List.map_nil]
      rw [List.nodup_append]
      refine ⟨h1, by simp, ?_⟩
      intro a ha hb
      simp only [List.mem_singleton] at hb
      simp only [List.mem_map] at ha
      obtain ⟨s, hs, rfl⟩ := ha
      have := (h2 s hs).2
      omega
    · intro s hs
      simp only [List.mem_append, List.mem_singleton] at hs
      rcases hs with hs | rfl
      · have := h2 s hs
        exact ⟨this.1, by omega⟩
      · dsimp only
        omega
    · omega
    · intro s hs he
      simp only [List.mem_append, List.mem_singleton] at hs
      rcases hs with hs | rfl
      · exact h4 s hs he
      · dsimp only at he
        omega
    · intro s hs id' hid'
      rw [lookup_isSome_iff, keys_insert]
      simp only [List.mem_append, List.mem_singleton] at hs
      rcases hs with hs | rfl
      · left
        exact (lookup_isSome_iff _ _).1 (h5 s hs id' hid')
      · right
        simpa [debounce_id] using hid'.symm
    · intro e he
      simp only [List.countP_append, List.countP_cons, List.countP_nil]
      rcases mem_insert _ _ _ _ he with rfl | he'
      · dsimp only
        rw [hp]
        simp [debounce_id]
      · have hne : id ≠ e.1 := by
          intro c
          exact hnk (c ▸ mem_keys_of_mem _ e he')
        rw [h6 e he']
        simp [debounce_id, hne]

theorem queueOk_congr (d d2 : NotifyDaemonPrivate) (hs : d2.sources = d.sources)
    (hn : d2.next_source_id = d.next_source_id)
    (he : d2.exit_timeout_source = d.exit_timeout_source)
    (hi : d2.idle_reposition_notify_ids = d.idle_reposition_notify_ids) (hok : QueueOk d) :
    QueueOk d2 := by
  unfold QueueOk pending_repositions at *
  rw [hs, hn, he, hi]
  exact hok

theorem countP_remove_source (p : GSource → Bool) :
    ∀ (l : List GSource) (s : GSource), (l.map (fun t => t.id)).Nodup → s ∈ l →
      (l.filter (fun t => decide (t.id ≠ s.id))).countP p + (if p s = true then 1 else 0)
        = l.countP p := by
  intro l
  induction l with
  | nil => intro s _ hs; cases hs
  | cons a rest ih =>
    intro s hnd hs
    simp only [List.map_cons, List.nodup_cons, List.mem_map, not_exists, not_and] at hnd
    rcases List.mem_cons.1 hs with rfl | hs'
    · have hkeep : rest.filter (fun t => decide (t.id ≠ s.id)) = rest := by
        rw [List.filter_eq_self]
        intro t ht
        have := hnd.1 t ht
        simpa using this
      rw [List.filter_cons, if_neg (by simp), hkeep, List.countP_cons]
    · have hne : a.id ≠ s.id := fun c => hnd.1 s hs' c.symm
      have := ih s hnd.2 hs'
      rw [List.filter_cons, if_pos (by simpa using hne), List.countP_cons, List.countP_cons]
      omega

theorem countP_remove_other (p : GSource → Bool) (tag : Nat) :
    ∀ (l : List GSource), (∀ t ∈ l, t.id = tag → p t = false) →
      (l.filter (fun t => decide (t.id ≠ tag))).countP p = l.countP p := by
  intro l
  induction l with
  | nil => intro _; rfl
  | cons a rest ih =>
    intro h
    have hr := ih (fun t ht => h t (List.mem_cons_of_mem _ ht))
    by_cases ha : a.id = tag
    · have := h a (List.mem_cons_self _ _) ha
      rw [List.filter_cons, if_neg (by simpa using ha), List.countP_cons, hr, this]
      simp
    · rw [List.filter_cons, if_pos (by simpa using ha), List.countP_cons, List.countP_cons, hr]

theorem queueOk_fire (d d1 : NotifyDaemonPrivate) (s : GSource) (id : Nat) (hs : s ∈ d.sources)
    (hf : s.func = SourceFunc.idle_reposition_notification id) (hok : QueueOk d)
    (hs1 : d1.sources = d.sources) (hn1 : d1.next_source_id = d.next_source_id)
    (he1 : d1.exit_timeout_source = d.exit_timeout_source)
    (hi1 : d1.idle_reposition_notify_ids = g_hash_table_remove d.idle_reposition_notify_ids id) :
    QueueOk (g_source_remove d1 s.id) ∧ pending_repositions (g_source_remove d1 s.id) id = 0 := by
  have hone : pending_repositions d id = 1 :=
    pending_one_of_present d id hok (hok.2.2.2.2.1 s hs id (by rw [hf]; exact rfl))
  unfold QueueOk pending_repositions at hok
  unfold pending_repositions at hone
  obtain ⟨h1, h2, h3, h4, h5, h6⟩ := hok
  have hcount : ∀ id2, (d.sources.filter (fun t => decide (t.id ≠ s.id))).countP
        (fun t => decide (debounce_id t.func = some id2))
      + (if id = id2 then 1 else 0)
      = d.sources.countP (fun t => decide (debounce_id t.func = some id2)) := by
    intro id2
    have := countP_remove_source (fun t => decide (debounce_id t.func = some id2)) d.sources s
      h1 hs
    simpa [hf, debounce_id] using this
  have hzero := hcount id
  rw [hone] at hzero
  simp only [if_true] at hzero
  unfold QueueOk pending_repositions g_source_remove
  dsimp only
  rw [hs1, hn1, he1, hi1]
  refine ⟨⟨?_, ?_, h3, ?_, ?_, ?_⟩, by omega⟩
  · exact h1.sublist (List.Sublist.map _ (List.filter_sublist _))
  · intro t ht
    exact h2 t (List.mem_of_mem_filter ht)
  · intro t ht
    exact h4 t (List.mem_of_mem_filter ht)
  · intro t ht id2 hid2
    have hne : id2 ≠ id := by
      rintro rfl
      have hpos : 0 < (d.sources.filter (fun t => decide (t.id ≠ s.id))).countP
          (fun t => decide (debounce_id t.func = some id2)) := by
        rw [List.countP_pos_iff]
        exact ⟨t, ht, by simpa using Option.mem_def.1 hid2⟩
      omega
    rw [lookup_isSome_iff, keys_remove, List.mem_filter]
    exact ⟨(lookup_isSome_iff _ _).1 (h5 t (List.mem_of_mem_filter ht) id2 hid2),
      by simpa using hne⟩
  · intro e he
    have he2 : e ∈ d.idle_reposition_notify_ids ∧ e.1 ≠ id := by
      simpa [g_hash_table_remove] using he
    have h := hcount e.1
    rw [h6 e he2.1] at h
    have hne : ¬ id = e.1 := fun c => he2.2 c.symm
    simp only [hne, if_false] at h
    omega

theorem queueOk_of_view (d d2 : NotifyDaemonPrivate) (h : queue_view d2 = queue_view d)
    (hok : QueueOk d) : QueueOk d2 := by
  simp only [queue_view, Prod.mk.injEq] at h
  exact queueOk_congr d d2 h.1 h.2.1 h.2.2.1 h.2.2.2 hok

theorem queueOk_source_remove (d : NotifyDaemonPrivate) (tag : Nat)
    (h : ∀ t ∈ d.sources, t.id = tag → debounce_id t.func = none) (hok : QueueOk d) :
    QueueOk (g_source_remove d tag) := by
  unfold QueueOk pending_repositions at hok
  obtain ⟨h1, h2, h3, h4, h5, h6⟩ := hok
  unfold QueueOk pending_repositions g_source_remove
  dsimp only
  refine ⟨?_, ?_, h3, ?_, ?_, ?_⟩
  · exact h1.sublist (List.Sublist.map _ (List.filter_sublist _))
  · intro t ht
    exact h2 t (List.mem_of_mem_filter ht)
  · intro t ht
    exact h4 t (List.mem_of_mem_filter ht)
  · intro t ht
    exact h5 t (List.mem_of_mem_filter ht)
  · intro e he
    rw [countP_remove_other _ tag d.sources]
    · exact h6 e he
    · intro t ht hid
      simp [h t ht hid]

theorem queueOk_timeout_add (d : NotifyDaemonPrivate) (interval : Nat) (func : SourceFunc)
    (hf : debounce_id func = none) (hok : QueueOk d) :
    QueueOk (g_timeout_add d interval func).2 := by
  unfold QueueOk pending_repositions at hok
  obtain ⟨h1, h2, h3, h4, h5, h6⟩ := hok
  unfold QueueOk pending_repositions g_timeout_add
  dsimp only
  refine ⟨?_, ?_, by omega, ?_, ?_, ?_⟩
  · simp only [List.map_append, List.map_cons, List.map_nil]
    rw [List.nodup_append]
    refine ⟨h1, by simp, ?_⟩
    intro a ha hb
    simp only [List.mem_singleton] at hb
    simp only [List.mem_map] at ha
    obtain ⟨s, hs, rfl⟩ := ha
    have := (h2 s hs).2
    omega
  · intro s hs
    simp only [List.mem_append, List.mem_singleton] at hs
    rcases hs with hs | rfl
    · have := h2 s hs
      exact ⟨this.1, by omega⟩
    · dsimp only
      omega
  · intro s hs he
    simp only [List.mem_append, List.mem_singleton] at hs
    rcases hs with hs | rfl
    · exact h4 s hs he
    · exact hf
  · intro s hs id hid
    simp only [List.mem_append, List.mem_singleton] at hs
    rcases hs with hs | rfl
    · exact h5 s hs id hid
    · dsimp only at hid
      rw [hf] at hid
      cases hid
  · intro e he
    simp only [List.countP_append, List.countP_cons, List.countP_nil]
    rw [h6 e he, hf]
    simp

theorem queueOk_add_exit_timeout (d : NotifyDaemonPrivate) (hok : QueueOk d) :
    QueueOk (add_exit_timeout d) := by
  by_cases h0 : d.exit_timeout_source > 0
  · simp only [add_exit_timeout, h0, if_true]; exact hok
  · have hadd := queueOk_timeout_add d (IDLE_SECONDS * 1000) SourceFunc.do_exit rfl hok
    have h2 := hok.2.1
    simp only [add_exit_timeout, h0, if_false]
    unfold QueueOk pending_repositions at hadd ⊢
    unfold g_timeout_add at hadd ⊢
    dsimp only at hadd ⊢
    obtain ⟨a1, a2, a3, a4, a5, a6⟩ := hadd
    refine ⟨a1, a2, by omega, ?_, a5, a6⟩
    intro s hs he
    simp only [List.mem_append, List.mem_singleton] at hs
    rcases hs with hs | rfl
    · have := (h2 s hs).2
      omega
    · rfl

theorem queueOk_remove_exit_timeout (d : NotifyDaemonPrivate) (hok : QueueOk d) :
    QueueOk (remove_exit_timeout d) := by
  by_cases h0 : d.exit_timeout_source = 0
  · simp only [remove_exit_timeout, h0, if_true]; exact hok
  · have hrem := queueOk_source_remove d d.exit_timeout_source hok.2.2.2.1 hok
    simp only [remove_exit_timeout, h0, if_false]
    unfold QueueOk pending_repositions at hrem ⊢
    unfold g_source_remove at hrem ⊢
    dsimp only at hrem ⊢
    obtain ⟨a1, a2, a3, a4, a5, a6⟩ := hrem
    refine ⟨a1, a2, by omega, ?_, a5, a6⟩
    intro s hs he
    have := (a2 s hs).1
    omega

theorem queueOk_calculate_timeout (D : Int) (d : NotifyDaemonPrivate) (nt : NotifyTimeout)
    (timeout : Int) (now : GTimeVal) (hok : QueueOk d) :
    QueueOk (_calculate_timeout D d nt timeout now).2 := by
  by_cases h0 : timeout = 0
  · simp only [_calculate_timeout, h0, if_true]; exact hok
  · by_cases hs : d.timeout_source = 0
    · have hadd := queueOk_timeout_add
        (d.call (Call.theme_set_notification_timeout nt.nw
          (if timeout = -1 then D else timeout))) 100 SourceFunc._check_expiration rfl
        (queueOk_of_view d _ rfl hok)
      simp only [_calculate_timeout, h0, if_false, NotifyDaemonPrivate.call, hs, if_true]
      exact queueOk_of_view _ _ rfl hadd
    · simp only [_calculate_timeout, h0, if_false, NotifyDaemonPrivate.call, hs]
      exact queueOk_of_view d _ rfl hok

theorem queueOk_close_notification (d : NotifyDaemonPrivate) (id : Nat) (hide : Bool)
    (reason : NotifydClosedReason) (hok : QueueOk d) :
    QueueOk (_close_notification d id hide reason) := by
  cases hl : g_hash_table_lookup d.notification_hash id with
  | none => rw [close_notification_absent d id hide reason hl]; exact hok
  | some nt =>
    simp only [_close_notification, hl]
    cases hide <;> split_ifs <;>
      first
        | exact queueOk_add_exit_timeout _ (queueOk_of_view d _ rfl hok)
        | exact queueOk_of_view d _ rfl hok

theorem queueOk_check_expiration (clock : Nat → GTimeVal) (d : NotifyDaemonPrivate) (hok : QueueOk d) :
    QueueOk (_check_expiration clock d).2 := by
  unfold _check_expiration
  simp only [sweep_eq]
  split_ifs <;>
    first
      | exact queueOk_add_exit_timeout _ (queueOk_of_view d _ rfl hok)
      | exact queueOk_of_view d _ rfl hok

theorem queueOk_store_notification (D : Int) (d d2 : NotifyDaemonPrivate) (nw : Nat)
    (timeout : Int) (now : GTimeVal) (nt : NotifyTimeout) (hok : QueueOk d)
    (h : _store_notification D d nw timeout now = some (nt, d2)) : QueueOk d2 := by
  unfold _store_notification at h
  split at h
  · cases h
  · rename_i id next_id _
    simp only [Option.some.injEq, Prod.mk.injEq] at h
    rw [← h.2]
    apply queueOk_remove_exit_timeout
    have hc := queueOk_calculate_timeout D { d with next_id := next_id }
      { NotifyTimeout.zero with id := id, nw := nw } timeout now (queueOk_of_view d _ rfl hok)
    exact queueOk_of_view _ _ rfl hc

theorem notify_stack_add_window_view (d : NotifyDaemonPrivate) (stack : Int) (nw : Nat)
    (b : Bool) : queue_view (notify_stack_add_window d stack nw b) = queue_view d := by
  unfold notify_stack_add_window
  split_ifs <;> rfl

theorem place_notification_view (env : NotifyEnv) (d : NotifyDaemonPrivate) (req : NotifyRequest)
    (nw : Nat) (b : Bool) : queue_view (place_notification env d req nw b) = queue_view d := by
  simp only [place_notification]
  split_ifs <;> first | rfl | (rw [notify_stack_add_window_view]; rfl)

theorem sync_notification_position_view (x : XServer) (d : NotifyDaemonPrivate) (nw source : Nat) :
    queue_view (sync_notification_position x d nw source) = queue_view d := by
  unfold sync_notification_position
  cases x.XGetGeometry source with
  | none => rfl
  | some g =>
    cases x.XTranslateCoordinates source with
    | none => rfl
    | some c => rfl

theorem monitor_walk_view (x : XServer) (id : Nat) :
    ∀ (fuel parent root : Nat) (d d2 : NotifyDaemonPrivate),
      monitor_walk x id fuel parent root d = some d2 → queue_view d2 = queue_view d := by
  intro fuel
  induction fuel with
  | zero => intro p r d d2 h; simp [monitor_walk] at h
  | succ f ih =>
    intro p r d d2 h
    by_cases hc : p ≠ 0 ∧ r ≠ p
    · rw [monitor_walk, if_pos hc] at h
      rw [ih _ _ _ _ h]
      rfl
    · rw [monitor_walk, if_neg hc] at h
      simp only [Option.some.injEq] at h
      rw [h]

theorem monitor_notification_source_windows_view (x : XServer) (d d2 : NotifyDaemonPrivate)
    (key source : Nat) (h : monitor_notification_source_windows x d key source = some d2) :
    queue_view d2 = queue_view d := by
  cases hl : g_hash_table_lookup d.notification_hash key with
  | none =>
    by_cases h0 : g_hash_table_size d.monitored_window_hash = 0 <;>
      simp [monitor_notification_source_windows, h0, hl] at h
  | some nt =>
    by_cases h0 : g_hash_table_size d.monitored_window_hash = 0
    · simp only [monitor_notification_source_windows, h0, if_true, hl] at h
      rw [monitor_walk_view x _ _ _ _ _ _ h]
      rfl
    · simp only [monitor_notification_source_windows, h0, if_false, hl] at h
      rw [monitor_walk_view x _ _ _ _ _ _ h]
      rfl

theorem queueOk_notify_finish (D : Int) (env : NotifyEnv) (d d2 : NotifyDaemonPrivate)
    (req : NotifyRequest) (nw id rid : Nat) (r : Reply) (hok : QueueOk d)
    (h : notify_finish D env d req nw id rid = some (r, d2)) : QueueOk d2 := by
  unfold notify_finish at h
  -- the state after lines 1624 to 1628
  have htr : ∀ dT, (if req.hint_window_xid.getD 0 ≠ 0 ∧ env.always_stack = false then
        (monitor_notification_source_windows env.xserver d rid (req.hint_window_xid.getD 0)).map
          (fun daemon => sync_notification_position env.xserver daemon nw
            (req.hint_window_xid.getD 0))
      else some d) = some dT → QueueOk dT := by
    intro dT hT
    split_ifs at hT with hc
    · cases hm : monitor_notification_source_windows env.xserver d rid
          (req.hint_window_xid.getD 0) with
      | none => rw [hm] at hT; cases hT
      | some dM =>
        rw [hm] at hT
        simp only [Option.map_some', Option.some.injEq] at hT
        rw [← hT]
        apply queueOk_of_view dM _ (sync_notification_position_view _ _ _ _)
        exact queueOk_of_view d _ (monitor_notification_source_windows_view _ _ _ _ _ hm) hok
    · simp only [Option.some.injEq] at hT
      rw [← hT]; exact hok
  simp only at h
  split at h
  · cases h
  · rename_i dT hT
    have hokT := htr dT hT
    split at h
    · cases h
    · rename_i nt hnt
      simp only [Option.some.injEq, Prod.mk.injEq] at h
      rw [← h.2]
      apply queueOk_of_view _ _ rfl
        (queueOk_calculate_timeout D _ nt req.timeout env.now ?_)
      apply queueOk_of_view _ _ rfl (?_ : QueueOk (if nt.has_timeout = false ∨
            (env.screensaver_active = false ∧ env.fullscreen_window_exists = false) then
          (if req.sound_file then
            (dT.call (Call.theme_show_notification nw)).call (Call.sound_play_file nw)
          else dT.call (Call.theme_show_notification nw))
        else (g_timeout_add dT 0 (SourceFunc._close_notification_not_shown id)).2))
      split_ifs
      · exact queueOk_of_view dT _ rfl hokT
      · exact queueOk_of_view dT _ rfl hokT
      · exact queueOk_timeout_add dT 0 _ rfl hokT

theorem queueOk_notify (D : Int) (env : NotifyEnv) (daemon d1 : NotifyDaemonPrivate)
    (req : NotifyRequest) (r : Reply) (hok : QueueOk daemon)
    (h : notify_daemon_notify_handler D env daemon req = some (r, d1)) : QueueOk d1 := by
  unfold notify_daemon_notify_handler at h
  split at h
  · simp only [Option.some.injEq, Prod.mk.injEq] at h
    rw [← h.2]; exact hok
  · simp only [] at h
    split at h
    · rename_i nt hfound
      refine queueOk_notify_finish D env _ d1 req _ req.id req.id r ?_ h
      apply queueOk_of_view _ _ (place_notification_view _ _ _ _ _)
      split_ifs <;> exact queueOk_of_view daemon _ rfl hok
    · split at h
      · cases h
      · rename_i nt d2 hstore
        refine queueOk_notify_finish D env d2 d1 req env.new_nw 0 nt.id r ?_ h
        refine queueOk_store_notification D _ d2 _ _ _ nt ?_ hstore
        apply queueOk_of_view _ _ (place_notification_view _ _ _ _ _)
        exact queueOk_of_view daemon _ rfl hok

theorem queueOk_close_handler (d : NotifyDaemonPrivate) (id : Nat) (hok : QueueOk d) :
    QueueOk (notify_daemon_close_notification_handler d id).2.2 := by
  unfold notify_daemon_close_notification_handler
  split_ifs
  · exact hok
  · exact queueOk_close_notification d id true _ hok

theorem queueOk_mouse_entered (d d2 : NotifyDaemonPrivate) (nw : Nat) (inferior : Bool)
    (now : GTimeVal) (hok : QueueOk d) (h : _mouse_entered_cb d nw inferior now = some d2) :
    QueueOk d2 := by
  cases inferior with
  | true => simp only [_mouse_entered_cb, if_true, Option.some.injEq] at h; rw [← h]; exact hok
  | false =>
    cases hl : g_hash_table_lookup d.notification_hash (NW_GET_NOTIFY_ID d nw) with
    | none => simp [_mouse_entered_cb, hl] at h
    | some nt =>
      simp only [_mouse_entered_cb, hl, Bool.false_eq_true, if_false, Option.some.injEq] at h
      rw [← h]
      exact queueOk_of_view d _ rfl hok

theorem queueOk_mouse_exitted (d d2 : NotifyDaemonPrivate) (nw : Nat) (inferior : Bool)
    (hok : QueueOk d) (h : _mouse_exitted_cb d nw inferior = some d2) : QueueOk d2 := by
  cases inferior with
  | true => simp only [_mouse_exitted_cb, if_true, Option.some.injEq] at h; rw [← h]; exact hok
  | false =>
    cases hl : g_hash_table_lookup d.notification_hash (NW_GET_NOTIFY_ID d nw) with
    | none => simp [_mouse_exitted_cb, hl] at h
    | some nt =>
      simp only [_mouse_exitted_cb, hl, Bool.false_eq_true, if_false, Option.some.injEq] at h
      rw [← h]
      exact queueOk_of_view d _ rfl hok

theorem transfer_windows_view (last_stack : Int) :
    ∀ (ws : List Nat) (d : NotifyDaemonPrivate),
      queue_view (transfer_windows last_stack ws d) = queue_view d := by
  intro ws
  induction ws with
  | nil => intro d; rfl
  | cons w rest ih =>
    intro d
    rw [transfer_windows, ih, notify_stack_add_window_view]

theorem transfer_stacks_view (last_stack : Int) :
    ∀ (count i : Nat) (d : NotifyDaemonPrivate),
      queue_view (transfer_stacks last_stack i count d) = queue_view d := by
  intro count
  induction count with
  | zero => intro i d; rfl
  | succ c ih =>
    intro i d
    rw [transfer_stacks]
    simp only
    rw [ih]
    exact transfer_windows_view last_stack _ d

theorem add_stacks_view : ∀ (count i : Nat) (d : NotifyDaemonPrivate),
    queue_view (add_stacks i count d) = queue_view d := by
  intro count
  induction count with
  | zero => intro i d; rfl
  | succ c ih =>
    intro i d
    rw [add_stacks, ih]
    rfl

theorem on_screen_monitors_changed_view (d : NotifyDaemonPrivate) (n_monitors : Int) :
    queue_view (on_screen_monitors_changed d n_monitors) = queue_view d := by
  unfold on_screen_monitors_changed
  simp only
  split_ifs
  · have := add_stacks_view (n_monitors - d.screen.n_stacks).toNat d.screen.n_stacks.toNat
      { d with screen := { d.screen with
          stacks_ := d.screen.stacks_ ++ List.replicate (n_monitors - d.screen.n_stacks).toNat [] } }
    simp only [queue_view] at this ⊢
    exact this
  · have := transfer_stacks_view (n_monitors - 1) (d.screen.n_stacks - n_monitors).toNat
      n_monitors.toNat d
    simp only [queue_view] at this ⊢
    exact this
  · rfl

theorem queueOk_remove_member (d : NotifyDaemonPrivate) (s : GSource) (hs : s ∈ d.sources)
    (hf : debounce_id s.func = none) (hok : QueueOk d) : QueueOk (g_source_remove d s.id) := by
  apply queueOk_source_remove d s.id _ hok
  intro t ht hid
  have := List.inj_on_of_nodup_map hok.1 ht hs hid
  rw [this]; exact hf

theorem add_exit_timeout_sources_mem (d : NotifyDaemonPrivate) (s : GSource) (hs : s ∈ d.sources) :
    s ∈ (add_exit_timeout d).sources := by
  by_cases h0 : d.exit_timeout_source > 0
  · simp only [add_exit_timeout, h0, if_true]; exact hs
  · simp only [add_exit_timeout, h0, if_false, g_timeout_add]
    exact List.mem_append_left _ hs

theorem close_notification_sources_mem (d : NotifyDaemonPrivate) (id : Nat) (hide : Bool)
    (reason : NotifydClosedReason) (s : GSource) (hs : s ∈ d.sources) :
    s ∈ (_close_notification d id hide reason).sources := by
  cases hl : g_hash_table_lookup d.notification_hash id with
  | none => rw [close_notification_absent d id hide reason hl]; exact hs
  | some nt =>
    simp only [_close_notification, hl]
    cases hide <;> split_ifs <;>
      first
        | exact add_exit_timeout_sources_mem _ s hs
        | exact hs

theorem check_expiration_sources_mem (clock : Nat → GTimeVal) (d : NotifyDaemonPrivate) (s : GSource)
    (hs : s ∈ d.sources) : s ∈ (_check_expiration clock d).2.sources := by
  unfold _check_expiration
  simp only [sweep_eq]
  split_ifs <;>
    first
      | exact add_exit_timeout_sources_mem _ s hs
      | exact hs

theorem idle_reposition_notification_queue (x : XServer) (d : NotifyDaemonPrivate) (id : Nat) :
    (idle_reposition_notification x d id).1 = false ∧
    (idle_reposition_notification x d id).2.sources = d.sources ∧
    (idle_reposition_notification x d id).2.next_source_id = d.next_source_id ∧
    (idle_reposition_notification x d id).2.exit_timeout_source = d.exit_timeout_source ∧
    (idle_reposition_notification x d id).2.idle_reposition_notify_ids
      = g_hash_table_remove d.idle_reposition_notify_ids id := by
  unfold idle_reposition_notification
  cases g_hash_table_lookup d.notification_hash id with
  | none => exact ⟨rfl, rfl, rfl, rfl, rfl⟩
  | some nt =>
    have h := sync_notification_position_view x d nt.nw nt.src_window_xid
    simp only [queue_view, Prod.mk.injEq] at h
    simp only
    exact ⟨trivial, h.1, h.2.1, h.2.2.1, by rw [h.2.2.2]⟩

theorem queueOk_dispatch (x : XServer) (clock : Nat → GTimeVal) (d d2 : NotifyDaemonPrivate)
    (s : GSource) (hs : s ∈ d.sources) (hok : QueueOk d) (h : dispatch x clock d s = some d2) :
    QueueOk d2 := by
  unfold dispatch at h
  split at h
  · cases h
  · rename_i hfunc
    simp only [Option.some.injEq] at h
    rw [← h]
    split_ifs
    · exact queueOk_check_expiration clock d hok
    · exact queueOk_remove_member _ s (check_expiration_sources_mem clock d s hs)
        (by rw [hfunc]; rfl) (queueOk_check_expiration clock d hok)
  · rename_i id hfunc
    simp only [Option.some.injEq] at h
    rw [← h]
    obtain ⟨hr, q1, q2, q3, q4⟩ := idle_reposition_notification_queue x d id
    rw [hr]
    simp only [Bool.false_eq_true, if_false]
    exact (queueOk_fire d _ s id hs hfunc hok q1 q2 q3 q4).1
  · rename_i id hfunc
    simp only [Option.some.injEq] at h
    rw [← h]
    simp only [_close_notification_not_shown, Bool.false_eq_true, if_false]
    exact queueOk_remove_member _ s (close_notification_sources_mem d id true _ s hs)
      (by rw [hfunc]; rfl) (queueOk_close_notification d id true _ hok)

theorem queueOk_x11_filter (x : XServer) (d d2 : NotifyDaemonPrivate) (type : XEventType)
    (window : Nat) (hok : QueueOk d) (h : _notify_x11_filter x d type window = some d2) :
    QueueOk d2 := by
  by_cases h1 : type = XEventType.DestroyNotify
  · simp only [_notify_x11_filter, h1, if_true] at h
    split_ifs at h <;>
      (simp only [Option.some.injEq] at h; rw [← h]; exact queueOk_of_view d _ rfl hok)
  · cases hw : g_hash_table_lookup d.monitored_window_hash window with
    | none =>
      simp only [_notify_x11_filter, h1, if_false, hw, Option.some.injEq] at h
      rw [← h]; exact hok
    | some notify_id =>
      by_cases h2 : type = XEventType.ConfigureNotify ∨ type = XEventType.MapNotify
      · simp only [_notify_x11_filter, h1, if_false, hw, h2, if_true, Option.some.injEq] at h
        rw [← h]; exact queueOk_queue d notify_id hok
      · by_cases h3 : type = XEventType.ReparentNotify
        · subst h3
          cases hn : g_hash_table_lookup d.notification_hash notify_id with
          | none =>
            simp [_notify_x11_filter, hw, hn] at h
            rw [← h]; exact hok
          | some nt =>
            simp [_notify_x11_filter, hw, hn] at h
            obtain ⟨dM, hm, hd⟩ := h
            rw [← hd]
            apply queueOk_of_view dM _ (sync_notification_position_view _ _ _ _)
            exact queueOk_of_view d _
              (monitor_notification_source_windows_view _ _ _ _ _ hm) hok
        · simp only [_notify_x11_filter, h1, if_false, hw, h2, h3, Option.some.injEq] at h
          rw [← h]; exact hok

theorem queueOk_init (n_monitors : Nat) : QueueOk (notify_daemon_init n_monitors) := by
  have h : QueueOk (add_exit_timeout
      { NotifyDaemonPrivate.zero with next_id := 1, timeout_source := 0 }) :=
    queueOk_add_exit_timeout _ (by decide)
  exact queueOk_of_view _ _ rfl h

theorem queueOk_running (D : Int) (d : NotifyDaemonPrivate) (h : Running D d) : QueueOk d := by
  induction h with
  | init n => exact queueOk_init n
  | notify env req _ hn ih => exact queueOk_notify D env _ _ req _ ih hn
  | close id _ ih => exact queueOk_close_handler _ id ih
  | x11_event x type window _ hx ih => exact queueOk_x11_filter x _ _ type window ih hx
  | mouse_entered nw inferior clock _ hm ih => exact queueOk_mouse_entered _ _ nw inferior clock ih hm
  | mouse_exitted nw inferior _ hm ih => exact queueOk_mouse_exitted _ _ nw inferior ih hm
  | monitors_changed n _ ih =>
    exact queueOk_of_view _ _ (on_screen_monitors_changed_view _ n) ih
  | dispatch x clock source _ hs hd ih => exact queueOk_dispatch x clock _ _ source hs ih hd

theorem sync_count_sync (x : XServer) (d : NotifyDaemonPrivate) (nw source : Nat) :
    sync_count (sync_notification_position x d nw source).trace ≤ sync_count d.trace + 1 := by
  unfold sync_notification_position
  cases x.XGetGeometry source with
  | none => simp
  | some g =>
    cases x.XTranslateCoordinates source with
    | none => simp
    | some c => simp [NotifyDaemonPrivate.call, sync_count, List.countP_append, List.countP_cons]

theorem sync_count_idle_reposition (x : XServer) (d : NotifyDaemonPrivate) (id : Nat) :
    sync_count (idle_reposition_notification x d id).2.trace ≤ sync_count d.trace + 1 := by
  unfold idle_reposition_notification
  cases g_hash_table_lookup d.notification_hash id with
  | none => simp
  | some nt => exact sync_count_sync x d nt.nw nt.src_window_xid

theorem queue_trace (d : NotifyDaemonPrivate) (id : Nat) :
    (_queue_idle_reposition_notification d id).trace = d.trace := by
  unfold _queue_idle_reposition_notification
  split_ifs <;> rfl

/-- C18 fails on the code for a new notification: while the screensaver is
active, a request for a new notification with a timeout of 5 s returns id 3 and
queues `_close_notification_not_shown` with `data->id = 0`, the local `id`, not
the id returned; when the main loop dispatches that source, entry 3 is still in
the registry, no `NotificationClosed` has been emitted, and the source is
gone. -/
theorem pending_close_closes_nothing :
    (notify_daemon_notify_handler 7000 suppressedEnv sampleDaemon sampleRequest).bind
        (fun r => r.2.sources.getLast?.bind (fun s =>
          (dispatch sampleXServer (fun _ => { tv_sec := 15, tv_usec := 0 }) r.2 s).map (fun d =>
            (r.1, s.func, d.notification_hash.keys, d.trace.filter is_closed_signal,
              d.sources.map (fun s => s.func)))))
      = some (Reply.return_id 3, SourceFunc._close_notification_not_shown 0, [1, 2, 3], [],
          [SourceFunc._check_expiration]) := by
  decide

/-! ## C19: placement precedence -/

/-- C19, as stated, fails: the hints `window-xid = 0`, `x = 5`, `y = 6` contain
no non-zero window-xid and both `x` and `y`, and the theme is not always-stack,
yet the popup is not moved to (5, 6): it is added to the stack of monitor 0. -/
theorem xy_hints_ignored_beside_zero_xid :
    zeroXidRequest.hint_window_xid.getD 0 = 0 ∧
    zeroXidRequest.hint_x = some 5 ∧ zeroXidRequest.hint_y = some 6 ∧
    sampleEnv.always_stack = false ∧
    (place_notification sampleEnv sampleDaemon zeroXidRequest 121 true).trace
      = [Call.theme_set_notification_arrow 121 false 0 0,
         Call.notify_stack_add_window 0 121 true] ∧
    (place_notification sampleEnv sampleDaemon zeroXidRequest 121 true).screen.stacks_
      = [[121]] := by
  decide

/-- C19, amended: if the hints contain a non-zero "window-xid" (and the theme
is not always-stack) the popup is placed in no stack and nowhere else at first,
and the finishing part of the handler anchors it, tracking the source window and
syncing the position to it, whatever x/y hints are present; otherwise, if the
hints contain no "window-xid" entry at all and both "x" and "y" (and the theme
is not always-stack), the popup gets the arrow and is moved to (x, y) and is
added to no stack; in every other case, a "window-xid" hint of 0 included, it
is added to the monitor stack chosen from the active-monitor or fixed-monitor
preference; and without a non-zero "window-xid" no source window is tracked. -/
theorem placement_precedence (D : Int) (env : NotifyEnv) (daemon : NotifyDaemonPrivate)
    (req : NotifyRequest) (nw id return_id : Nat) (new_notification : Bool) :
    (req.hint_window_xid.getD 0 ≠ 0 ∧ env.always_stack = false →
      place_notification env daemon req nw new_notification = daemon ∧
      notify_finish D env daemon req nw id return_id
        = ((monitor_notification_source_windows env.xserver daemon return_id
              (req.hint_window_xid.getD 0)).map
            (fun d => sync_notification_position env.xserver d nw
              (req.hint_window_xid.getD 0))).bind
            (fun d => notify_finish D env d { req with hint_window_xid := none } nw id
              return_id)) ∧
    (req.hint_window_xid = none ∧ req.hint_x.isSome = true ∧ req.hint_y.isSome = true ∧
        env.always_stack = false →
      place_notification env daemon req nw new_notification
        = (daemon.call (Call.theme_set_notification_arrow nw true (req.hint_x.getD 0)
            (req.hint_y.getD 0))).call
            (Call.theme_move_notification nw (req.hint_x.getD 0) (req.hint_y.getD 0))) ∧
    (¬ (req.hint_window_xid.getD 0 ≠ 0 ∧ env.always_stack = false) ∧
        ¬ (req.hint_window_xid = none ∧ req.hint_x.isSome = true ∧ req.hint_y.isSome = true ∧
            env.always_stack = false) →
      place_notification env daemon req nw new_notification
        = notify_stack_add_window (daemon.call (Call.theme_set_notification_arrow nw false 0 0))
            (if (if env.use_active then env.pointer_monitor else env.monitor_number)
                ≥ daemon.screen.n_stacks
              then daemon.screen.n_stacks - 1
              else (if env.use_active then env.pointer_monitor else env.monitor_number))
            nw new_notification) ∧
    (¬ (req.hint_window_xid.getD 0 ≠ 0 ∧ env.always_stack = false) →
      notify_finish D env daemon req nw id return_id
        = notify_finish D env daemon { req with hint_window_xid := none } nw id return_id) := by
  refine ⟨?_, ?_, ?_, ?_⟩
  · intro h
    refine ⟨by simp [place_notification, h], ?_⟩
    simp only [notify_finish, h, and_self, ne_eq, not_false_eq_true, if_true]
    cases monitor_notification_source_windows env.xserver daemon return_id
        (req.hint_window_xid.getD 0) with
    | none => simp
    | some d => simp
  · rintro ⟨h1, h2, h3, h4⟩
    simp [place_notification, h1, h2, h3, h4]
  · rintro ⟨h1, h2⟩
    have hu : ¬ ((req.hint_window_xid.isNone && req.hint_x.isSome && req.hint_y.isSome) = true
        ∧ env.always_stack = false) := by
      intro c
      apply h2
      simp only [Bool.and_eq_true, Option.isNone_iff_eq_none] at c
      exact ⟨c.1.1.1, c.1.1.2, c.1.2, c.2⟩
    simp only [place_notification, h1, hu, if_false, NotifyDaemonPrivate.call]
  · intro h
    simp only [notify_finish, h, if_false, Option.getD_none, ne_eq, not_true_eq_false, false_and]

/-! ## C20: the allocator returns the first unused id in cyclic order -/

theorem next_candidate_range (n : Nat) (h1 : 1 ≤ n) (h2 : n ≤ UINT_MAX) :
    1 ≤ next_candidate n ∧ next_candidate n ≤ UINT_MAX := by
  unfold next_candidate
  split <;> omega

theorem candidate_succ (n k : Nat) : candidate n (k + 1) = candidate (next_candidate n) k := by
  simp [candidate, Function.iterate_succ]

theorem candidate_range (k : Nat) : ∀ n, 1 ≤ n → n ≤ UINT_MAX →
    1 ≤ candidate n k ∧ candidate n k ≤ UINT_MAX := by
  induction k with
  | zero => intro n h1 h2; simpa [candidate] using ⟨h1, h2⟩
  | succ k ih =>
    intro n h1 h2
    rw [candidate_succ]
    exact ih _ (next_candidate_range n h1 h2).1 (next_candidate_range n h1 h2).2

theorem candidate_reaches (u : Nat) (hu1 : 1 ≤ u) (hu2 : u ≤ UINT_MAX) :
    ∀ k n, 1 ≤ n → n ≤ UINT_MAX → cyclicDistance n u = k → candidate n k = u := by
  intro k
  induction k with
  | zero =>
    intro n h1 h2 hd
    unfold cyclicDistance at hd
    simp only [candidate, Function.iterate_zero, id_eq]
    split_ifs at hd <;> omega
  | succ k ih =>
    intro n h1 h2 hd
    rw [candidate_succ]
    apply ih _ (next_candidate_range n h1 h2).1 (next_candidate_range n h1 h2).2
    unfold cyclicDistance next_candidate UINT_MAX at *
    split_ifs at * <;> omega

theorem allocate_id_first (h : GHashTable NotifyTimeout) :
    ∀ fuel k n, k < fuel → 1 ≤ n → n ≤ UINT_MAX →
      g_hash_table_lookup h (candidate n k) = none →
      (∀ j, j < k → (g_hash_table_lookup h (candidate n j)).isSome = true) →
      allocate_id h fuel n = some (candidate n k, candidate n (k + 1)) := by
  intro fuel
  induction fuel with
  | zero => intro k n hk; omega
  | succ f ih =>
    intro k n hk h1 h2 hfree hlive
    cases k with
    | zero =>
      have hl : g_hash_table_lookup h n = none := by simpa [candidate] using hfree
      have hn0 : n ≠ 0 := by omega
      simp [allocate_id, hl, hn0, candidate, next_candidate]
    | succ k =>
      have h0 := hlive 0 (by omega)
      simp only [candidate, Function.iterate_zero, id_eq] at h0
      have hstep : allocate_id h (f + 1) n = allocate_id h f (next_candidate n) := by
        simp [allocate_id, h0, next_candidate]
      rw [hstep, candidate_succ, candidate_succ n (k + 1)]
      apply ih k _ (by omega) (next_candidate_range n h1 h2).1 (next_candidate_range n h1 h2).2
      · rw [← candidate_succ]; exact hfree
      · intro j hj
        rw [← candidate_succ]
        exact hlive (j + 1) (by omega)

theorem first_free_candidate (h : GHashTable NotifyTimeout) (n : Nat) (h1 : 1 ≤ n)
    (h2 : n ≤ UINT_MAX)
    (hfree : ∃ u, 1 ≤ u ∧ u ≤ UINT_MAX ∧ g_hash_table_lookup h u = none) :
    ∃ k, k < UINT_MAX ∧ g_hash_table_lookup h (candidate n k) = none ∧
      ∀ j, j < k → (g_hash_table_lookup h (candidate n j)).isSome = true := by
  obtain ⟨u, hu1, hu2, hu⟩ := hfree
  have hex : ∃ k, g_hash_table_lookup h (candidate n k) = none :=
    ⟨cyclicDistance n u, by rw [candidate_reaches u hu1 hu2 _ n h1 h2 rfl]; exact hu⟩
  refine ⟨Nat.find hex, ?_, Nat.find_spec hex, ?_⟩
  · have hle : Nat.find hex ≤ cyclicDistance n u :=
      Nat.find_min' hex (by rw [candidate_reaches u hu1 hu2 _ n h1 h2 rfl]; exact hu)
    have hd : cyclicDistance n u < UINT_MAX := by
      unfold cyclicDistance UINT_MAX at *
      split_ifs <;> omega
    omega
  · intro j hj
    have := Nat.find_min hex hj
    cases hc : g_hash_table_lookup h (candidate n j) with
    | none => exact absurd hc this
    | some v => rfl

/-- C20: with `next_id = n` in `1 .. UINT_MAX` and some id in `1 .. UINT_MAX`
unused, the allocator loop ends within `UINT_MAX` rounds and returns the first
candidate that is not live, `candidate n k` with every earlier candidate live
(skipped), an id in `1 .. UINT_MAX`, and leaves `next_id` at the candidate after
it; the candidates are `n` and then, after each `c`, `c + 1`, or 1 when
`c = UINT_MAX` (never 0); and the first id a fresh daemon stores is 1. -/
theorem allocator_returns_first_unused (h : GHashTable NotifyTimeout) (n : Nat) (n_monitors : Nat)
    (hn1 : 1 ≤ n) (hn2 : n ≤ UINT_MAX)
    (hfree : ∃ u, 1 ≤ u ∧ u ≤ UINT_MAX ∧ g_hash_table_lookup h u = none) :
    (∃ k, k < UINT_MAX ∧
      allocate_id h UINT_MAX n = some (candidate n k, candidate n (k + 1)) ∧
      1 ≤ candidate n k ∧ candidate n k ≤ UINT_MAX ∧
      g_hash_table_lookup h (candidate n k) = none ∧
      ∀ j, j < k → (g_hash_table_lookup h (candidate n j)).isSome = true) ∧
    candidate n 0 = n ∧
    (∀ k, candidate n (k + 1)
      = if candidate n k = UINT_MAX then 1 else candidate n k + 1) ∧
    (∀ (D : Int) (nw : Nat) (timeout : Int) (now : GTimeVal),
      (_store_notification D (notify_daemon_init n_monitors) nw timeout now).map
        (fun r => r.1.id) = some 1) := by
  refine ⟨?_, rfl, ?_, ?_⟩
  · obtain ⟨k, hk, hkfree, hklive⟩ := first_free_candidate h n hn1 hn2 hfree
    exact ⟨k, hk, allocate_id_first h UINT_MAX k n hk hn1 hn2 hkfree hklive,
      (candidate_range k n hn1 hn2).1, (candidate_range k n hn1 hn2).2, hkfree, hklive⟩
  · intro k
    simp only [candidate, Function.iterate_succ_apply', next_candidate]
    split_ifs <;> simp_all
  · intro D nw timeout now
    have ha : allocate_id (notify_daemon_init n_monitors).notification_hash UINT_MAX
        (notify_daemon_init n_monitors).next_id = some (1, 2) :=
      allocate_id_first [] UINT_MAX 0 1 (by decide) (by decide) (by decide) rfl
        (fun j hj => absurd hj (by omega))
    simp only [_store_notification, ha, Option.map_some', calculate_timeout_id]

theorem allocator_returns_first_unused_witness :
    (∃ k, k < UINT_MAX ∧
      allocate_id sampleDaemon.notification_hash UINT_MAX 1
        = some (candidate 1 k, candidate 1 (k + 1)) ∧
      1 ≤ candidate 1 k ∧ candidate 1 k ≤ UINT_MAX ∧
      g_hash_table_lookup sampleDaemon.notification_hash (candidate 1 k) = none ∧
      ∀ j, j < k → (g_hash_table_lookup sampleDaemon.notification_hash (candidate 1 j)).isSome
        = true) :=
  (allocator_returns_first_unused sampleDaemon.notification_hash 1 1 (by decide) (by decide)
    ⟨3, by decide, by decide, by decide⟩).1

/-! ## C21: what a debounce callback does when it fires -/

theorem lookup_remove_self {ν : Type} (h : GHashTable ν) (key : Nat) :
    g_hash_table_lookup (g_hash_table_remove h key) key = none := by
  rw [lookup_eq_none_iff, keys_remove]
  simp

/-- C21: when the debounce callback fires for an id it returns `FALSE` (so the
dispatching main loop removes its source); if the registry has no live entry
for the id, the state afterwards is the state before with the id's pending mark
cleared, trace included, so nothing is repositioned; if it has one, the state is
that of `sync_notification_position` on the entry's popup and source window,
with the mark cleared; in both cases the id has no pending mark afterwards, and
a later request for the id attaches a new debounce. -/
theorem debounce_syncs_iff_live (x : XServer) (clock : Nat → GTimeVal) (daemon : NotifyDaemonPrivate)
    (id : Nat) :
    (idle_reposition_notification x daemon id).1 = false ∧
    (g_hash_table_lookup daemon.notification_hash id = none →
      (idle_reposition_notification x daemon id).2 = mark_cleared daemon id) ∧
    (∀ nt, g_hash_table_lookup daemon.notification_hash id = some nt →
      (idle_reposition_notification x daemon id).2
        = mark_cleared (sync_notification_position x daemon nt.nw nt.src_window_xid) id) ∧
    (mark_cleared daemon id).trace = daemon.trace ∧
    g_hash_table_lookup (idle_reposition_notification x daemon id).2.idle_reposition_notify_ids id
      = none ∧
    (_queue_idle_reposition_notification (idle_reposition_notification x daemon id).2 id).sources
      = (idle_reposition_notification x daemon id).2.sources
        ++ [{ id := (idle_reposition_notification x daemon id).2.next_source_id,
              interval_ms := 50, func := SourceFunc.idle_reposition_notification id }] ∧
    (∀ s : GSource, s.func = SourceFunc.idle_reposition_notification id →
      dispatch x clock daemon s
        = some (g_source_remove (idle_reposition_notification x daemon id).2 s.id)) := by
  have hclear : g_hash_table_lookup
      (idle_reposition_notification x daemon id).2.idle_reposition_notify_ids id = none := by
    rw [(idle_reposition_notification_queue x daemon id).2.2.2.2]
    exact lookup_remove_self _ _
  refine ⟨rfl, ?_, ?_, rfl, hclear, ?_, ?_⟩
  · intro hl
    simp only [idle_reposition_notification, hl, mark_cleared]
  · intro nt hl
    simp only [idle_reposition_notification, hl, mark_cleared]
  · simp [_queue_idle_reposition_notification, hclear, g_timeout_add]
  · intro s hs
    simp only [dispatch, hs, (idle_reposition_notification_queue x daemon id).1,
      Bool.false_eq_true, if_false]

/-! ## C22: subscription of the X event filter -/

/-- C22 fails on the code when the source window is a top-level window: a
`Notify` with `window-xid = 7`, whose parent is the root, returns id 1 and
leaves the filter subscribed (`x11_filters = 1`) while no window is tracked; a
second such `Notify` subscribes the filter again (`x11_filters = 2`), the
tracked set still empty. -/
theorem filter_subscribed_without_tracked_window :
    (notify_daemon_notify_handler 7000 sampleEnv (notify_daemon_init 1) anchoredRequest).bind
        (fun r1 =>
          (notify_daemon_notify_handler 7000 { sampleEnv with new_nw := 122 } r1.2
            anchoredRequest).map
            (fun r2 => (r1.1, r1.2.x11_filters, r1.2.monitored_window_hash.keys,
              r2.1, r2.2.x11_filters, r2.2.monitored_window_hash.keys)))
      = some (Reply.return_id 1, 1, [], Reply.return_id 2, 2, []) := by
  decide

/-! ## C23: tracking records the ancestors of the source window -/

theorem lookup_insert {ν : Type} (h : GHashTable ν) (key j : Nat) (value : ν) :
    g_hash_table_lookup (g_hash_table_insert h key value) j
      = if j = key then some value else g_hash_table_lookup h j := by
  induction h with
  | nil =>
    by_cases hj : j = key
    · simp [g_hash_table_insert, g_hash_table_lookup, hj]
    · have : ¬ key = j := fun c => hj c.symm
      simp [g_hash_table_insert, g_hash_table_lookup, hj, this]
  | cons e rest ih =>
    obtain ⟨k, v⟩ := e
    by_cases hk : k = key
    · by_cases hj : j = key
      · simp [g_hash_table_insert, g_hash_table_lookup, hk, hj]
      · have : ¬ key = j := fun c => hj c.symm
        simp [g_hash_table_insert, g_hash_table_lookup, hk, hj, this]
    · by_cases hkj : k = j
      · have : ¬ j = key := fun c => hk (hkj.trans c)
        simp [g_hash_table_insert, g_hash_table_lookup, hk, hkj, this]
      · simp [g_hash_table_insert, g_hash_table_lookup, hk, hkj, ih]

theorem lookup_foldl_insert (id : Nat) (w : Nat) :
    ∀ (chain : List Nat) (h : GHashTable Nat),
      g_hash_table_lookup (chain.foldl (fun t a => g_hash_table_insert t a id) h) w
        = if w ∈ chain then some id else g_hash_table_lookup h w := by
  intro chain
  induction chain with
  | nil => intro h; simp
  | cons a rest ih =>
    intro h
    rw [List.foldl_cons, ih, lookup_insert]
    by_cases h1 : w ∈ rest
    · simp [h1]
    · by_cases h2 : w = a
      · simp [h2]
      · simp [h1, h2]

theorem ancestorChain_root (x : XServer) (root : Nat) :
    ∀ (chain : List Nat) (w : Nat), AncestorChain x root w chain → root ∉ chain := by
  intro chain
  induction chain with
  | nil => intro w _; simp
  | cons a rest ih =>
    intro w h
    obtain ⟨_, _, h3, h4⟩ := h
    simp only [List.mem_cons, not_or]
    exact ⟨fun c => h3 c.symm, ih a h4⟩

theorem monitor_walk_chain (x : XServer) (id root : Nat) :
    ∀ (chain : List Nat) (w fuel r0 : Nat) (d : NotifyDaemonPrivate),
      AncestorChain x root w chain → chain.length < fuel →
      ∃ d2, monitor_walk x id fuel (get_window_parent x w r0).1 (get_window_parent x w r0).2 d
          = some d2 ∧
        d2.monitored_window_hash
          = chain.foldl (fun t a => g_hash_table_insert t a id) d.monitored_window_hash ∧
        d2.notification_hash = d.notification_hash ∧
        d2.trace = d.trace ++ chain.map Call.XSelectInput := by
  intro chain
  induction chain with
  | nil =>
    intro w fuel r0 d h hf
    unfold AncestorChain at h
    cases fuel with
    | zero => simp at hf
    | succ f =>
      refine ⟨d, ?_, rfl, rfl, by simp⟩
      simp [get_window_parent, h, monitor_walk]
  | cons a rest ih =>
    intro w fuel r0 d h hf
    obtain ⟨h1, h2, h3, h4⟩ := h
    cases fuel with
    | zero => simp at hf
    | succ f =>
      have hgp : get_window_parent x w r0 = (a, root) := by simp [get_window_parent, h1]
      have hc : a ≠ 0 ∧ root ≠ a := ⟨h2, fun c => h3 c.symm⟩
      obtain ⟨d2, e1, e2, e3, e4⟩ := ih a f root
        { d.call (Call.XSelectInput a) with
          monitored_window_hash := g_hash_table_insert d.monitored_window_hash a id }
        h4 (by simpa using hf)
      refine ⟨d2, ?_, ?_, ?_, ?_⟩
      · rw [hgp, monitor_walk, if_pos hc]
        exact e1
      · rw [e2]; rfl
      · rw [e3]; rfl
      · rw [e4]; simp [NotifyDaemonPrivate.call]

/-- C23: for a window tree in which the proper ancestors of `s` below the root
are `chain` (every parent query on the way succeeding) and which has at most
`n_windows` of them, `monitor_notification_source_windows (daemon, nt, s)`
returns; afterwards the entry's `src_window_xid` is `s`, every window of `chain`
is mapped to `nt->id` in the tracked-window set, the mapping of every other
window is what it was, and the root is not in `chain`, so it is never added;
`XSelectInput` is called on the windows of `chain`, in order. -/
theorem tracking_records_ancestors (x : XServer) (daemon : NotifyDaemonPrivate) (key s : Nat)
    (nt : NotifyTimeout) (root : Nat) (chain : List Nat)
    (hl : g_hash_table_lookup daemon.notification_hash key = some nt)
    (hchain : AncestorChain x root s chain) (hfin : chain.length ≤ x.n_windows) :
    ∃ d2, monitor_notification_source_windows x daemon key s = some d2 ∧
      g_hash_table_lookup d2.notification_hash key = some { nt with src_window_xid := s } ∧
      (∀ w ∈ chain, g_hash_table_lookup d2.monitored_window_hash w = some nt.id) ∧
      (∀ w, w ∉ chain → g_hash_table_lookup d2.monitored_window_hash w
        = g_hash_table_lookup daemon.monitored_window_hash w) ∧
      root ∉ chain ∧
      d2.trace = daemon.trace ++ chain.map Call.XSelectInput := by
  have hwalk : ∀ d0 : NotifyDaemonPrivate, ∃ d2,
      monitor_walk x nt.id (x.n_windows + 1) (get_window_parent x s 0).1
        (get_window_parent x s 0).2 d0 = some d2 ∧
      d2.monitored_window_hash
        = chain.foldl (fun t a => g_hash_table_insert t a nt.id) d0.monitored_window_hash ∧
      d2.notification_hash = d0.notification_hash ∧
      d2.trace = d0.trace ++ chain.map Call.XSelectInput :=
    fun d0 => monitor_walk_chain x nt.id root chain s (x.n_windows + 1) 0 d0 hchain (by omega)
  have hmain : ∃ d2, monitor_notification_source_windows x daemon key s = some d2 ∧
      d2.monitored_window_hash
        = chain.foldl (fun t a => g_hash_table_insert t a nt.id) daemon.monitored_window_hash ∧
      d2.notification_hash
        = write_entry daemon.notification_hash key { nt with src_window_xid := s } ∧
      d2.trace = daemon.trace ++ chain.map Call.XSelectInput := by
    by_cases h0 : g_hash_table_size daemon.monitored_window_hash = 0
    · obtain ⟨d2, e1, e2, e3, e4⟩ := hwalk
        { daemon with x11_filters := daemon.x11_filters + 1,
                      notification_hash :=
                        write_entry daemon.notification_hash key { nt with src_window_xid := s } }
      exact ⟨d2, by simp only [monitor_notification_source_windows, h0, if_true, hl]; exact e1,
        e2, e3, e4⟩
    · obtain ⟨d2, e1, e2, e3, e4⟩ := hwalk
        { daemon with notification_hash :=
            write_entry daemon.notification_hash key { nt with src_window_xid := s } }
      exact ⟨d2, by simp only [monitor_notification_source_windows, h0, if_false, hl]; exact e1,
        e2, e3, e4⟩
  obtain ⟨d2, e1, e2, e3, e4⟩ := hmain
  refine ⟨d2, e1, ?_, ?_, ?_, ancestorChain_root x root chain s hchain, e4⟩
  · rw [e3]; exact lookup_write_entry_self _ _ _ _ hl
  · intro w hw
    rw [e2, lookup_foldl_insert, if_pos hw]
  · intro w hw
    rw [e2, lookup_foldl_insert, if_neg hw]

theorem tracking_records_ancestors_witness :
    ∃ d2, monitor_notification_source_windows nestedXServer storedDaemon 1 9 = some d2 ∧
      g_hash_table_lookup d2.monitored_window_hash 8 = some 1 ∧
      g_hash_table_lookup d2.monitored_window_hash 7 = some 1 ∧
      g_hash_table_lookup d2.monitored_window_hash 1 = none := by
  cases hl : g_hash_table_lookup storedDaemon.notification_hash 1 with
  | none => exact absurd hl (by decide)
  | some nt =>
    have hid : nt.id = 1 := by
      have h1 : (g_hash_table_lookup storedDaemon.notification_hash 1).map (fun e => e.id)
          = some 1 := by decide
      rw [hl] at h1
      simpa using h1
    obtain ⟨d2, h1, _, h3, h4, _, _⟩ := tracking_records_ancestors nestedXServer storedDaemon 1 9
      nt 1 [8, 7] hl (by decide) (by decide)
    refine ⟨d2, h1, ?_, ?_, ?_⟩
    · rw [h3 8 (by decide), hid]
    · rw [h3 7 (by decide), hid]
    · rw [h4 1 (by decide)]
      decide

/-! ## C24: the periodic tick is scheduled while an entry is timed -/

theorem has_timed_entry_iff (h : GHashTable NotifyTimeout) :
    has_timed_entry h = true ↔ ∃ e ∈ h, e.2.has_timeout = true := by
  simp [has_timed_entry, List.any_eq_true]

theorem sweep_more_eq (clock : Nat → GTimeVal) (h : GHashTable NotifyTimeout) :
    sweep_more clock h = has_timed_entry (sweep_table clock h) := by
  induction h with
  | nil => simp [sweep_more, sweep_table, has_timed_entry]
  | cons e rest ih =>
    simp only [sweep_more, sweep_table, has_timed_entry] at ih
    by_cases hE : ExpiredAt (clock e.1) e.2
    · simp [sweep_more, sweep_table, has_timed_entry, hE, ih]
    · simp [sweep_more, sweep_table, has_timed_entry, hE, ih,
        (tick_entry_id (clock e.1) e.2).2.2.1]

theorem has_timed_entry_sweep (clock : Nat → GTimeVal) (h : GHashTable NotifyTimeout)
    (ht : has_timed_entry (sweep_table clock h) = true) : has_timed_entry h = true := by
  rw [has_timed_entry_iff] at ht ⊢
  obtain ⟨e, he, hte⟩ := ht
  simp only [sweep_table, List.mem_filterMap] at he
  obtain ⟨a, ha, hae⟩ := he
  by_cases hE : ExpiredAt (clock a.1) a.2
  · simp [hE] at hae
  · simp only [hE, if_false, Option.some.injEq] at hae
    rw [← hae] at hte
    simp only [(tick_entry_id (clock a.1) a.2).2.2.1] at hte
    exact ⟨a, ha, hte⟩

theorem calculate_timeout_tick (D : Int) (d : NotifyDaemonPrivate) (nt : NotifyTimeout)
    (timeout : Int) (now : GTimeVal) (h1 : 1 ≤ d.next_source_id) :
    1 ≤ (_calculate_timeout D d nt timeout now).2.next_source_id ∧
    (d.timeout_source ≠ 0 → (_calculate_timeout D d nt timeout now).2.timeout_source ≠ 0) ∧
    ((_calculate_timeout D d nt timeout now).1.has_timeout = true →
      (_calculate_timeout D d nt timeout now).2.timeout_source ≠ 0) := by
  by_cases h0 : timeout = 0
  · simp [_calculate_timeout, h0, h1]
  · by_cases hs : d.timeout_source = 0
    · simp [_calculate_timeout, h0, hs, NotifyDaemonPrivate.call, g_timeout_add]
      omega
    · simp [_calculate_timeout, h0, hs, NotifyDaemonPrivate.call, h1]

theorem remove_exit_timeout_tick (d : NotifyDaemonPrivate) :
    (remove_exit_timeout d).timeout_source = d.timeout_source := by
  by_cases h0 : d.exit_timeout_source = 0 <;>
    simp [remove_exit_timeout, h0, g_source_remove]

theorem add_exit_timeout_tick (d : NotifyDaemonPrivate) :
    (add_exit_timeout d).timeout_source = d.timeout_source ∧
    d.next_source_id ≤ (add_exit_timeout d).next_source_id := by
  by_cases h0 : d.exit_timeout_source > 0 <;> simp [add_exit_timeout, h0, g_timeout_add]

theorem tickOk_init (n : Nat) : TickOk (notify_daemon_init n) := by
  simp [TickOk, notify_daemon_init, add_exit_timeout, NotifyDaemonPrivate.zero,
    g_timeout_add, has_timed_entry]

theorem tickOk_store (D : Int) (d d2 : NotifyDaemonPrivate) (nw : Nat) (timeout : Int)
    (now : GTimeVal) (nt : NotifyTimeout) (hok : TickOk d)
    (h : _store_notification D d nw timeout now = some (nt, d2)) : TickOk d2 := by
  unfold _store_notification at h
  split at h
  · cases h
  · rename_i id next_id _
    simp only [Option.some.injEq, Prod.mk.injEq] at h
    obtain ⟨_, h2⟩ := h
    obtain ⟨c1, c2, c3⟩ := calculate_timeout_tick D { d with next_id := next_id }
      { NotifyTimeout.zero with id := id, nw := nw } timeout now hok.1
    have ch := calculate_timeout_hash D { d with next_id := next_id }
      { NotifyTimeout.zero with id := id, nw := nw } timeout now
    rw [← h2]
    unfold TickOk
    rw [(remove_exit_timeout_exit _).2, remove_exit_timeout_hash, remove_exit_timeout_tick]
    refine ⟨c1, ?_⟩
    intro ht
    rw [has_timed_entry_iff] at ht
    obtain ⟨e, he, hte⟩ := ht
    rcases mem_insert _ _ _ _ he with rfl | he'
    · exact c3 hte
    · rw [ch] at he'
      exact c2 (hok.2 ((has_timed_entry_iff _).2 ⟨e, he', hte⟩))

theorem tickOk_rearm (D : Int) (d : NotifyDaemonPrivate) (nt : NotifyTimeout) (key : Nat)
    (timeout : Int) (now : GTimeVal) (hok : TickOk d) :
    TickOk { (_calculate_timeout D d nt timeout now).2 with
      notification_hash :=
        write_entry (_calculate_timeout D d nt timeout now).2.notification_hash key
          (_calculate_timeout D d nt timeout now).1 } := by
  obtain ⟨c1, c2, c3⟩ := calculate_timeout_tick D d nt timeout now hok.1
  have ch := calculate_timeout_hash D d nt timeout now
  refine ⟨c1, ?_⟩
  intro ht
  rw [has_timed_entry_iff] at ht
  obtain ⟨e, he, hte⟩ := ht
  rcases mem_write_entry _ _ _ _ he with ⟨_, hv, _⟩ | ⟨_, he'⟩
  · rw [hv] at hte
    exact c3 hte
  · rw [ch] at he'
    exact c2 (hok.2 ((has_timed_entry_iff _).2 ⟨e, he', hte⟩))

theorem tickOk_close (d : NotifyDaemonPrivate) (id : Nat) (hide : Bool)
    (reason : NotifydClosedReason) (hok : TickOk d) :
    TickOk (_close_notification d id hide reason) := by
  cases hl : g_hash_table_lookup d.notification_hash id with
  | none => rw [close_notification_absent d id hide reason hl]; exact hok
  | some nt =>
    have hh := (close_notification_live d id hide reason nt hl).1
    have hsub : has_timed_entry (g_hash_table_remove d.notification_hash id) = true →
        has_timed_entry d.notification_hash = true := by
      intro ht
      rw [has_timed_entry_iff] at ht ⊢
      obtain ⟨e, he, hte⟩ := ht
      exact ⟨e, List.mem_of_mem_filter he, hte⟩
    have hts : (_close_notification d id hide reason).timeout_source = d.timeout_source ∧
        d.next_source_id ≤ (_close_notification d id hide reason).next_source_id := by
      simp only [_close_notification, hl]
      cases hide <;> split_ifs <;>
        first
          | exact add_exit_timeout_tick _
          | exact ⟨rfl, Nat.le_refl _⟩
    unfold TickOk
    rw [hh, hts.1]
    exact ⟨Nat.le_trans hok.1 hts.2, fun ht => hok.2 (hsub ht)⟩

theorem check_expiration_tick (clock : Nat → GTimeVal) (d : NotifyDaemonPrivate) :
    (has_timed_entry (_check_expiration clock d).2.notification_hash = false →
      (_check_expiration clock d).1 = false ∧ (_check_expiration clock d).2.timeout_source = 0) ∧
    (has_timed_entry (_check_expiration clock d).2.notification_hash = true →
      (_check_expiration clock d).1 = true ∧
      (_check_expiration clock d).2.timeout_source = d.timeout_source) ∧
    d.next_source_id ≤ (_check_expiration clock d).2.next_source_id := by
  rw [check_expiration_hash, ← sweep_more_eq]
  unfold _check_expiration
  simp only [sweep_eq]
  cases hm : sweep_more clock d.notification_hash with
  | true => simp
  | false =>
    simp only [Bool.or_false, Bool.false_or, Bool.not_false, if_true]
    split_ifs
    · simp [(add_exit_timeout_tick _).1]
      exact (add_exit_timeout_tick { d with
        trace := d.trace ++ sweep_calls clock d.notify_id_data d.notification_hash,
        notification_hash := sweep_table clock d.notification_hash, timeout_source := 0 }).2
    · simp

theorem tickOk_check_expiration (clock : Nat → GTimeVal) (d : NotifyDaemonPrivate) (hok : TickOk d) :
    TickOk (_check_expiration clock d).2 := by
  obtain ⟨_, h2, h3⟩ := check_expiration_tick clock d
  refine ⟨Nat.le_trans hok.1 h3, ?_⟩
  intro ht
  rw [(h2 ht).2]
  rw [check_expiration_hash] at ht
  exact hok.2 (has_timed_entry_sweep clock _ ht)

theorem tickOk_ticking (D : Int) (d : NotifyDaemonPrivate) (h : Ticking D d) : TickOk d := by
  induction h with
  | init n => exact tickOk_init n
  | store nw timeout clock _ hs ih => exact tickOk_store D _ _ nw timeout clock _ ih hs
  | rearm key timeout clock _ _ ih => exact tickOk_rearm D _ _ key timeout clock ih
  | close id hide reason _ ih => exact tickOk_close _ id hide reason ih
  | sweep clock _ ih => exact tickOk_check_expiration clock _ ih

/-- C24: in every state reachable from start-up through `_store_notification`,
`_calculate_timeout` on a live entry, `_close_notification` and
`_check_expiration`, if some live entry has `has_timeout` set then
`timeout_source ≠ 0`; a sweep from such a state after which no entry with
`has_timeout` remains returns `FALSE` and leaves `timeout_source = 0`; and a
sweep that leaves such an entry returns `TRUE` and leaves `timeout_source` as it
was, non-zero. -/
theorem tick_scheduled_while_timed (D : Int) (clock : Nat → GTimeVal) (daemon : NotifyDaemonPrivate)
    (h : Ticking D daemon) :
    (has_timed_entry daemon.notification_hash = true → daemon.timeout_source ≠ 0) ∧
    (has_timed_entry (_check_expiration clock daemon).2.notification_hash = false →
      (_check_expiration clock daemon).1 = false ∧
      (_check_expiration clock daemon).2.timeout_source = 0) ∧
    (has_timed_entry (_check_expiration clock daemon).2.notification_hash = true →
      (_check_expiration clock daemon).1 = true ∧
      (_check_expiration clock daemon).2.timeout_source = daemon.timeout_source ∧
      daemon.timeout_source ≠ 0) := by
  have hok := tickOk_ticking D daemon h
  obtain ⟨h1, h2, _⟩ := check_expiration_tick clock daemon
  refine ⟨hok.2, h1, fun ht => ⟨(h2 ht).1, (h2 ht).2, ?_⟩⟩
  rw [check_expiration_hash] at ht
  exact hok.2 (has_timed_entry_sweep clock _ ht)

theorem tick_scheduled_while_timed_witness :
    Ticking 7000 storedDaemon ∧ has_timed_entry storedDaemon.notification_hash = true ∧
    storedDaemon.timeout_source ≠ 0 :=
  have h : Ticking 7000 storedDaemon :=
    Ticking.store 121 5000 { tv_sec := 15, tv_usec := 0 } (Ticking.init 1)
      (rfl : _store_notification 7000 (notify_daemon_init 1) 121 5000
        { tv_sec := 15, tv_usec := 0 } = some (_, storedDaemon))
  ⟨h, by decide,
    (tick_scheduled_while_timed 7000 (fun _ => { tv_sec := 16, tv_usec := 0 }) storedDaemon h).1
      (by decide)⟩

end MateNotificationDaemon
